import Mathlib

/-! # Dynamic-Presentation: the slide add-on script `general.js`

A shallow embedding of the Google Apps Script file `general.js` and the
properties of it that the specification states.

The script runs inside a host (Slides, the property store, the trigger
service, the HTTP client, the dialog UI).  The host is not part of the
script: it is represented by a `World` value that the script's functions
read and update, and every script function is a state-passing function
`World → Res α` whose result is either a normal completion or a raised
exception, both with the world reached.
-/

namespace DynamicPresentation

/-! ## JavaScript values -/

/-- A JavaScript number, given by the three observations the script makes of
a number: its rendering `String(n)`, the test `n > 0`, and whether it is
falsy (`0` or `NaN`).  Floating-point arithmetic itself is not modelled. -/
structure JsNumber where
  text : String
  positive : Bool
  falsy : Bool
deriving Repr

/-- The values the script handles: what `JSON.parse` can produce, and
`undefined` for a missing property. -/
inductive JsVal where
  | undefined : JsVal
  | null : JsVal
  | bool : Bool → JsVal
  | num : JsNumber → JsVal
  | str : String → JsVal
  | arr : List JsVal → JsVal
  | obj : List (String × JsVal) → JsVal

/-- JavaScript truthiness (`if (v)`, `!v`). -/
def JsVal.truthy : JsVal → Bool
  | .undefined => false
  | .null => false
  | .bool b => b
  | .num n => !n.falsy
  | .str s => s != ""
  | .arr _ => true
  | .obj _ => true

/-- Joins already rendered array items with commas (`Array.prototype.join`). -/
def joinComma : List String → String
  | [] => ""
  | [s] => s
  | s :: rest => s ++ "," ++ joinComma rest

mutual
/-- The conversion `String(v)`, also used by template literals. -/
def JsVal.toStr : JsVal → String
  | .undefined => "undefined"
  | .null => "null"
  | .bool b => if b then "true" else "false"
  | .num n => n.text
  | .str s => s
  | .arr xs => joinComma (JsVal.itemsToStr xs)
  | .obj _ => "[object Object]"
/-- The items of an array as `join` renders them: `null` and `undefined`
items give the empty string. -/
def JsVal.itemsToStr : List JsVal → List String
  | [] => []
  | .undefined :: rest => "" :: JsVal.itemsToStr rest
  | .null :: rest => "" :: JsVal.itemsToStr rest
  | x :: rest => JsVal.toStr x :: JsVal.itemsToStr rest
end

/-! ## `toTitleCase` -/

/-- The regular-expression class `\w` (without the `u` flag): `[A-Za-z0-9_]`. -/
def isWordChar (c : Char) : Bool :=
  ('a' ≤ c && c ≤ 'z') || ('A' ≤ c && c ≤ 'Z') || ('0' ≤ c && c ≤ '9') || c == '_'

/-- What `char.toUpperCase()` gives for a character matched by `\w`: the
ASCII letters `a`..`z` go to `A`..`Z`, digits and `_` stay. -/
def upperWordChar (c : Char) : Char :=
  if 'a' ≤ c && c ≤ 'z' then Char.ofNat (c.toNat - 32) else c

/-- Case folding of the `i` flag (without the `u` flag), as far as it matters
against a pattern of ASCII characters: an ASCII letter is compared by its
upper-case form, and a character outside ASCII never folds to an ASCII one. -/
def canonicalize (c : Char) : Char :=
  if 'a' ≤ c && c ≤ 'z' then Char.ofNat (c.toNat - 32) else c

/-- Whether the literal pattern `pat` matches at the start of `s`, ignoring
case. -/
def matchesAt : List Char → List Char → Bool
  | [], _ => true
  | _ :: _, [] => false
  | p :: ps, c :: cs => canonicalize p == canonicalize c && matchesAt ps cs

/-- The worker of `replaceAllCI`: `skip` counts the characters still to drop
because they belong to the match just replaced. -/
def replaceAllCIAux (pat rep : List Char) : Nat → List Char → List Char
  | _, [] => []
  | skip + 1, _ :: cs => replaceAllCIAux pat rep skip cs
  | 0, c :: cs =>
    if matchesAt pat (c :: cs) then rep ++ replaceAllCIAux pat rep (pat.length - 1) cs
    else c :: replaceAllCIAux pat rep 0 cs

/-- The call `s.replace(/pat/gi, rep)` for a non-empty literal pattern:
every match, from left to right and without overlap, is replaced. -/
def replaceAllCI (pat rep : String) (s : List Char) : List Char :=
  replaceAllCIAux pat.toList rep.toList 0 s

/-- The call `s.replace(/_/g, ' ')`. -/
def underscoresToSpaces (s : List Char) : List Char :=
  s.map (fun c => if c == '_' then ' ' else c)

/-- The worker of `capitalizeWordStarts`: `prevWord` tells whether the
character before the current one is a `\w` character. -/
def capitalizeAux : Bool → List Char → List Char
  | _, [] => []
  | prevWord, c :: cs =>
    if isWordChar c then
      (if prevWord then c else upperWordChar c) :: capitalizeAux true cs
    else c :: capitalizeAux false cs

/-- The call `s.replace(/\b\w/g, char => char.toUpperCase())`: a `\w`
character that follows a non-`\w` character (or starts the string) is put in
upper case. -/
def capitalizeWordStarts (s : List Char) : List Char :=
  capitalizeAux false s

/-- The function `toTitleCase(str)`. -/
def toTitleCase (str : JsVal) : String :=
  if !str.truthy then ""
  else
    let processedStr := underscoresToSpaces (JsVal.toStr str).toList
    let processedStr := replaceAllCI "sexo " "Sexo " processedStr
    let processedStr := replaceAllCI "duracao contrato " "Duração Contrato " processedStr
    let processedStr := replaceAllCI "assinatura " "Assinatura " processedStr
    String.mk (capitalizeWordStarts processedStr)

/-! ## The host: slides, properties, triggers, dialogs -/

/-- Text style of a shape, as far as the script sets it. -/
structure TextStyle where
  fontSize : Option ℚ
  bold : Bool
  italic : Bool
  foregroundColor : Option String
deriving DecidableEq

/-- No style set. -/
def TextStyle.plain : TextStyle := ⟨none, false, false, none⟩

/-- Kinds of page element: `getShapes()` returns the shapes only. -/
inductive ElementKind where
  | shape : ElementKind
  | image : ElementKind
  | other : ElementKind
deriving DecidableEq

/-- A page element of a slide.  `removeFails` tells that the host raises
when `remove()` is called on it. -/
structure PageElement where
  objectId : Nat
  kind : ElementKind
  text : String
  left : ℚ
  top : ℚ
  width : ℚ
  height : ℚ
  style : TextStyle
  removeFails : Bool
deriving DecidableEq

/-- A slide: its object id and its page elements, in order. -/
structure Slide where
  objectId : String
  pageElements : List PageElement

/-- An installed trigger. -/
structure Trigger where
  uniqueId : Nat
  handlerFunction : String
  atMs : ℚ

/-- A custom menu: its caption and its items (caption, function name). -/
structure Menu where
  caption : String
  items : List (String × String)

/-- A dialog shown to the user: a modal HTML dialog or an alert. -/
inductive Dialog where
  | modal : (html : String) → (width height : Nat) → (title : String) → Dialog
  | alert : (message : String) → Dialog
deriving DecidableEq

/-- An outbound HTTP request of `UrlFetchApp.fetch`. -/
structure Request where
  url : String
  method : String
  contentType : String
  payload : String
  muteHttpExceptions : Bool

/-- What one call of `UrlFetchApp.fetch` does: it raises, or it returns a
response with a code and a body. -/
inductive FetchOutcome where
  | raises : (message : String) → FetchOutcome
  | response : (code : Int) → (body : String) → FetchOutcome

/-- The state of the host the script runs in. -/
structure World where
  /-- The slides of the presentation, `none` when `openById` raises. -/
  presentation : Option (List Slide)
  /-- The user properties (key, value). -/
  properties : List (String × String)
  /-- Every `setProperty` call made so far, oldest first. -/
  propertyWrites : List (String × String)
  triggers : List Trigger
  /-- Whether `SlidesApp.getUi()` is available in this execution. -/
  uiAvailable : Bool
  menus : List Menu
  dialogs : List Dialog
  /-- Console lines (level, message), oldest first. -/
  console : List (String × String)
  requests : List Request
  /-- The clock: `Date.now()`. -/
  nowMs : ℚ
  /-- What `new Date().toLocaleString('pt-BR')` gives. -/
  localeNow : String
  /-- The function `JSON.parse`: `none` when it raises a SyntaxError. -/
  jsonParse : String → Option JsVal
  /-- Whether decoding the base64 text and inserting it as an image succeeds. -/
  imageLoads : String → Bool

/-- The completion of a script function: normal with a value, or a raised
exception with its message; both with the world reached. -/
inductive Res (α : Type) where
  | ok : α → World → Res α
  | raised : String → World → Res α

/-- The world a completion ends in. -/
def Res.world {α : Type} : Res α → World
  | .ok _ w => w
  | .raised _ w => w

/-- Whether the completion is normal. -/
def Res.isOk {α : Type} : Res α → Bool
  | .ok _ _ => true
  | .raised _ _ => false

/-- A script computation. -/
def Script (α : Type) : Type := World → Res α

/-- Normal completion with a value. -/
def Script.pure {α : Type} (a : α) : Script α := fun w => .ok a w

/-- Sequencing: an exception of the first part skips the second. -/
def Script.bind {α β : Type} (m : Script α) (f : α → Script β) : Script β :=
  fun w => match m w with
    | .ok a w1 => f a w1
    | .raised e w1 => .raised e w1

instance : Monad Script where
  pure := Script.pure
  bind := Script.bind

/-- The statement `throw new Error(msg)`, also used for what the host raises. -/
def raise {α : Type} (msg : String) : Script α := fun w => .raised msg w

/-- The statement `try { body } catch (e) { handler(e.message) }`. -/
def tryCatch {α : Type} (body : Script α) (handler : String → Script α) : Script α :=
  fun w => match body w with
    | .ok a w1 => .ok a w1
    | .raised e w1 => handler e w1

/-- The statement `try { body } finally { fin }`: `fin` runs however `body`
completes; an exception of `fin` replaces the completion of `body`. -/
def tryFinally {α : Type} (body : Script α) (fin : Script Unit) : Script α :=
  fun w => match body w with
    | .ok a w1 =>
      (match fin w1 with
        | .ok _ w2 => .ok a w2
        | .raised e w2 => .raised e w2)
    | .raised e w1 =>
      (match fin w1 with
        | .ok _ w2 => .raised e w2
        | .raised e2 w2 => .raised e2 w2)

/-- The loops `xs.forEach(f)` and `for (i = 0; i < xs.length; i++)` over an
array fixed before the loop. -/
def forEach {α : Type} : List α → (α → Script Unit) → Script Unit
  | [], _ => Script.pure ()
  | x :: xs, f => Script.bind (f x) (fun _ => forEach xs f)

/-- The loop `xs.forEach((x, index) => f)`, `index` counting from `start`. -/
def forEachIdx {α : Type} : List α → Nat → (α → Nat → Script Unit) → Script Unit
  | [], _, _ => Script.pure ()
  | x :: xs, i, f => Script.bind (f x i) (fun _ => forEachIdx xs (i + 1) f)

/-- Reads the world. -/
def getWorld : Script World := fun w => .ok w w

/-- Updates the world. -/
def modifyWorld (f : World → World) : Script Unit := fun w => .ok () (f w)

/-- The calls `console.log`, `console.warn` and `console.error`. -/
def consoleWrite (level msg : String) : Script Unit :=
  modifyWorld (fun w => { w with console := w.console ++ [(level, msg)] })

/-! ## Global configuration -/

def PRESENTATION_ID : String := "ID_GENERICO_DA_APRESENTACAO"
def CLOUD_FUNCTION_URL : String := "https://sua-cloud-function-url-generica.run.app"
def ANALYSIS_START_DELAY_MINUTES : ℚ := 0.5
def LOADING_MESSAGE_TEXT : String := "Executando análises..."
def ERROR_MESSAGE_PREFIX : String := "Erro na análise:"
def LOADING_MESSAGE_SLIDE_ID : String := "ID_DO_SLIDE_DE_CARREGAMENTO"
def SLIDE_6_ID : String := "ID_SLIDE_PARA_EXPLORATORIA"
def SLIDE_7_ID : String := "ID_SLIDE_PARA_DISTRIBUICOES"
def SLIDE_8_ID : String := "ID_SLIDE_PARA_ASSOCCIACOES"
def SLIDE_9_ID : String := "ID_SLIDE_PARA_MODELO"
def SLIDE_10_ID : String := "ID_SLIDE_PARA_FATORES_RISCO"
def SLIDE_11_ID : String := "ID_SLIDE_PARA_IMPACTO_CALL_CENTER"
def SLIDE_12_ID : String := "ID_SLIDE_PARA_INSIGHTS_FINAIS"

def SLIDES_TO_CLEAR_ON_OPEN : List String :=
  [SLIDE_6_ID, SLIDE_7_ID, SLIDE_8_ID, SLIDE_9_ID, SLIDE_10_ID, SLIDE_11_ID, SLIDE_12_ID]

def SLIDE_WIDTH : ℚ := 960
def SLIDE_HEIGHT : ℚ := 540
def MARGIN_LEFT : ℚ := 50
def MARGIN_RIGHT : ℚ := 50
def MARGIN_TOP : ℚ := 50
def MARGIN_BOTTOM : ℚ := 50
def CONTENT_WIDTH : ℚ := SLIDE_WIDTH - MARGIN_LEFT - MARGIN_RIGHT
def CONTENT_HEIGHT : ℚ := SLIDE_HEIGHT - MARGIN_TOP - MARGIN_BOTTOM
def TITLE_FONT_SIZE : ℚ := 22
def TITLE_COLOR : String := "#1f4e79"
def TEXT_FONT_SIZE : ℚ := 12
def TEXT_LINE_HEIGHT : ℚ := 20
def SLIDE6_TEXT_FONT_SIZE : ℚ := 14
def SLIDE6_TEXT_INDENT : ℚ := 20
def SLIDE12_TEXT_FONT_SIZE : ℚ := 9
def SLIDE12_TEXT_LINE_HEIGHT : ℚ := 12

def ANALYSIS_STATUS_KEY : String := "analysis_status"
def STATUS_RUNNING : String := "RUNNING"
def STATUS_COMPLETED : String := "COMPLETED"
def STATUS_NOT_STARTED : String := "NOT_STARTED"
def STATUS_ERROR : String := "ERROR"

/-! ## Host calls -/

/-- The value stored under a key of an association list. -/
def lookupKey (key : String) : List (String × String) → Option String
  | [] => none
  | (k, v) :: rest => if k == key then some v else lookupKey key rest

/-- The association list with `key` set to `value`. -/
def storeKey (key value : String) : List (String × String) → List (String × String)
  | [] => [(key, value)]
  | (k, v) :: rest => if k == key then (k, value) :: rest else (k, v) :: storeKey key value rest

/-- The call `PropertiesService.getUserProperties().getProperty(key)`; `none`
is JavaScript's `null`. -/
def getProperty (key : String) : Script (Option String) :=
  fun w => .ok (lookupKey key w.properties) w

/-- The call `PropertiesService.getUserProperties().setProperty(key, value)`. -/
def setProperty (key value : String) : Script Unit :=
  modifyWorld (fun w => { w with
    properties := storeKey key value w.properties
    propertyWrites := w.propertyWrites ++ [(key, value)] })

/-- The call `SlidesApp.openById(id)`: it raises when the presentation cannot
be opened. -/
def openById (_id : String) : Script Unit :=
  fun w => match w.presentation with
    | some _ => .ok () w
    | none => .raised "Document is missing (perhaps it was deleted, or you don't have read access?)" w

/-- The slide with the given id, if the presentation has one. -/
def findSlide (slideId : String) : List Slide → Option Slide
  | [] => none
  | s :: rest => if s.objectId == slideId then some s else findSlide slideId rest

/-- The call `presentation.getSlideById(id)`: the slide (here: its id) or
`none` for JavaScript's `null`. -/
def getSlideById (slideId : String) : Script (Option String) :=
  fun w => match w.presentation with
    | some slides =>
      (match findSlide slideId slides with
        | some _ => .ok (some slideId) w
        | none => .ok none w)
    | none => .ok none w

/-- Dereferences a slide for a method call: on `null` JavaScript raises a
TypeError. -/
def slideOrRaise (slide : Option String) (method : String) : Script String :=
  match slide with
  | some s => Script.pure s
  | none => raise ("Cannot read properties of null (reading '" ++ method ++ "')")

/-- The page elements of a slide in a world. -/
def World.elementsOf (w : World) (slideId : String) : List PageElement :=
  match w.presentation with
  | some slides =>
    (match findSlide slideId slides with
      | some s => s.pageElements
      | none => [])
  | none => []

/-- Applies `f` to the page elements of the slide with the given id. -/
def World.updateSlide (slideId : String) (f : List PageElement → List PageElement)
    (w : World) : World :=
  { w with presentation := w.presentation.map (fun slides =>
      slides.map (fun s =>
        if s.objectId == slideId then { s with pageElements := f s.pageElements } else s)) }

/-- The call `slide.getPageElements()`: the elements at the time of the
call, as an array of its own. -/
def getPageElements (slide : String) : Script (List PageElement) :=
  fun w => .ok (w.elementsOf slide) w

/-- The call `slide.getShapes()`. -/
def getShapes (slide : String) : Script (List PageElement) :=
  fun w => .ok ((w.elementsOf slide).filter (fun e => e.kind == ElementKind.shape)) w

/-- The call `element.remove()` for an element of the given slide. -/
def removeElement (slide : String) (e : PageElement) : Script Unit :=
  fun w =>
    if e.removeFails then .raised "This operation is not supported on this page element." w
    else .ok () (w.updateSlide slide (fun es => es.filter (fun x => x.objectId != e.objectId)))

/-- An object id no element of the listed slides has. -/
def freshObjectId (slides : List Slide) : Nat :=
  (slides.foldl (fun m s => s.pageElements.foldl (fun m2 e => max m2 e.objectId) m) 0) + 1

/-- Adds a new element at the end of a slide and returns its object id. -/
def insertElement (slide : String) (kind : ElementKind) (left top width height : ℚ) :
    Script Nat :=
  fun w =>
    let newId := freshObjectId (w.presentation.getD [])
    .ok newId (w.updateSlide slide (fun es =>
      es ++ [⟨newId, kind, "", left, top, width, height, TextStyle.plain, false⟩]))

/-- Changes the element with the given object id on a slide. -/
def modifyElement (slide : String) (objectId : Nat) (f : PageElement → PageElement) :
    Script Unit :=
  modifyWorld (World.updateSlide slide (fun es =>
    es.map (fun e => if e.objectId == objectId then f e else e)))

/-- The chain `slide.insertShape(SlidesApp.ShapeType.TEXT_BOX, left, top,
width, height).getText().setText(text).getTextStyle()...`: the box is
inserted first, then the text argument is evaluated (it may raise), then the
text and the style are set. -/
def insertShapeWithText (slide : Option String) (left top width height : ℚ)
    (text : Script String) (style : TextStyle) : Script Nat := do
  let s ← slideOrRaise slide "insertShape"
  let box ← insertElement s ElementKind.shape left top width height
  let t ← text
  modifyElement s box (fun e => { e with text := t, style := style })
  pure box

/-- The call `SlidesApp.getUi()`: it raises where no user interface is
attached (a time-driven execution). -/
def getUi : Script Unit :=
  fun w =>
    if w.uiAvailable then .ok () w
    else .raised "Cannot call SlidesApp.getUi() from this context." w

/-- The call `SlidesApp.getUi().showModalDialog(htmlOutput, title)`. -/
def showModalDialog (html : String) (width height : Nat) (title : String) : Script Unit := do
  getUi
  modifyWorld (fun w => { w with dialogs := w.dialogs ++ [Dialog.modal html width height title] })

/-- The call `SlidesApp.getUi().alert(message)`. -/
def alert (message : String) : Script Unit := do
  getUi
  modifyWorld (fun w => { w with dialogs := w.dialogs ++ [Dialog.alert message] })

/-- The chain `SlidesApp.getUi().createMenu(caption).addItem(..)...addToUi()`. -/
def addMenu (caption : String) (items : List (String × String)) : Script Unit := do
  getUi
  modifyWorld (fun w => { w with menus := w.menus ++ [⟨caption, items⟩] })

/-- A trigger id no installed trigger has. -/
def freshTriggerId (ts : List Trigger) : Nat :=
  (ts.foldl (fun m t => max m t.uniqueId) 0) + 1

/-- The chain `ScriptApp.newTrigger(handler).timeBased().at(new Date(Date.now()
+ delayMs)).create()`. -/
def newTimeTrigger (handler : String) (delayMs : ℚ) : Script Unit :=
  modifyWorld (fun w => { w with
    triggers := w.triggers ++ [⟨freshTriggerId w.triggers, handler, w.nowMs + delayMs⟩] })

/-- The call `ScriptApp.getProjectTriggers()`. -/
def getProjectTriggers : Script (List Trigger) :=
  fun w => .ok w.triggers w

/-- The call `ScriptApp.deleteTrigger(trigger)`. -/
def deleteTrigger (t : Trigger) : Script Unit :=
  modifyWorld (fun w => { w with
    triggers := w.triggers.filter (fun x => x.uniqueId != t.uniqueId) })

/-- The call `UrlFetchApp.fetch(url, options)`: the request is recorded and
the service answers as `answer` says; the result is the response code and
the content text. -/
def fetch (answer : FetchOutcome) (request : Request) : Script (Int × String) :=
  fun w =>
    let w1 := { w with requests := w.requests ++ [request] }
    match answer with
    | .raises msg => .raised msg w1
    | .response code body => .ok (code, body) w1

/-! ## JavaScript helpers on values and strings -/

/-- The worker of `includes` on character lists. -/
def listIncludes (sub : List Char) : List Char → Bool
  | [] => sub.isEmpty
  | c :: cs => sub.isPrefixOf (c :: cs) || listIncludes sub cs

/-- The call `s.includes(sub)`. -/
def includes (s sub : String) : Bool := listIncludes sub.toList s.toList

/-- The property `length` of a string: its number of UTF-16 code units. -/
def utf16Length (s : String) : Nat :=
  s.toList.foldl (fun n c => n + (if c.toNat < 65536 then 1 else 2)) 0

/-- The number value of a natural number. -/
def JsNumber.ofNat (n : Nat) : JsNumber := ⟨toString n, decide (0 < n), n == 0⟩

/-- The value of a property in the property list of an object. -/
def lookupField (name : String) : List (String × JsVal) → JsVal
  | [] => JsVal.undefined
  | (k, v) :: rest => if k == name then v else lookupField name rest

/-- The property access `v.name`: a TypeError on `undefined` and `null`; of
the built-in properties of arrays and strings only `length` is a value. -/
def getProp (v : JsVal) (name : String) : Script JsVal :=
  match v with
  | .undefined => raise ("Cannot read properties of undefined (reading '" ++ name ++ "')")
  | .null => raise ("Cannot read properties of null (reading '" ++ name ++ "')")
  | .obj fields => Script.pure (lookupField name fields)
  | .arr xs =>
    Script.pure (if name == "length" then JsVal.num (JsNumber.ofNat xs.length) else JsVal.undefined)
  | .str s =>
    Script.pure (if name == "length" then JsVal.num (JsNumber.ofNat (utf16Length s))
      else JsVal.undefined)
  | _ => Script.pure JsVal.undefined

/-- The items of `v` for the call `v.forEach(..)`: only an array has the
method. -/
def forEachItems (v : JsVal) (expr : String) : Script (List JsVal) :=
  match v with
  | .arr xs => Script.pure xs
  | .undefined => raise ("Cannot read properties of undefined (reading 'forEach')")
  | .null => raise ("Cannot read properties of null (reading 'forEach')")
  | _ => raise (expr ++ ".forEach is not a function")

/-- The expression `x.startsWith('• ') ? x.substring(2) : x`: only a string
has the method. -/
def stripBullet (v : JsVal) (expr : String) : Script String :=
  match v with
  | .str s => Script.pure (if "• ".toList.isPrefixOf s.toList then String.mk (s.toList.drop 2) else s)
  | .undefined => raise ("Cannot read properties of undefined (reading 'startsWith')")
  | .null => raise ("Cannot read properties of null (reading 'startsWith')")
  | _ => raise (expr ++ ".startsWith is not a function")

/-- Decimal digit. -/
def isDigitChar (c : Char) : Bool := '0' ≤ c && c ≤ '9'

/-- White space that the conversion of a string to a number trims. -/
def isJsSpace (c : Char) : Bool :=
  c == ' ' || c == '\t' || c == '\n' || c == '\r' || c.toNat == 11 || c.toNat == 12 ||
    c.toNat == 160 || c.toNat == 65279

/-- Whether an exponent part (after `e` or `E`) is well formed. -/
def exponentOk (cs : List Char) : Bool :=
  let ds := match cs with
    | '+' :: r => r
    | '-' :: r => r
    | r => r
  !ds.isEmpty && ds.all isDigitChar

/-- Whether an unsigned decimal literal is well formed and has a non-zero
digit in its mantissa. -/
def decimalPositive (cs : List Char) : Bool :=
  let intPart := cs.takeWhile isDigitChar
  let rest := cs.dropWhile isDigitChar
  let fracPart := match rest with
    | '.' :: r => r.takeWhile isDigitChar
    | _ => []
  let rest2 := match rest with
    | '.' :: r => r.dropWhile isDigitChar
    | r => r
  let tailOk := match rest2 with
    | [] => true
    | 'e' :: r => exponentOk r
    | 'E' :: r => exponentOk r
    | _ => false
  (!intPart.isEmpty || !fracPart.isEmpty) && tailOk &&
    (intPart ++ fracPart).any (fun c => c != '0')

/-- Whether a string converts to a number greater than zero: a decimal
literal or `Infinity`, with an optional `+`, between white space.  (Literals
in other bases and the rounding of tiny values to zero are left out.) -/
def stringPositive (s : String) : Bool :=
  let cs := ((s.toList.dropWhile isJsSpace).reverse.dropWhile isJsSpace).reverse
  let body := match cs with
    | '+' :: r => r
    | r => r
  body == "Infinity".toList || decimalPositive body

/-- The comparison `v > 0`. -/
def JsVal.gtZero (v : JsVal) : Bool :=
  match v with
  | .undefined => false
  | .null => false
  | .bool b => b
  | .num n => n.positive
  | other => stringPositive (JsVal.toStr other)

/-- The condition `v && v.length > 0`. -/
def nonEmptyList (v : JsVal) : Script Bool :=
  if v.truthy then do
    let len ← getProp v "length"
    pure len.gtZero
  else pure false

/-! ## Messages on the loading slide -/

/-- The test `textContent.includes(LOADING_MESSAGE_TEXT.substring(0, 10)) ||
textContent.includes(ERROR_MESSAGE_PREFIX)`. -/
def isLoadingOrErrorText (textContent : String) : Bool :=
  includes textContent (String.mk (LOADING_MESSAGE_TEXT.toList.take 10)) ||
    includes textContent ERROR_MESSAGE_PREFIX

/-- The loop that removes the old loading and error boxes among `shapes`. -/
def removeMessageShapes (slide : String) (shapes : List PageElement) (logLine : String) :
    Script Unit :=
  forEach shapes (fun shape =>
    if isLoadingOrErrorText shape.text then do
      removeElement slide shape
      consoleWrite "log" logLine
    else pure ())

/-- The function `exibirMensagemCarregamento()`.  (The final `setRotation(0)`
is left out: rotation is not part of a page element here.) -/
def exibirMensagemCarregamento : Script Unit := do
  openById PRESENTATION_ID
  let slide ← getSlideById LOADING_MESSAGE_SLIDE_ID
  let s ← slideOrRaise slide "getShapes"
  let shapes ← getShapes s
  removeMessageShapes s shapes "Mensagem de carregamento/erro antiga removida."
  let _textBox ← insertShapeWithText slide MARGIN_LEFT MARGIN_TOP (CONTENT_WIDTH / 2)
    (TEXT_LINE_HEIGHT * 2) (pure LOADING_MESSAGE_TEXT)
    ⟨some TEXT_FONT_SIZE, true, false, some "#555555"⟩
  consoleWrite "log" "Mensagem de carregamento exibida."

/-- The function `removerMensagemCarregamento()`. -/
def removerMensagemCarregamento : Script Unit :=
  tryCatch (do
      openById PRESENTATION_ID
      let slide ← getSlideById LOADING_MESSAGE_SLIDE_ID
      match slide with
      | none =>
        consoleWrite "warn" "Aviso: Slide de mensagem de carregamento não encontrado para remoção."
      | some s => do
        let shapes ← getShapes s
        removeMessageShapes s shapes "Mensagem de carregamento/erro removida.")
    (fun e => consoleWrite "error" ("Erro ao remover mensagem de carregamento/erro: " ++ e))

/-! ## Clearing a slide, the HTTP call, dialogs -/

/-- The function `clearSlideContent(slide)`. -/
def clearSlideContent (slide : Option String) : Script Unit :=
  match slide with
  | none => consoleWrite "error" "Erro: Slide é indefinido ou nulo em clearSlideContent."
  | some s => do
    let elements ← getPageElements s
    forEach elements (fun e => removeElement s e)

/-- The function `callCloudFunction()`; `none` is JavaScript's `null`. -/
def callCloudFunction (answer : FetchOutcome) : Script (Option String) :=
  tryCatch (do
      let options : Request :=
        ⟨CLOUD_FUNCTION_URL, "post", "application/json", "\x7b\"action\":\"full_analysis\"\x7d", true⟩
      let (responseCode, responseBody) ← fetch answer options
      if responseCode ≥ 200 && responseCode < 300 then do
        consoleWrite "log" ("Cloud Function chamada com sucesso. Resposta: " ++ responseBody)
        pure (some responseBody)
      else do
        consoleWrite "error" ("Erro ao chamar Cloud Function: Código " ++ toString responseCode ++
          ", Mensagem: " ++ responseBody)
        pure none)
    (fun e => do
      consoleWrite "error" ("Exceção ao chamar Cloud Function: " ++ e)
      pure none)

/-- The HTML of the dialog of `exibirModalCustomizado`. -/
def customModalHtml (title message textColor : String) : String :=
  "\n      <div style=\"text-align: center; font-family: Arial, sans-serif; padding: 20px;\">" ++
  "\n        <h2 style=\"color: #1f4e79; margin-bottom: 20px;\">" ++ title ++ "</h2>" ++
  "\n        <p style=\"color: " ++ textColor ++
    "; font-weight: bold; margin-bottom: 30px; white-space: pre-wrap;\">" ++ message ++ "</p>" ++
  "\n        <button onclick=\"google.script.host.close()\"" ++
  "\n                       style=\"background-color: #4285f4; color: white; border: none; padding: 10px 20px;" ++
  "\n                              border-radius: 4px; cursor: pointer; font-size: 14px;\">" ++
  "\n          OK" ++
  "\n        </button>" ++
  "\n      </div>" ++
  "\n    "

/-- The function `exibirModalCustomizado(title, message, textColor)`. -/
def exibirModalCustomizado (title message textColor : String) : Script Unit :=
  tryCatch
    (showModalDialog (customModalHtml title message textColor) 400 250 "Informação da Análise")
    (fun e => do
      consoleWrite "error" ("Erro ao exibir modal customizado: " ++ e)
      alert (title ++ "\n\n" ++ message))

/-- The HTML of the dialog of `exibirModalConclusao`. -/
def conclusionModalHtml (localeNow : String) : String :=
  "\n      <div style=\"text-align: center; font-family: Arial, sans-serif; padding: 20px;\">" ++
  "\n        <h2 style=\"color: #1f4e79; margin-bottom: 20px;\">Status da Análise: COMPLETED</h2>" ++
  "\n        <p style=\"color: #666; margin-bottom: 20px;\">Última execução: " ++ localeNow ++ "</p>" ++
  "\n        <div style=\"color: #008000; font-weight: bold; margin-bottom: 30px;\">" ++
  "\n          ✅ Análise concluída com sucesso!" ++
  "\n        </div>" ++
  "\n        <button onclick=\"google.script.host.close()\"" ++
  "\n                               style=\"background-color: #4285f4; color: white; border: none; padding: 10px 20px;" ++
  "\n                                      border-radius: 4px; cursor: pointer; font-size: 14px;\">" ++
  "\n          OK" ++
  "\n        </button>" ++
  "\n      </div>" ++
  "\n    "

/-- The function `exibirModalConclusao()`. -/
def exibirModalConclusao : Script Unit :=
  tryCatch (do
      let w ← getWorld
      showModalDialog (conclusionModalHtml w.localeNow) 400 250 "Script em execução")
    (fun e => consoleWrite "error" ("Erro ao exibir modal de conclusão: " ++ e))

/-- The leading `data:image/<letters>;base64,` removed, as
`base64Data.replace(/^data:image\/[a-z]+;base64,/, '')` does. -/
def stripDataUrlHead (s : List Char) : List Char :=
  let head := "data:image/".toList
  if head.isPrefixOf s then
    let rest := s.drop head.length
    let letters := rest.takeWhile (fun c => 'a' ≤ c && c ≤ 'z')
    let after := rest.dropWhile (fun c => 'a' ≤ c && c ≤ 'z')
    if !letters.isEmpty && ";base64,".toList.isPrefixOf after then after.drop 8 else s
  else s

/-- The function `addImageFromBase64(slide, base64Data, left, top, width,
height)`. -/
def addImageFromBase64 (slide : Option String) (base64Data : JsVal)
    (left top width height : ℚ) : Script Unit :=
  match slide with
  | none => pure ()
  | some s =>
    if !base64Data.truthy then pure ()
    else
      tryCatch (do
          let cleanBase64 ← (match base64Data with
            | .str b => Script.pure (String.mk (stripDataUrlHead b.toList))
            | _ => raise "base64Data.replace is not a function")
          let w ← getWorld
          if w.imageLoads cleanBase64 then do
            let _image ← insertElement s ElementKind.image left top width height
            pure ()
          else raise "Could not decode string.")
        (fun error => do
          consoleWrite "error" ("Erro ao adicionar imagem: " ++ error)
          let errorBox ← insertElement s ElementKind.shape left top width 50
          modifyElement s errorBox (fun e => { e with
            text := "Erro ao carregar gráfico"
            style := ⟨none, false, true, some "#ff0000"⟩ }))

/-! ## Filling the result slides -/

/-- The loop `xs.forEach((x, index) => ..)` whose body updates a local
variable of the enclosing function: the variable is passed along. -/
def forEachAcc {α σ : Type} : List α → Nat → σ → (α → Nat → σ → Script σ) → Script σ
  | [], _, acc, _ => Script.pure acc
  | x :: xs, i, acc, f => Script.bind (f x i acc) (fun acc2 => forEachAcc xs (i + 1) acc2 f)

/-- Style of a slide title. -/
def titleStyle : TextStyle := ⟨some TITLE_FONT_SIZE, true, false, some TITLE_COLOR⟩

/-- Style of a red error text. -/
def errorStyle : TextStyle := ⟨some TEXT_FONT_SIZE, false, false, some "#FF0000"⟩

/-- Style of plain text of the given size. -/
def textStyle (size : ℚ) : TextStyle := ⟨some size, false, false, none⟩

/-- Style of bold text of the given size. -/
def boldStyle (size : ℚ) : TextStyle := ⟨some size, true, false, none⟩

/-- The template literal made of a text, the rendering of `data.name`, and a
text after it. -/
def fieldText (before : String) (data : JsVal) (name : String) (after : String) :
    Script String := do
  let v ← getProp data name
  pure (before ++ v.toStr ++ after)

/-- The error box every fill function shows when `data.erro` is set. -/
def insertErrorBox (slide : Option String) (label : String) (data : JsVal) : Script Unit := do
  let _ ← insertShapeWithText slide MARGIN_LEFT MARGIN_TOP CONTENT_WIDTH (TEXT_LINE_HEIGHT * 3)
    (fieldText label data "erro" "") errorStyle
  pure ()

/-- The title box every fill function inserts at the top. -/
def insertTitle (slide : Option String) (yPos : ℚ) (title : String) : Script Unit := do
  let _ ← insertShapeWithText slide MARGIN_LEFT yPos CONTENT_WIDTH (TITLE_FONT_SIZE + 10)
    (pure title) titleStyle
  pure ()

/-- The function `preencherSlide6(data)`. -/
def preencherSlide6 (data : JsVal) : Script Unit := do
  openById PRESENTATION_ID
  let slide ← getSlideById SLIDE_6_ID
  clearSlideContent slide
  if (← getProp data "erro").truthy then
    insertErrorBox slide "Erro na análise exploratória: " data
  else do
    let yPos := MARGIN_TOP
    insertTitle slide yPos "Análise Exploratória dos Dados"
    let yPos := yPos + (TITLE_FONT_SIZE + 20)
    let yPos := yPos + SLIDE6_TEXT_INDENT
    let _ ← insertShapeWithText slide MARGIN_LEFT yPos CONTENT_WIDTH (SLIDE6_TEXT_FONT_SIZE + 5)
      (fieldText "Dataset: " data "total_registros" " registros") (textStyle SLIDE6_TEXT_FONT_SIZE)
    let yPos := yPos + (SLIDE6_TEXT_FONT_SIZE + 10)
    let _ ← insertShapeWithText slide MARGIN_LEFT yPos CONTENT_WIDTH (SLIDE6_TEXT_FONT_SIZE + 5)
      (fieldText "Variáveis: " data "total_variaveis" "") (textStyle SLIDE6_TEXT_FONT_SIZE)
    let yPos := yPos + (SLIDE6_TEXT_FONT_SIZE + 10)
    let _ ← insertShapeWithText slide MARGIN_LEFT yPos CONTENT_WIDTH (SLIDE6_TEXT_FONT_SIZE + 5)
      (fieldText "Taxa de cancelamento: " data "taxa_cancelamento" "%")
      (textStyle SLIDE6_TEXT_FONT_SIZE)
    let yPos := yPos + (SLIDE6_TEXT_FONT_SIZE + 10)
    let _ ← insertShapeWithText slide MARGIN_LEFT yPos CONTENT_WIDTH (SLIDE6_TEXT_FONT_SIZE + 5)
      (fieldText "Registros válidos: " data "registros_validos" "")
      (textStyle SLIDE6_TEXT_FONT_SIZE)
    let imagem ← getProp data "imagem_base64"
    if imagem.truthy then
      addImageFromBase64 slide imagem 420 100 300 280
    consoleWrite "log" "Slide 6 preenchido."

/-- The function `preencherSlide7(data)`. -/
def preencherSlide7 (data : JsVal) : Script Unit := do
  openById PRESENTATION_ID
  let slide ← getSlideById SLIDE_7_ID
  clearSlideContent slide
  if (← getProp data "erro").truthy then
    insertErrorBox slide "Erro ao gerar distribuições: " data
  else do
    let yPos := MARGIN_TOP
    insertTitle slide yPos "Distribuição das Variáveis Numéricas"
    let yPos := yPos + (TITLE_FONT_SIZE + 20)
    let textColumnWidth := CONTENT_WIDTH * 0.35
    let currentTextYPos := yPos
    let _ ← insertShapeWithText slide MARGIN_LEFT currentTextYPos textColumnWidth TEXT_LINE_HEIGHT
      (pure "Principais estatísticas:") (boldStyle TEXT_FONT_SIZE)
    let currentTextYPos := currentTextYPos + (TEXT_LINE_HEIGHT + 5)
    let _ ← insertShapeWithText slide MARGIN_LEFT currentTextYPos textColumnWidth TEXT_LINE_HEIGHT
      (fieldText "• Idade média: " data "idade_media" " anos") (textStyle TEXT_FONT_SIZE)
    let currentTextYPos := currentTextYPos + TEXT_LINE_HEIGHT
    let _ ← insertShapeWithText slide MARGIN_LEFT currentTextYPos textColumnWidth TEXT_LINE_HEIGHT
      (fieldText "• Frequência de uso: " data "freq_uso_media" "") (textStyle TEXT_FONT_SIZE)
    let currentTextYPos := currentTextYPos + TEXT_LINE_HEIGHT
    let _ ← insertShapeWithText slide MARGIN_LEFT currentTextYPos textColumnWidth TEXT_LINE_HEIGHT
      (fieldText "• Gasto médio: R$ " data "gasto_medio" "") (textStyle TEXT_FONT_SIZE)
    let currentTextYPos := currentTextYPos + TEXT_LINE_HEIGHT
    let _ ← insertShapeWithText slide MARGIN_LEFT currentTextYPos textColumnWidth TEXT_LINE_HEIGHT
      (fieldText "• Ligações call center: " data "ligacoes_media" "") (textStyle TEXT_FONT_SIZE)
    let imagem ← getProp data "imagem_base64"
    if imagem.truthy then
      addImageFromBase64 slide imagem 420 100 300 250
    consoleWrite "log" "Slide 7 preenchido."

/-- The function `preencherSlide8(data)`. -/
def preencherSlide8 (data : JsVal) : Script Unit := do
  openById PRESENTATION_ID
  let slide ← getSlideById SLIDE_8_ID
  clearSlideContent slide
  if (← getProp data "erro").truthy then
    insertErrorBox slide "Erro na análise de associações: " data
  else do
    let yPos := MARGIN_TOP
    insertTitle slide yPos "Associações com Cancelamento"
    let yPos := yPos + (TITLE_FONT_SIZE + 20)
    let textColumnWidth := CONTENT_WIDTH * 0.35
    let currentTextYPos := yPos
    let testes ← getProp data "testes"
    if (← nonEmptyList testes) then do
      let _ ← insertShapeWithText slide MARGIN_LEFT currentTextYPos textColumnWidth TEXT_LINE_HEIGHT
        (pure "Testes qui-quadrado:") (boldStyle TEXT_FONT_SIZE)
      let currentTextYPos := currentTextYPos + (TEXT_LINE_HEIGHT + 5)
      let items ← forEachItems testes "data.testes"
      let _ ← forEachAcc items 0 currentTextYPos (fun teste _ currentTextYPos => do
        let _ ← insertShapeWithText slide MARGIN_LEFT currentTextYPos textColumnWidth
          TEXT_LINE_HEIGHT
          (do
            let variavel ← getProp teste "variavel"
            let resultado ← getProp teste "resultado"
            pure ("• " ++ toTitleCase variavel ++ ": " ++ resultado.toStr))
          (textStyle TEXT_FONT_SIZE)
        let currentTextYPos := currentTextYPos + TEXT_LINE_HEIGHT
        let _ ← insertShapeWithText slide MARGIN_LEFT currentTextYPos textColumnWidth
          TEXT_LINE_HEIGHT (fieldText "   p-valor: " teste "p_valor" "") (textStyle TEXT_FONT_SIZE)
        pure (currentTextYPos + TEXT_LINE_HEIGHT))
      pure ()
    else do
      let _ ← insertShapeWithText slide MARGIN_LEFT currentTextYPos textColumnWidth
        (TEXT_LINE_HEIGHT * 2)
        (pure "Nenhum teste de associação significativa encontrado ou dados insuficientes.")
        (textStyle TEXT_FONT_SIZE)
      pure ()
    let imagem ← getProp data "imagem_base64"
    if imagem.truthy then
      addImageFromBase64 slide imagem 420 100 300 280
    consoleWrite "log" "Slide 8 preenchido."

/-- The function `preencherSlide9(data)`. -/
def preencherSlide9 (data : JsVal) : Script Unit := do
  openById PRESENTATION_ID
  let slide ← getSlideById SLIDE_9_ID
  clearSlideContent slide
  if (← getProp data "erro").truthy then
    insertErrorBox slide "Erro ao construir modelo: " data
  else do
    let yPos := MARGIN_TOP
    insertTitle slide yPos "Performance do Modelo Preditivo"
    let yPos := yPos + (TITLE_FONT_SIZE + 20)
    let textColumnWidth := CONTENT_WIDTH * 0.40
    let currentTextYPos := yPos
    let _ ← insertShapeWithText slide MARGIN_LEFT currentTextYPos textColumnWidth TEXT_LINE_HEIGHT
      (pure "Métricas de Performance:") (boldStyle TEXT_FONT_SIZE)
    let currentTextYPos := currentTextYPos + (TEXT_LINE_HEIGHT + 5)
    let _ ← insertShapeWithText slide MARGIN_LEFT currentTextYPos textColumnWidth TEXT_LINE_HEIGHT
      (fieldText "• Acurácia: " data "acuracia" "") (textStyle TEXT_FONT_SIZE)
    let currentTextYPos := currentTextYPos + TEXT_LINE_HEIGHT
    let _ ← insertShapeWithText slide MARGIN_LEFT currentTextYPos textColumnWidth TEXT_LINE_HEIGHT
      (fieldText "• Precisão: " data "precisao" "") (textStyle TEXT_FONT_SIZE)
    let currentTextYPos := currentTextYPos + TEXT_LINE_HEIGHT
    let _ ← insertShapeWithText slide MARGIN_LEFT currentTextYPos textColumnWidth TEXT_LINE_HEIGHT
      (fieldText "• Recall: " data "recall" "") (textStyle TEXT_FONT_SIZE)
    let currentTextYPos := currentTextYPos + TEXT_LINE_HEIGHT
    let _ ← insertShapeWithText slide MARGIN_LEFT currentTextYPos textColumnWidth TEXT_LINE_HEIGHT
      (fieldText "• F1-Score: " data "f1_score" "") (textStyle TEXT_FONT_SIZE)
    let currentTextYPos := currentTextYPos + (TEXT_LINE_HEIGHT + 10)
    let _ ← insertShapeWithText slide MARGIN_LEFT currentTextYPos textColumnWidth
      (TEXT_LINE_HEIGHT * 2)
      (fieldText "Modelo prevê cancelamentos com " data "acuracia" " de acurácia.")
      (textStyle TEXT_FONT_SIZE)
    let matriz ← getProp data "matriz_confusao_base64"
    if matriz.truthy then
      addImageFromBase64 slide matriz 420 100 300 280
    consoleWrite "log" "Slide 9 preenchido."

/-- The function `preencherSlide10(data)`. -/
def preencherSlide10 (data : JsVal) : Script Unit := do
  openById PRESENTATION_ID
  let slide ← getSlideById SLIDE_10_ID
  clearSlideContent slide
  if (← getProp data "erro").truthy then
    insertErrorBox slide "Erro ao analisar fatores de risco: " data
  else do
    let yPos := MARGIN_TOP
    insertTitle slide yPos "Principais Fatores de Risco"
    let yPos := yPos + (TITLE_FONT_SIZE + 20)
    let textColumnWidth := CONTENT_WIDTH * 0.40
    let currentTextYPos := yPos
    let topFatores ← getProp data "top_fatores"
    if (← nonEmptyList topFatores) then do
      let _ ← insertShapeWithText slide MARGIN_LEFT currentTextYPos textColumnWidth TEXT_LINE_HEIGHT
        (pure "Top 5 fatores de influência:") (boldStyle TEXT_FONT_SIZE)
      let currentTextYPos := currentTextYPos + (TEXT_LINE_HEIGHT + 5)
      let items ← forEachItems topFatores "data.top_fatores"
      let _ ← forEachAcc items 0 currentTextYPos (fun fator index currentTextYPos => do
        let coeficiente ← getProp fator "coeficiente"
        let impacto := if coeficiente.gtZero then "AUMENTA o risco" else "DIMINUI o risco"
        let _ ← insertShapeWithText slide MARGIN_LEFT currentTextYPos textColumnWidth
          TEXT_LINE_HEIGHT
          (do
            let variavel ← getProp fator "variavel"
            pure (toString (index + 1) ++ ". " ++ toTitleCase variavel ++ ": " ++ impacto))
          (textStyle TEXT_FONT_SIZE)
        pure (currentTextYPos + TEXT_LINE_HEIGHT))
      pure ()
    else do
      let _ ← insertShapeWithText slide MARGIN_LEFT currentTextYPos textColumnWidth
        (TEXT_LINE_HEIGHT * 2) (pure "Nenhum fator de risco significativo encontrado.")
        (textStyle TEXT_FONT_SIZE)
      pure ()
    let grafico ← getProp data "grafico_fatores_base64"
    if grafico.truthy then
      addImageFromBase64 slide grafico 420 100 300 280
    consoleWrite "log" "Slide 10 preenchido."

/-- The function `preencherSlide11(data)`. -/
def preencherSlide11 (data : JsVal) : Script Unit := do
  openById PRESENTATION_ID
  let slide ← getSlideById SLIDE_11_ID
  clearSlideContent slide
  if (← getProp data "erro").truthy then
    insertErrorBox slide "Erro na análise de impacto do Call Center: " data
  else do
    let yPos := MARGIN_TOP
    insertTitle slide yPos "Análise: Call Center e Cancelamento"
    let yPos := yPos + (TITLE_FONT_SIZE + 20)
    let textColumnWidth := CONTENT_WIDTH * 0.45
    let currentTextYPos := yPos
    let insightsText ← getProp data "insights_text"
    if (← nonEmptyList insightsText) then do
      let items ← forEachItems insightsText "data.insights_text"
      let _ ← forEachAcc items 0 currentTextYPos (fun insight _ currentTextYPos => do
        let cleanedInsight ← stripBullet insight "insight"
        let _ ← insertShapeWithText slide MARGIN_LEFT currentTextYPos textColumnWidth
          (TEXT_LINE_HEIGHT * 3) (pure ("• " ++ cleanedInsight)) (textStyle TEXT_FONT_SIZE)
        pure (currentTextYPos + TEXT_LINE_HEIGHT * 3))
      pure ()
    let imagem ← getProp data "imagem_base64"
    if imagem.truthy then
      addImageFromBase64 slide imagem 420 100 300 280
    consoleWrite "log" "Slide 11 preenchido."

/-- The function `preencherSlide12(data)`. -/
def preencherSlide12 (data : JsVal) : Script Unit := do
  openById PRESENTATION_ID
  let slide ← getSlideById SLIDE_12_ID
  clearSlideContent slide
  if (← getProp data "erro").truthy then
    insertErrorBox slide "Erro ao gerar insights: " data
  else do
    let yPos := MARGIN_TOP
    insertTitle slide yPos "Insights e Resumo Final"
    let yPos := yPos + (TITLE_FONT_SIZE + 20)
    let textColumnWidth := CONTENT_WIDTH * 0.40
    let currentTextYPos := yPos
    let _ ← insertShapeWithText slide MARGIN_LEFT currentTextYPos textColumnWidth
      SLIDE12_TEXT_LINE_HEIGHT (pure "Segmentação de Clientes:") (boldStyle SLIDE12_TEXT_FONT_SIZE)
    let currentTextYPos := currentTextYPos + (SLIDE12_TEXT_LINE_HEIGHT + 5)
    let _ ← insertShapeWithText slide MARGIN_LEFT currentTextYPos textColumnWidth
      SLIDE12_TEXT_LINE_HEIGHT (fieldText "• Alto Risco: " data "alto_risco" " clientes")
      (textStyle SLIDE12_TEXT_FONT_SIZE)
    let currentTextYPos := currentTextYPos + SLIDE12_TEXT_LINE_HEIGHT
    let _ ← insertShapeWithText slide MARGIN_LEFT currentTextYPos textColumnWidth
      SLIDE12_TEXT_LINE_HEIGHT (fieldText "• Médio Risco: " data "medio_risco" " clientes")
      (textStyle SLIDE12_TEXT_FONT_SIZE)
    let currentTextYPos := currentTextYPos + SLIDE12_TEXT_LINE_HEIGHT
    let _ ← insertShapeWithText slide MARGIN_LEFT currentTextYPos textColumnWidth
      SLIDE12_TEXT_LINE_HEIGHT (fieldText "• Baixo Risco: " data "baixo_risco" " clientes")
      (textStyle SLIDE12_TEXT_FONT_SIZE)
    let currentTextYPos := currentTextYPos + (SLIDE12_TEXT_LINE_HEIGHT + 10)
    let recomendacoes ← getProp data "recomendacoes"
    let currentTextYPos ← (do
      if (← nonEmptyList recomendacoes) then do
        let _ ← insertShapeWithText slide MARGIN_LEFT currentTextYPos textColumnWidth
          SLIDE12_TEXT_LINE_HEIGHT (pure "Recomendações:") (boldStyle SLIDE12_TEXT_FONT_SIZE)
        let currentTextYPos := currentTextYPos + (SLIDE12_TEXT_LINE_HEIGHT + 5)
        let items ← forEachItems recomendacoes "data.recomendacoes"
        let currentTextYPos ← forEachAcc items 0 currentTextYPos (fun rec _ currentTextYPos => do
          let cleanedRec ← stripBullet rec "rec"
          let _ ← insertShapeWithText slide MARGIN_LEFT currentTextYPos textColumnWidth
            (SLIDE12_TEXT_LINE_HEIGHT * 2) (pure ("• " ++ cleanedRec))
            (textStyle SLIDE12_TEXT_FONT_SIZE)
          pure (currentTextYPos + SLIDE12_TEXT_LINE_HEIGHT * 2))
        pure (currentTextYPos + 10)
      else pure currentTextYPos)
    let fatoresCriticos ← getProp data "fatores_criticos"
    if (← nonEmptyList fatoresCriticos) then do
      let _ ← insertShapeWithText slide MARGIN_LEFT currentTextYPos textColumnWidth
        SLIDE12_TEXT_LINE_HEIGHT (pure "Fatores Críticos:") (boldStyle SLIDE12_TEXT_FONT_SIZE)
      let currentTextYPos := currentTextYPos + (SLIDE12_TEXT_LINE_HEIGHT + 5)
      let items ← forEachItems fatoresCriticos "data.fatores_criticos"
      let _ ← forEachAcc items 0 currentTextYPos (fun fator _ currentTextYPos => do
        let cleanedFator ← stripBullet fator "fator"
        let _ ← insertShapeWithText slide MARGIN_LEFT currentTextYPos textColumnWidth
          SLIDE12_TEXT_LINE_HEIGHT (pure ("• " ++ cleanedFator)) (textStyle SLIDE12_TEXT_FONT_SIZE)
        pure (currentTextYPos + SLIDE12_TEXT_LINE_HEIGHT))
      pure ()
    let segmentacao ← getProp data "segmentacao_base64"
    if segmentacao.truthy then
      addImageFromBase64 slide segmentacao 420 100 300 280
    consoleWrite "log" "Slide 12 preenchido."

/-! ## The main functions -/

/-- The red error box the `catch` blocks put on the loading slide, `top`
points from the top. -/
def insertCatchErrorBox (slide : Option String) (top : ℚ) (message : String) : Script Unit :=
  match slide with
  | none => pure ()
  | some _ => do
    let _ ← insertShapeWithText slide MARGIN_LEFT top CONTENT_WIDTH (TEXT_LINE_HEIGHT * 3)
      (pure (ERROR_MESSAGE_PREFIX ++ " " ++ message)) errorStyle
    pure ()

/-- The `finally` block of `executarAnaliseCompleta`: the triggers of the
handler `executarAnaliseCompleta` are deleted. -/
def deleteAnalysisTriggers : Script Unit := do
  let triggers ← getProjectTriggers
  forEach triggers (fun t =>
    if t.handlerFunction == "executarAnaliseCompleta" then deleteTrigger t else pure ())
  consoleWrite "log" "Gatilhos de análise limpos."

/-- The expression `JSON.parse(response).data`. -/
def parseData (response : String) : Script JsVal := do
  let w ← getWorld
  match w.jsonParse response with
  | none => raise "Unexpected token in JSON"
  | some parsed => getProp parsed "data"

/-- The statements of the `try` block of `executarAnaliseCompleta` that
come before the call of `callCloudFunction`. -/
def executarAnaliseCompletaInicio : Script Unit := do
  consoleWrite "log" "Iniciando execução da análise completa..."
  removerMensagemCarregamento
  exibirMensagemCarregamento
  setProperty ANALYSIS_STATUS_KEY STATUS_RUNNING

/-- The statements of the `try` block of `executarAnaliseCompleta` from the
call of `callCloudFunction` on. -/
def executarAnaliseCompletaResto (answer : FetchOutcome) : Script Unit := do
  let response ← callCloudFunction answer
  match response.filter (fun body => body != "") with
  | none => do
    consoleWrite "error" "Falha ao obter resposta da Cloud Function. Abortando preenchimento."
    setProperty ANALYSIS_STATUS_KEY STATUS_ERROR
  | some body => do
    let data ← parseData body
    consoleWrite "log" "Dados da Cloud Function recebidos. Preenchendo slides..."
    preencherSlide6 (← getProp data "analise_exploratoria")
    preencherSlide7 (← getProp data "distribuicoes")
    preencherSlide8 (← getProp data "associacoes")
    preencherSlide9 (← getProp data "modelo")
    preencherSlide10 (← getProp data "fatores_risco")
    preencherSlide11 (← getProp data "call_center_impact")
    preencherSlide12 (← getProp data "insights")
    removerMensagemCarregamento
    consoleWrite "log" "Análise completa concluída e slides preenchidos."
    setProperty ANALYSIS_STATUS_KEY STATUS_COMPLETED
    exibirModalConclusao

/-- The `try` block of `executarAnaliseCompleta`. -/
def executarAnaliseCompletaBody (answer : FetchOutcome) : Script Unit := do
  executarAnaliseCompletaInicio
  executarAnaliseCompletaResto answer

/-- The `catch` block of `executarAnaliseCompleta`. -/
def executarAnaliseCompletaCatch (message : String) : Script Unit := do
  consoleWrite "error" ("Erro na execução da análise completa: " ++ message)
  removerMensagemCarregamento
  openById PRESENTATION_ID
  let slide ← getSlideById LOADING_MESSAGE_SLIDE_ID
  insertCatchErrorBox slide (MARGIN_TOP + 50) message
  setProperty ANALYSIS_STATUS_KEY STATUS_ERROR

/-- The function `executarAnaliseCompleta()`; `answer` is what the analytics
service does when it is called. -/
def executarAnaliseCompleta (answer : FetchOutcome) : Script Unit :=
  tryFinally
    (tryCatch (executarAnaliseCompletaBody answer) executarAnaliseCompletaCatch)
    deleteAnalysisTriggers

/-- The function `clearTargetSlidesOnOpen()`. -/
def clearTargetSlidesOnOpen : Script Unit := do
  openById PRESENTATION_ID
  forEach SLIDES_TO_CLEAR_ON_OPEN (fun slideId =>
    tryCatch (do
        let slide ← getSlideById slideId
        clearSlideContent slide
        consoleWrite "log" ("Slide " ++ slideId ++ " limpo ao abrir a apresentação."))
      (fun e => consoleWrite "warn" ("Aviso: Não foi possível limpar o slide " ++ slideId ++
        ". Ele pode não existir ou ter um ID incorreto. Erro: " ++ e)))

/-- The function `onOpen()`. -/
def onOpen : Script Unit := do
  addMenu "🔧 Análises"
    [("🚀 Executar Análise", "executarAnaliseMenu"), ("🧹 Limpar Dados", "limparDadosMenu"),
      ("📊 Status da Análise", "verificarStatusAnalise")]
  clearTargetSlidesOnOpen
  exibirMensagemCarregamento
  newTimeTrigger "executarAnaliseCompleta" (ANALYSIS_START_DELAY_MINUTES * 60 * 1000)
  setProperty ANALYSIS_STATUS_KEY STATUS_NOT_STARTED
  consoleWrite "log" "onOpen executado. Menu \"Análises\" criado e gatilho programado."

/-- The `catch` block of `executarAnaliseMenu`. -/
def executarAnaliseMenuCatch (message : String) : Script Unit := do
  consoleWrite "error" ("Erro ao executar análise pelo menu: " ++ message)
  setProperty ANALYSIS_STATUS_KEY STATUS_ERROR
  openById PRESENTATION_ID
  let slide ← getSlideById LOADING_MESSAGE_SLIDE_ID
  match slide with
  | none => pure ()
  | some _ => do
    removerMensagemCarregamento
    insertCatchErrorBox slide MARGIN_TOP message

/-- The statements of the `try` block of `executarAnaliseMenu` that come
before the call of `executarAnaliseCompleta`. -/
def executarAnaliseMenuInicio : Script Unit := do
  consoleWrite "log" "Análise iniciada pelo menu..."
  removerMensagemCarregamento
  exibirMensagemCarregamento
  setProperty ANALYSIS_STATUS_KEY STATUS_RUNNING

/-- The function `executarAnaliseMenu()`. -/
def executarAnaliseMenu (answer : FetchOutcome) : Script Unit :=
  tryCatch (do
      executarAnaliseMenuInicio
      executarAnaliseCompleta answer)
    executarAnaliseMenuCatch

/-- The body of the loop of `limparDadosMenu` for one slide id; the value is
the counter `slidesLimpos` after it. -/
def limparSlide (slideId : String) (slidesLimpos : Nat) : Script Nat :=
  tryCatch (do
      let slide ← getSlideById slideId
      clearSlideContent slide
      let slidesLimpos := slidesLimpos + 1
      consoleWrite "log" ("Slide " ++ slideId ++ " limpo com sucesso.")
      pure slidesLimpos)
    (fun e => do
      consoleWrite "warn" ("Aviso: Não foi possível limpar o slide " ++ slideId ++
        ". Erro: " ++ e)
      pure slidesLimpos)

/-- The loop of `limparDadosMenu` over the result slides; the value is the
counter `slidesLimpos`. -/
def limparSlides (slideIds : List String) : Script Nat :=
  forEachAcc slideIds 0 0 (fun slideId _ slidesLimpos => limparSlide slideId slidesLimpos)

/-- The function `limparDadosMenu()`. -/
def limparDadosMenu : Script Unit :=
  tryCatch (do
      consoleWrite "log" "Limpando dados dos slides 6-12..."
      openById PRESENTATION_ID
      let slidesLimpos ← limparSlides SLIDES_TO_CLEAR_ON_OPEN
      removerMensagemCarregamento
      setProperty ANALYSIS_STATUS_KEY STATUS_NOT_STARTED
      exibirModalCustomizado "Limpeza Concluída"
        ("✓ Dados limpos com sucesso!\n" ++ toString slidesLimpos ++ " slides processados.")
        "#008000"
      consoleWrite "log" ("Limpeza concluída. " ++ toString slidesLimpos ++ " slides processados."))
    (fun e => do
      consoleWrite "error" ("Erro ao limpar dados: " ++ e)
      exibirModalCustomizado "Erro na Limpeza" ("❌ Erro ao limpar dados: " ++ e) "#FF0000")

/-- The loop of `verificarStatusAnalise` over the result slides; the value
is the counter `slidesPreenchidos`. -/
def contarSlidesPreenchidos (slideIds : List String) : Script Nat :=
  forEachAcc slideIds 0 0 (fun slideId _ slidesPreenchidos =>
    tryCatch (do
        let slide ← getSlideById slideId
        let s ← slideOrRaise slide "getPageElements"
        let elements ← getPageElements s
        if elements.length > 0 then pure (slidesPreenchidos + 1) else pure slidesPreenchidos)
      (fun _ => do
        consoleWrite "warn" ("Não foi possível verificar o slide " ++ slideId)
        pure slidesPreenchidos))

/-- The status shown by `verificarStatusAnalise`: title, text and colour. -/
def statusReport (analysisStatus : Option String) (slidesPreenchidos : Nat) :
    String × String × String :=
  if analysisStatus == some STATUS_RUNNING then
    ("Status da Análise: EM EXECUÇÃO", "⏳ A análise está em execução...\nAguarde a conclusão.",
      "#FFA500")
  else if analysisStatus == some STATUS_COMPLETED || slidesPreenchidos > 0 then
    ("Status da Análise: CONCLUÍDA",
      "✅ Análise concluída com sucesso!\n" ++ toString slidesPreenchidos ++ " de " ++
        toString SLIDES_TO_CLEAR_ON_OPEN.length ++ " slides preenchidos.",
      "#008000")
  else if analysisStatus == some STATUS_ERROR then
    ("Status da Análise: ERRO", "❌ Houve um erro na última execução da análise.", "#FF0000")
  else
    ("Status da Análise: NÃO EXECUTADA",
      "⚪ Nenhuma análise executada.\nUse \"Executar Análise\" para iniciar.", "#666666")

/-- The call `s.replace('\n', ' ')`: the first line break becomes a space. -/
def replaceFirstNewline : List Char → List Char
  | [] => []
  | c :: cs => if c == '\n' then ' ' :: cs else c :: replaceFirstNewline cs

/-- The function `verificarStatusAnalise()`. -/
def verificarStatusAnalise : Script Unit :=
  tryCatch (do
      consoleWrite "log" "Verificando status da análise..."
      openById PRESENTATION_ID
      removerMensagemCarregamento
      let analysisStatus ← getProperty ANALYSIS_STATUS_KEY
      let slidesPreenchidos ← contarSlidesPreenchidos SLIDES_TO_CLEAR_ON_OPEN
      let (statusTitle, statusText, statusColor) := statusReport analysisStatus slidesPreenchidos
      exibirModalCustomizado statusTitle statusText statusColor
      consoleWrite "log" ("Status verificado: " ++ String.mk (replaceFirstNewline statusText.toList)))
    (fun e => do
      consoleWrite "error" ("Erro ao verificar status: " ++ e)
      exibirModalCustomizado "Erro ao Verificar Status" ("❌ Erro ao verificar status: " ++ e)
        "#FF0000")

/-! ## Frames, postconditions and example worlds: definitions -/

/-- The script `m` keeps the relation `R` between the world it starts in and
the world it ends in, however it completes. -/
structure Keeps {α : Type} (R : World → World → Prop) (m : Script α) : Prop where
  frame : ∀ w, R w (m w).world

/-- The relations frames are made of: reflexive and transitive. -/
structure IsFrame (R : World → World → Prop) : Prop where
  refl : ∀ w, R w w
  trans : ∀ a b c, R a b → R b c → R a c

/-- The status flag: the user property `analysis_status`. -/
def World.status (w : World) : Option String := lookupKey ANALYSIS_STATUS_KEY w.properties

/-- Frame of the code that does not write properties. -/
def NoWrite (w w1 : World) : Prop :=
  w1.properties = w.properties ∧ w1.propertyWrites = w.propertyWrites

/-- Whenever the script `m` completes normally, `Q` holds of the world it
ends in. -/
structure Post {α : Type} (m : Script α) (Q : World → Prop) : Prop where
  post : ∀ w a w1, m w = Res.ok a w1 → Q w1

/-- The status flag is COMPLETED or ERROR. -/
def World.finished (w : World) : Prop :=
  w.status = some STATUS_COMPLETED ∨ w.status = some STATUS_ERROR

/-- A text box as the script inserts them. -/
def sampleBox (objectId : Nat) (text : String) : PageElement :=
  ⟨objectId, ElementKind.shape, text, 50, 50, 430, 40, TextStyle.plain, false⟩

/-- A sample answer of the analytics service, parsed. -/
def samplePayload : JsVal :=
  .obj [("data", .obj [
    ("analise_exploratoria", .obj [("total_registros", .num ⟨"1000", true, false⟩),
      ("total_variaveis", .num ⟨"12", true, false⟩),
      ("taxa_cancelamento", .num ⟨"56.7", true, false⟩),
      ("registros_validos", .num ⟨"990", true, false⟩)]),
    ("distribuicoes", .obj [("idade_media", .num ⟨"39.4", true, false⟩),
      ("imagem_base64", .str "data:image/png;base64,AAAA")]),
    ("associacoes", .obj [("testes", .arr [.obj [("variavel", .str "sexo"),
      ("resultado", .str "Significativo"), ("p_valor", .num ⟨"0.001", true, false⟩)]])]),
    ("modelo", .obj [("acuracia", .str "87%")]),
    ("fatores_risco", .obj [("top_fatores", .arr [
      .obj [("variavel", .str "duracao_contrato_mensal"), ("coeficiente", .num ⟨"1.2", true, false⟩)],
      .obj [("variavel", .str "idade"), ("coeficiente", .num ⟨"-0.3", false, false⟩)]])]),
    ("call_center_impact", .obj [("insights_text", .arr [.str "• Mais ligações, mais cancelamentos"])]),
    ("insights", .obj [("alto_risco", .num ⟨"120", true, false⟩),
      ("recomendacoes", .arr [.str "• Ligar para clientes de alto risco"])])])]

/-- A presentation with the loading slide and the seven result slides, an
old loading message on the first and an old box on slide 6; the user
interface is attached. -/
def sampleWorld : World :=
  { presentation := some [
      ⟨LOADING_MESSAGE_SLIDE_ID, [sampleBox 1 "Executando análises..."]⟩,
      ⟨SLIDE_6_ID, [sampleBox 2 "old"]⟩, ⟨SLIDE_7_ID, []⟩, ⟨SLIDE_8_ID, []⟩, ⟨SLIDE_9_ID, []⟩,
      ⟨SLIDE_10_ID, []⟩, ⟨SLIDE_11_ID, []⟩, ⟨SLIDE_12_ID, []⟩]
    properties := []
    propertyWrites := []
    triggers := [⟨1, "executarAnaliseCompleta", 30000⟩]
    uiAvailable := true
    menus := []
    dialogs := []
    console := []
    requests := []
    nowMs := 0
    localeNow := "01/01/2025, 10:00:00"
    jsonParse := fun body => if body == "payload" then some samplePayload else none
    imageLoads := fun _ => true }

/-- Whether the presentation has a slide with the given id. -/
def World.hasSlide (w : World) (slideId : String) : Bool :=
  match w.presentation with
  | some slides => (findSlide slideId slides).isSome
  | none => false

/-- Frame of the code that touches no page element. -/
def NoSlide (w w1 : World) : Prop := w1.presentation = w.presentation

/-- Frame of the code that touches the page elements of the slide `s` only:
the presentation stays open or closed, every slide stays, the elements of
the other slides stay. -/
def OtherSlides (s : String) (w w1 : World) : Prop :=
  w1.presentation.isSome = w.presentation.isSome ∧
  (∀ slideId, w1.hasSlide slideId = w.hasSlide slideId) ∧
  ∀ slideId, slideId ≠ s → w1.elementsOf slideId = w.elementsOf slideId

/-- The status flag is unset or holds one of the four status strings. -/
def World.statusValid (w : World) : Prop :=
  w.status = none ∨ w.status = some STATUS_NOT_STARTED ∨ w.status = some STATUS_RUNNING ∨
    w.status = some STATUS_COMPLETED ∨ w.status = some STATUS_ERROR

/-- Frame of the code that writes properties only by appending status
writes of the four status strings. -/
def Disciplined (w w1 : World) : Prop :=
  (∃ l, w1.propertyWrites = w.propertyWrites ++ l) ∧ (w.statusValid → w1.statusValid)

/-- The property writes made from the world `w` to the later world `w1`. -/
def writesSince (w w1 : World) : List (String × String) :=
  w1.propertyWrites.drop w.propertyWrites.length

/-- Whether, in a list of property writes, every write of COMPLETED or ERROR
to the status flag has a write of RUNNING to it earlier in the list; `seen`
tells that RUNNING was written before the list starts. -/
def terminalAfterRunning : Bool → List (String × String) → Bool
  | _, [] => true
  | seen, (k, v) :: rest =>
    if k == ANALYSIS_STATUS_KEY && v == STATUS_RUNNING then terminalAfterRunning true rest
    else if k == ANALYSIS_STATUS_KEY && (v == STATUS_COMPLETED || v == STATUS_ERROR) then
      seen && terminalAfterRunning seen rest
    else terminalAfterRunning seen rest

/-- A page element that does not stop the loop removing old messages: not a
shape with a loading or error text whose removal raises. -/
def passesMessageLoop (e : PageElement) : Bool :=
  !(e.kind == ElementKind.shape && isLoadingOrErrorText e.text && e.removeFails)

/-- The loading message can be shown: the presentation opens, it has the
loading slide, and no old message box on that slide refuses removal. -/
def World.canShowLoading (w : World) : Bool :=
  w.hasSlide LOADING_MESSAGE_SLIDE_ID &&
    (w.elementsOf LOADING_MESSAGE_SLIDE_ID).all passesMessageLoop

/-- Frame of the code that keeps `canShowLoading`. -/
def KeepsLoading (w w1 : World) : Prop := w.canShowLoading = true → w1.canShowLoading = true

/-- The entry points of the script: the open trigger, the three menu
commands and the time trigger; the two that call the analytics service carry
its answer. -/
inductive Command where
  | onOpen : Command
  | executarAnaliseMenu : FetchOutcome → Command
  | limparDadosMenu : Command
  | verificarStatusAnalise : Command
  | executarAnaliseCompleta : FetchOutcome → Command

/-- Runs an entry point. -/
def Command.run : Command → Script Unit
  | .onOpen => DynamicPresentation.onOpen
  | .executarAnaliseMenu answer => DynamicPresentation.executarAnaliseMenu answer
  | .limparDadosMenu => DynamicPresentation.limparDadosMenu
  | .verificarStatusAnalise => DynamicPresentation.verificarStatusAnalise
  | .executarAnaliseCompleta answer => DynamicPresentation.executarAnaliseCompleta answer

/-- Runs a sequence of entry points, each in the world the one before it
left, however that one completed. -/
def runAll : List Command → World → World
  | [], w => w
  | c :: cs, w => runAll cs (c.run w).world

/-- The sample presentation without the loading slide. -/
def worldWithoutLoadingSlide : World :=
  { sampleWorld with presentation := some [
      ⟨SLIDE_6_ID, [sampleBox 2 "old"]⟩, ⟨SLIDE_7_ID, []⟩, ⟨SLIDE_8_ID, []⟩, ⟨SLIDE_9_ID, []⟩,
      ⟨SLIDE_10_ID, []⟩, ⟨SLIDE_11_ID, []⟩, ⟨SLIDE_12_ID, []⟩] }

/-- Frame of the code that shows no dialog: the dialogs shown and the
availability of the user interface stay. -/
def UiKept (w w1 : World) : Prop :=
  w1.dialogs = w.dialogs ∧ w1.uiAvailable = w.uiAvailable

/-- The dialog with which `verificarStatusAnalise` reports the error status. -/
def errorStatusDialog : Dialog :=
  Dialog.modal (customModalHtml "Status da Análise: ERRO"
    "❌ Houve um erro na última execução da análise." "#FF0000") 400 250 "Informação da Análise"

/-- The sample presentation after a failed run: the status flag is ERROR and
slide 6 still holds a box. -/
def worldAfterFailedRun : World :=
  { sampleWorld with properties := [(ANALYSIS_STATUS_KEY, STATUS_ERROR)] }

/-- The sample presentation with empty result slides and the status flag at
ERROR. -/
def worldWithError : World :=
  { sampleWorld with
    presentation := some [
      ⟨LOADING_MESSAGE_SLIDE_ID, [sampleBox 1 "Erro na análise: timeout"]⟩,
      ⟨SLIDE_6_ID, []⟩, ⟨SLIDE_7_ID, []⟩, ⟨SLIDE_8_ID, []⟩, ⟨SLIDE_9_ID, []⟩,
      ⟨SLIDE_10_ID, []⟩, ⟨SLIDE_11_ID, []⟩, ⟨SLIDE_12_ID, []⟩]
    properties := [(ANALYSIS_STATUS_KEY, STATUS_ERROR)] }

/-- Frame of the code that inserts nothing on the slide `slideId`: once the
slide has no page elements it stays so. -/
def EmptyStays (slideId : String) (w w1 : World) : Prop :=
  w.elementsOf slideId = [] → w1.elementsOf slideId = []

/-- The sample presentation with a box on slide 6 whose removal the host
refuses. -/
def worldWithStuckElement : World :=
  { sampleWorld with presentation := some [
      ⟨LOADING_MESSAGE_SLIDE_ID, []⟩,
      ⟨SLIDE_6_ID, [⟨2, ElementKind.shape, "old", 50, 50, 430, 40, TextStyle.plain, true⟩]⟩,
      ⟨SLIDE_7_ID, [sampleBox 3 "old"]⟩, ⟨SLIDE_8_ID, []⟩, ⟨SLIDE_9_ID, []⟩,
      ⟨SLIDE_10_ID, []⟩, ⟨SLIDE_11_ID, []⟩, ⟨SLIDE_12_ID, []⟩] }

/-- A presentation that has the loading slide and none of the result slides. -/
def worldWithoutResultSlides : World :=
  { sampleWorld with presentation := some [⟨LOADING_MESSAGE_SLIDE_ID, []⟩] }

/-- An ASCII lower-case letter. -/
def isLowerAscii (c : Char) : Bool := 'a' ≤ c && c ≤ 'z'

/-- Data for slide 11 with one insight and a chart. -/
def sampleCallCenterData : JsVal :=
  .obj [("insights_text", .arr [.str "• Mais ligações, mais cancelamentos"]),
    ("imagem_base64", .str "data:image/png;base64,AAAA")]

/-- Frame of the code that installs and deletes no trigger. -/
def TriggersKept (w w1 : World) : Prop := w1.triggers = w.triggers

/-- The sample presentation with a pending analysis trigger and a trigger of
another handler. -/
def worldWithTwoTriggers : World :=
  { sampleWorld with triggers :=
      [⟨1, "executarAnaliseCompleta", 30000⟩, ⟨2, "enviarRelatorio", 60000⟩,
        ⟨3, "executarAnaliseCompleta", 90000⟩] }

/-- Whether a text starts like a numbered line: decimal digits, then ". ". -/
def isNumberedText (l : List Char) : Bool :=
  !(l.takeWhile isDigitChar).isEmpty && ". ".toList.isPrefixOf (l.dropWhile isDigitChar)

/-- A numbered line of a slide: a shape whose text starts with a number and
". ". -/
def isNumberedLine (e : PageElement) : Bool :=
  e.kind == ElementKind.shape && isNumberedText e.text.toList

/-- The number of numbered lines on a slide. -/
def World.numberedLines (w : World) (slideId : String) : Nat :=
  ((w.elementsOf slideId).filter isNumberedLine).length

/-- Frame of the code that keeps the slide `s` and the number of its numbered
lines. -/
def SameLines (s : String) (w w1 : World) : Prop :=
  w1.hasSlide s = w.hasSlide s ∧ w1.numberedLines s = w.numberedLines s

/-- Code that, when it runs to its normal end on a presentation with the
slide `s`, has added `k` numbered lines to that slide. -/
structure Adds (s : String) (k : Nat) {α : Type} (m : Script α) : Prop where
  adds : ∀ w a w1, w.hasSlide s = true → m w = Res.ok a w1 →
    w1.hasSlide s = true ∧ w1.numberedLines s = w.numberedLines s + k

/-- Code that never raises. -/
structure Total {α : Type} (m : Script α) : Prop where
  total : ∀ w, (m w).isOk = true

/-- An item of `top_fatores` as the analytics service sends it: an object
whose `variavel` is a string. -/
def isFatorRecord : JsVal → Bool
  | .obj fields =>
    (match lookupField "variavel" fields with
      | .str _ => true
      | _ => false)
  | _ => false

/-- A risk factor as the analytics service sends it. -/
def sampleFator (variavel : String) (positive : Bool) : JsVal :=
  .obj [("variavel", .str variavel),
    ("coeficiente", .num ⟨if positive then "0.8" else "-0.3", positive, false⟩)]

/-- A payload for slide 10 with six risk factors. -/
def sixFatoresData : JsVal :=
  .obj [("top_fatores", .arr [sampleFator "ligacoes_callcenter" true,
    sampleFator "dias_atraso" true, sampleFator "total_gasto" false,
    sampleFator "idade" true, sampleFator "tempo_como_cliente" false,
    sampleFator "frequencia_uso" false])]

/-- Two risk factors as the analytics service sends them. -/
def twoFatores : List JsVal :=
  [sampleFator "ligacoes_callcenter" true, sampleFator "total_gasto" false]

/-- The properties of a payload for slide 10 with two risk factors and a
chart. -/
def twoFatoresFields : List (String × JsVal) :=
  [("top_fatores", .arr twoFatores), ("grafico_fatores_base64", .str "data:image/png;base64,AAAA")]

/-- A payload for slide 10 with two risk factors and a chart. -/
def twoFatoresData : JsVal := .obj twoFatoresFields

/-! # Properties -/

/-! ## Frames: what a script leaves as it is -/

theorem keeps_mono {α : Type} {R R2 : World → World → Prop} {m : Script α}
    (h : ∀ w w1, R w w1 → R2 w w1) (hm : Keeps R m) : Keeps R2 m :=
  ⟨fun w => h _ _ (hm.frame w)⟩

theorem keeps_pure {α : Type} {R : World → World → Prop} (hR : IsFrame R) (a : α) :
    Keeps R (Pure.pure a : Script α) := ⟨fun w => hR.refl w⟩

theorem keeps_pureS {α : Type} {R : World → World → Prop} (hR : IsFrame R) (a : α) :
    Keeps R (Script.pure a) := ⟨fun w => hR.refl w⟩

theorem keeps_raise {α : Type} {R : World → World → Prop} (hR : IsFrame R) (msg : String) :
    Keeps R (raise msg : Script α) := ⟨fun w => hR.refl w⟩

theorem keeps_getWorld {R : World → World → Prop} (hR : IsFrame R) : Keeps R getWorld :=
  ⟨fun w => hR.refl w⟩

theorem keeps_bind {α β : Type} {R : World → World → Prop} (hR : IsFrame R)
    {m : Script α} {f : α → Script β} (hm : Keeps R m) (hf : ∀ a, Keeps R (f a)) :
    Keeps R (m >>= f) := by
  constructor
  intro w
  have h1 := hm.frame w
  show R w (Script.bind m f w).world
  unfold Script.bind
  cases h : m w with
  | ok a w1 =>
    rw [h] at h1
    exact hR.trans _ _ _ h1 ((hf a).frame w1)
  | raised e w1 =>
    rw [h] at h1
    exact h1

/-- Sequencing where the second part is only known to keep the frame for the
values the first part can return. -/
theorem keeps_bindOf {α β : Type} {R : World → World → Prop} (hR : IsFrame R)
    {m : Script α} {f : α → Script β} (Q : α → Prop) (hm : Keeps R m)
    (hq : ∀ w a w1, m w = Res.ok a w1 → Q a) (hf : ∀ a, Q a → Keeps R (f a)) :
    Keeps R (m >>= f) := by
  constructor
  intro w
  have h1 := hm.frame w
  show R w (Script.bind m f w).world
  unfold Script.bind
  cases h : m w with
  | ok a w1 =>
    rw [h] at h1
    exact hR.trans _ _ _ h1 ((hf a (hq w a w1 h)).frame w1)
  | raised e w1 =>
    rw [h] at h1
    exact h1

theorem keeps_tryCatch {α : Type} {R : World → World → Prop} (hR : IsFrame R)
    {m : Script α} {h : String → Script α} (hm : Keeps R m) (hh : ∀ e, Keeps R (h e)) :
    Keeps R (tryCatch m h) := by
  constructor
  intro w
  have h1 := hm.frame w
  unfold DynamicPresentation.tryCatch
  cases hmw : m w with
  | ok a w1 =>
    rw [hmw] at h1
    exact h1
  | raised e w1 =>
    rw [hmw] at h1
    exact hR.trans _ _ _ h1 ((hh e).frame w1)

theorem keeps_tryFinally {α : Type} {R : World → World → Prop} (hR : IsFrame R)
    {m : Script α} {fin : Script Unit} (hm : Keeps R m) (hfin : Keeps R fin) :
    Keeps R (tryFinally m fin) := by
  constructor
  intro w
  have h1 := hm.frame w
  unfold DynamicPresentation.tryFinally
  cases hmw : m w with
  | ok a w1 =>
    rw [hmw] at h1
    have h2 := hfin.frame w1
    dsimp only
    cases hf : fin w1 with
    | ok u w2 => rw [hf] at h2; exact hR.trans _ _ _ h1 h2
    | raised e w2 => rw [hf] at h2; exact hR.trans _ _ _ h1 h2
  | raised e w1 =>
    rw [hmw] at h1
    have h2 := hfin.frame w1
    dsimp only
    cases hf : fin w1 with
    | ok u w2 => rw [hf] at h2; exact hR.trans _ _ _ h1 h2
    | raised e w2 => rw [hf] at h2; exact hR.trans _ _ _ h1 h2

theorem keeps_forEach {α : Type} {R : World → World → Prop} (hR : IsFrame R)
    (xs : List α) {f : α → Script Unit} (hf : ∀ a, Keeps R (f a)) :
    Keeps R (forEach xs f) := by
  induction xs with
  | nil => exact keeps_pure hR ()
  | cons x xs ih => exact keeps_bind hR (hf x) (fun _ => ih)

theorem keeps_forEachAcc {α σ : Type} {R : World → World → Prop} (hR : IsFrame R)
    (xs : List α) (i : Nat) (acc : σ) {f : α → Nat → σ → Script σ}
    (hf : ∀ a i s, Keeps R (f a i s)) :
    Keeps R (forEachAcc xs i acc f) := by
  induction xs generalizing i acc with
  | nil => exact keeps_pure hR acc
  | cons x xs ih => exact keeps_bind hR (hf x i acc) (fun acc2 => ih (i + 1) acc2)

/-! ## Code that writes no property -/

theorem noWrite_frame : IsFrame NoWrite :=
  ⟨fun _ => ⟨rfl, rfl⟩, fun _ _ _ h1 h2 => ⟨h2.1.trans h1.1, h2.2.trans h1.2⟩⟩

theorem noWrite_status_eq {w w1 : World} (h : NoWrite w w1) : w1.status = w.status := by
  unfold World.status
  rw [h.1]

theorem noWrite_consoleWrite (l m : String) : Keeps NoWrite (consoleWrite l m) :=
  ⟨fun _ => ⟨rfl, rfl⟩⟩

theorem noWrite_openById (i : String) : Keeps NoWrite (openById i) := by
  constructor; intro w; unfold openById; cases w.presentation <;> exact ⟨rfl, rfl⟩

theorem noWrite_getSlideById (i : String) : Keeps NoWrite (getSlideById i) := by
  constructor; intro w; unfold getSlideById
  cases w.presentation with
  | none => exact ⟨rfl, rfl⟩
  | some sl => dsimp only; cases findSlide i sl <;> exact ⟨rfl, rfl⟩

theorem noWrite_getPageElements (i : String) : Keeps NoWrite (getPageElements i) :=
  ⟨fun _ => ⟨rfl, rfl⟩⟩

theorem noWrite_getShapes (i : String) : Keeps NoWrite (getShapes i) :=
  ⟨fun _ => ⟨rfl, rfl⟩⟩

theorem noWrite_removeElement (i : String) (e : PageElement) :
    Keeps NoWrite (removeElement i e) := by
  constructor; intro w; unfold removeElement; split <;> exact ⟨rfl, rfl⟩

theorem noWrite_slideOrRaise (s : Option String) (m : String) :
    Keeps NoWrite (slideOrRaise s m) := by
  constructor; intro w; unfold slideOrRaise; cases s <;> exact ⟨rfl, rfl⟩

theorem noWrite_insertElement (s : String) (k : ElementKind) (a b c d : ℚ) :
    Keeps NoWrite (insertElement s k a b c d) := ⟨fun _ => ⟨rfl, rfl⟩⟩

theorem noWrite_modifyElement (s : String) (i : Nat) (f : PageElement → PageElement) :
    Keeps NoWrite (modifyElement s i f) := ⟨fun _ => ⟨rfl, rfl⟩⟩

theorem noWrite_getProp (v : JsVal) (n : String) : Keeps NoWrite (getProp v n) := by
  constructor; intro w; unfold getProp; cases v <;> exact ⟨rfl, rfl⟩

theorem noWrite_forEachItems (v : JsVal) (n : String) : Keeps NoWrite (forEachItems v n) := by
  constructor; intro w; unfold forEachItems; cases v <;> exact ⟨rfl, rfl⟩

theorem noWrite_stripBullet (v : JsVal) (n : String) : Keeps NoWrite (stripBullet v n) := by
  constructor; intro w; unfold stripBullet; cases v <;> exact ⟨rfl, rfl⟩

theorem noWrite_getUi : Keeps NoWrite getUi := by
  constructor; intro w; unfold getUi; split <;> exact ⟨rfl, rfl⟩

theorem noWrite_getProperty (k : String) : Keeps NoWrite (getProperty k) :=
  ⟨fun _ => ⟨rfl, rfl⟩⟩

theorem noWrite_getProjectTriggers : Keeps NoWrite getProjectTriggers :=
  ⟨fun _ => ⟨rfl, rfl⟩⟩

theorem noWrite_deleteTrigger (t : Trigger) : Keeps NoWrite (deleteTrigger t) :=
  ⟨fun _ => ⟨rfl, rfl⟩⟩

theorem noWrite_newTimeTrigger (h : String) (d : ℚ) : Keeps NoWrite (newTimeTrigger h d) :=
  ⟨fun _ => ⟨rfl, rfl⟩⟩

theorem noWrite_fetch (a : FetchOutcome) (r : Request) : Keeps NoWrite (fetch a r) := by
  constructor; intro w; unfold fetch; cases a <;> exact ⟨rfl, rfl⟩

theorem noWrite_showModalDialog (h : String) (a b : Nat) (t : String) :
    Keeps NoWrite (showModalDialog h a b t) := by
  unfold showModalDialog
  exact keeps_bind noWrite_frame noWrite_getUi (fun _ => ⟨fun _ => ⟨rfl, rfl⟩⟩)

theorem noWrite_alert (m : String) : Keeps NoWrite (alert m) := by
  unfold alert
  exact keeps_bind noWrite_frame noWrite_getUi (fun _ => ⟨fun _ => ⟨rfl, rfl⟩⟩)

theorem noWrite_addMenu (c : String) (l : List (String × String)) :
    Keeps NoWrite (addMenu c l) := by
  unfold addMenu
  exact keeps_bind noWrite_frame noWrite_getUi (fun _ => ⟨fun _ => ⟨rfl, rfl⟩⟩)

theorem noWrite_clearSlideContent (s : Option String) : Keeps NoWrite (clearSlideContent s) := by
  unfold clearSlideContent
  repeat (with_reducible first
    | exact noWrite_consoleWrite _ _
    | exact noWrite_openById _
    | exact noWrite_getSlideById _
    | exact noWrite_getPageElements _
    | exact noWrite_getShapes _
    | exact noWrite_removeElement _ _
    | exact noWrite_slideOrRaise _ _
    | exact noWrite_insertElement _ _ _ _ _ _
    | exact noWrite_modifyElement _ _ _
    | exact noWrite_getProp _ _
    | exact noWrite_forEachItems _ _
    | exact noWrite_stripBullet _ _
    | exact noWrite_getUi
    | exact noWrite_getProperty _
    | exact noWrite_getProjectTriggers
    | exact noWrite_deleteTrigger _
    | exact noWrite_fetch _ _
    | exact keeps_getWorld noWrite_frame
    | exact keeps_pure noWrite_frame _
    | exact keeps_pureS noWrite_frame _
    | exact keeps_raise noWrite_frame _
    | apply keeps_bind noWrite_frame
    | apply keeps_tryCatch noWrite_frame
    | apply keeps_forEach noWrite_frame
    | apply keeps_forEachAcc noWrite_frame
    | intro _
    | split)

theorem noWrite_insertShapeWithText (s : Option String) (a b c d : ℚ) (t : Script String)
    (st : TextStyle) (ht : Keeps NoWrite t) :
    Keeps NoWrite (insertShapeWithText s a b c d t st) := by
  unfold insertShapeWithText
  repeat (with_reducible first
    | exact ht
    | exact noWrite_consoleWrite _ _
    | exact noWrite_openById _
    | exact noWrite_getSlideById _
    | exact noWrite_getPageElements _
    | exact noWrite_getShapes _
    | exact noWrite_removeElement _ _
    | exact noWrite_slideOrRaise _ _
    | exact noWrite_insertElement _ _ _ _ _ _
    | exact noWrite_modifyElement _ _ _
    | exact noWrite_getProp _ _
    | exact noWrite_forEachItems _ _
    | exact noWrite_stripBullet _ _
    | exact noWrite_getUi
    | exact noWrite_getProperty _
    | exact noWrite_getProjectTriggers
    | exact noWrite_deleteTrigger _
    | exact noWrite_fetch _ _
    | exact keeps_getWorld noWrite_frame
    | exact keeps_pure noWrite_frame _
    | exact keeps_pureS noWrite_frame _
    | exact keeps_raise noWrite_frame _
    | apply keeps_bind noWrite_frame
    | apply keeps_tryCatch noWrite_frame
    | apply keeps_forEach noWrite_frame
    | apply keeps_forEachAcc noWrite_frame
    | intro _
    | split)

theorem noWrite_removeMessageShapes (s : String) (l : List PageElement) (m : String) :
    Keeps NoWrite (removeMessageShapes s l m) := by
  unfold removeMessageShapes
  repeat (with_reducible first
    | exact noWrite_consoleWrite _ _
    | exact noWrite_openById _
    | exact noWrite_getSlideById _
    | exact noWrite_getPageElements _
    | exact noWrite_getShapes _
    | exact noWrite_removeElement _ _
    | exact noWrite_slideOrRaise _ _
    | exact noWrite_insertElement _ _ _ _ _ _
    | exact noWrite_modifyElement _ _ _
    | exact noWrite_getProp _ _
    | exact noWrite_forEachItems _ _
    | exact noWrite_stripBullet _ _
    | exact noWrite_getUi
    | exact noWrite_getProperty _
    | exact noWrite_getProjectTriggers
    | exact noWrite_deleteTrigger _
    | exact noWrite_fetch _ _
    | exact keeps_getWorld noWrite_frame
    | exact keeps_pure noWrite_frame _
    | exact keeps_pureS noWrite_frame _
    | exact keeps_raise noWrite_frame _
    | apply keeps_bind noWrite_frame
    | apply keeps_tryCatch noWrite_frame
    | apply keeps_forEach noWrite_frame
    | apply keeps_forEachAcc noWrite_frame
    | intro _
    | split)

theorem noWrite_exibirMensagemCarregamento : Keeps NoWrite exibirMensagemCarregamento := by
  unfold exibirMensagemCarregamento
  repeat (with_reducible first
    | exact noWrite_removeMessageShapes _ _ _
    | apply noWrite_insertShapeWithText
    | exact noWrite_consoleWrite _ _
    | exact noWrite_openById _
    | exact noWrite_getSlideById _
    | exact noWrite_getPageElements _
    | exact noWrite_getShapes _
    | exact noWrite_removeElement _ _
    | exact noWrite_slideOrRaise _ _
    | exact noWrite_insertElement _ _ _ _ _ _
    | exact noWrite_modifyElement _ _ _
    | exact noWrite_getProp _ _
    | exact noWrite_forEachItems _ _
    | exact noWrite_stripBullet _ _
    | exact noWrite_getUi
    | exact noWrite_getProperty _
    | exact noWrite_getProjectTriggers
    | exact noWrite_deleteTrigger _
    | exact noWrite_fetch _ _
    | exact keeps_getWorld noWrite_frame
    | exact keeps_pure noWrite_frame _
    | exact keeps_pureS noWrite_frame _
    | exact keeps_raise noWrite_frame _
    | apply keeps_bind noWrite_frame
    | apply keeps_tryCatch noWrite_frame
    | apply keeps_forEach noWrite_frame
    | apply keeps_forEachAcc noWrite_frame
    | intro _
    | split)

theorem noWrite_removerMensagemCarregamento : Keeps NoWrite removerMensagemCarregamento := by
  unfold removerMensagemCarregamento
  repeat (with_reducible first
    | exact noWrite_removeMessageShapes _ _ _
    | exact noWrite_consoleWrite _ _
    | exact noWrite_openById _
    | exact noWrite_getSlideById _
    | exact noWrite_getPageElements _
    | exact noWrite_getShapes _
    | exact noWrite_removeElement _ _
    | exact noWrite_slideOrRaise _ _
    | exact noWrite_insertElement _ _ _ _ _ _
    | exact noWrite_modifyElement _ _ _
    | exact noWrite_getProp _ _
    | exact noWrite_forEachItems _ _
    | exact noWrite_stripBullet _ _
    | exact noWrite_getUi
    | exact noWrite_getProperty _
    | exact noWrite_getProjectTriggers
    | exact noWrite_deleteTrigger _
    | exact noWrite_fetch _ _
    | exact keeps_getWorld noWrite_frame
    | exact keeps_pure noWrite_frame _
    | exact keeps_pureS noWrite_frame _
    | exact keeps_raise noWrite_frame _
    | apply keeps_bind noWrite_frame
    | apply keeps_tryCatch noWrite_frame
    | apply keeps_forEach noWrite_frame
    | apply keeps_forEachAcc noWrite_frame
    | intro _
    | split)

theorem noWrite_callCloudFunction (a : FetchOutcome) : Keeps NoWrite (callCloudFunction a) := by
  unfold callCloudFunction
  repeat (with_reducible first
    | exact noWrite_consoleWrite _ _
    | exact noWrite_openById _
    | exact noWrite_getSlideById _
    | exact noWrite_getPageElements _
    | exact noWrite_getShapes _
    | exact noWrite_removeElement _ _
    | exact noWrite_slideOrRaise _ _
    | exact noWrite_insertElement _ _ _ _ _ _
    | exact noWrite_modifyElement _ _ _
    | exact noWrite_getProp _ _
    | exact noWrite_forEachItems _ _
    | exact noWrite_stripBullet _ _
    | exact noWrite_getUi
    | exact noWrite_getProperty _
    | exact noWrite_getProjectTriggers
    | exact noWrite_deleteTrigger _
    | exact noWrite_fetch _ _
    | exact keeps_getWorld noWrite_frame
    | exact keeps_pure noWrite_frame _
    | exact keeps_pureS noWrite_frame _
    | exact keeps_raise noWrite_frame _
    | apply keeps_bind noWrite_frame
    | apply keeps_tryCatch noWrite_frame
    | apply keeps_forEach noWrite_frame
    | apply keeps_forEachAcc noWrite_frame
    | intro _
    | split)

theorem noWrite_exibirModalCustomizado (t m c : String) :
    Keeps NoWrite (exibirModalCustomizado t m c) := by
  unfold exibirModalCustomizado
  repeat (with_reducible first
    | exact noWrite_showModalDialog _ _ _ _
    | exact noWrite_alert _
    | exact noWrite_consoleWrite _ _
    | exact noWrite_openById _
    | exact noWrite_getSlideById _
    | exact noWrite_getPageElements _
    | exact noWrite_getShapes _
    | exact noWrite_removeElement _ _
    | exact noWrite_slideOrRaise _ _
    | exact noWrite_insertElement _ _ _ _ _ _
    | exact noWrite_modifyElement _ _ _
    | exact noWrite_getProp _ _
    | exact noWrite_forEachItems _ _
    | exact noWrite_stripBullet _ _
    | exact noWrite_getUi
    | exact noWrite_getProperty _
    | exact noWrite_getProjectTriggers
    | exact noWrite_deleteTrigger _
    | exact noWrite_fetch _ _
    | exact keeps_getWorld noWrite_frame
    | exact keeps_pure noWrite_frame _
    | exact keeps_pureS noWrite_frame _
    | exact keeps_raise noWrite_frame _
    | apply keeps_bind noWrite_frame
    | apply keeps_tryCatch noWrite_frame
    | apply keeps_forEach noWrite_frame
    | apply keeps_forEachAcc noWrite_frame
    | intro _
    | split)

theorem noWrite_exibirModalConclusao : Keeps NoWrite exibirModalConclusao := by
  unfold exibirModalConclusao
  repeat (with_reducible first
    | exact noWrite_showModalDialog _ _ _ _
    | exact noWrite_consoleWrite _ _
    | exact noWrite_openById _
    | exact noWrite_getSlideById _
    | exact noWrite_getPageElements _
    | exact noWrite_getShapes _
    | exact noWrite_removeElement _ _
    | exact noWrite_slideOrRaise _ _
    | exact noWrite_insertElement _ _ _ _ _ _
    | exact noWrite_modifyElement _ _ _
    | exact noWrite_getProp _ _
    | exact noWrite_forEachItems _ _
    | exact noWrite_stripBullet _ _
    | exact noWrite_getUi
    | exact noWrite_getProperty _
    | exact noWrite_getProjectTriggers
    | exact noWrite_deleteTrigger _
    | exact noWrite_fetch _ _
    | exact keeps_getWorld noWrite_frame
    | exact keeps_pure noWrite_frame _
    | exact keeps_pureS noWrite_frame _
    | exact keeps_raise noWrite_frame _
    | apply keeps_bind noWrite_frame
    | apply keeps_tryCatch noWrite_frame
    | apply keeps_forEach noWrite_frame
    | apply keeps_forEachAcc noWrite_frame
    | intro _
    | split)

theorem noWrite_addImageFromBase64 (s : Option String) (v : JsVal) (a b c d : ℚ) :
    Keeps NoWrite (addImageFromBase64 s v a b c d) := by
  unfold addImageFromBase64
  repeat (with_reducible first
    | exact noWrite_consoleWrite _ _
    | exact noWrite_openById _
    | exact noWrite_getSlideById _
    | exact noWrite_getPageElements _
    | exact noWrite_getShapes _
    | exact noWrite_removeElement _ _
    | exact noWrite_slideOrRaise _ _
    | exact noWrite_insertElement _ _ _ _ _ _
    | exact noWrite_modifyElement _ _ _
    | exact noWrite_getProp _ _
    | exact noWrite_forEachItems _ _
    | exact noWrite_stripBullet _ _
    | exact noWrite_getUi
    | exact noWrite_getProperty _
    | exact noWrite_getProjectTriggers
    | exact noWrite_deleteTrigger _
    | exact noWrite_fetch _ _
    | exact keeps_getWorld noWrite_frame
    | exact keeps_pure noWrite_frame _
    | exact keeps_pureS noWrite_frame _
    | exact keeps_raise noWrite_frame _
    | apply keeps_bind noWrite_frame
    | apply keeps_tryCatch noWrite_frame
    | apply keeps_forEach noWrite_frame
    | apply keeps_forEachAcc noWrite_frame
    | intro _
    | split)

theorem noWrite_fieldText (a : String) (v : JsVal) (n b : String) :
    Keeps NoWrite (fieldText a v n b) := by
  unfold fieldText
  repeat (with_reducible first
    | exact noWrite_consoleWrite _ _
    | exact noWrite_openById _
    | exact noWrite_getSlideById _
    | exact noWrite_getPageElements _
    | exact noWrite_getShapes _
    | exact noWrite_removeElement _ _
    | exact noWrite_slideOrRaise _ _
    | exact noWrite_insertElement _ _ _ _ _ _
    | exact noWrite_modifyElement _ _ _
    | exact noWrite_getProp _ _
    | exact noWrite_forEachItems _ _
    | exact noWrite_stripBullet _ _
    | exact noWrite_getUi
    | exact noWrite_getProperty _
    | exact noWrite_getProjectTriggers
    | exact noWrite_deleteTrigger _
    | exact noWrite_fetch _ _
    | exact keeps_getWorld noWrite_frame
    | exact keeps_pure noWrite_frame _
    | exact keeps_pureS noWrite_frame _
    | exact keeps_raise noWrite_frame _
    | apply keeps_bind noWrite_frame
    | apply keeps_tryCatch noWrite_frame
    | apply keeps_forEach noWrite_frame
    | apply keeps_forEachAcc noWrite_frame
    | intro _
    | split)

theorem noWrite_nonEmptyList (v : JsVal) : Keeps NoWrite (nonEmptyList v) := by
  unfold nonEmptyList
  repeat (with_reducible first
    | exact noWrite_consoleWrite _ _
    | exact noWrite_openById _
    | exact noWrite_getSlideById _
    | exact noWrite_getPageElements _
    | exact noWrite_getShapes _
    | exact noWrite_removeElement _ _
    | exact noWrite_slideOrRaise _ _
    | exact noWrite_insertElement _ _ _ _ _ _
    | exact noWrite_modifyElement _ _ _
    | exact noWrite_getProp _ _
    | exact noWrite_forEachItems _ _
    | exact noWrite_stripBullet _ _
    | exact noWrite_getUi
    | exact noWrite_getProperty _
    | exact noWrite_getProjectTriggers
    | exact noWrite_deleteTrigger _
    | exact noWrite_fetch _ _
    | exact keeps_getWorld noWrite_frame
    | exact keeps_pure noWrite_frame _
    | exact keeps_pureS noWrite_frame _
    | exact keeps_raise noWrite_frame _
    | apply keeps_bind noWrite_frame
    | apply keeps_tryCatch noWrite_frame
    | apply keeps_forEach noWrite_frame
    | apply keeps_forEachAcc noWrite_frame
    | intro _
    | split)

theorem noWrite_insertErrorBox (s : Option String) (l : String) (v : JsVal) :
    Keeps NoWrite (insertErrorBox s l v) := by
  unfold insertErrorBox
  repeat (with_reducible first
    | exact noWrite_fieldText _ _ _ _
    | apply noWrite_insertShapeWithText
    | exact noWrite_consoleWrite _ _
    | exact noWrite_openById _
    | exact noWrite_getSlideById _
    | exact noWrite_getPageElements _
    | exact noWrite_getShapes _
    | exact noWrite_removeElement _ _
    | exact noWrite_slideOrRaise _ _
    | exact noWrite_insertElement _ _ _ _ _ _
    | exact noWrite_modifyElement _ _ _
    | exact noWrite_getProp _ _
    | exact noWrite_forEachItems _ _
    | exact noWrite_stripBullet _ _
    | exact noWrite_getUi
    | exact noWrite_getProperty _
    | exact noWrite_getProjectTriggers
    | exact noWrite_deleteTrigger _
    | exact noWrite_fetch _ _
    | exact keeps_getWorld noWrite_frame
    | exact keeps_pure noWrite_frame _
    | exact keeps_pureS noWrite_frame _
    | exact keeps_raise noWrite_frame _
    | apply keeps_bind noWrite_frame
    | apply keeps_tryCatch noWrite_frame
    | apply keeps_forEach noWrite_frame
    | apply keeps_forEachAcc noWrite_frame
    | intro _
    | split)

theorem noWrite_insertTitle (s : Option String) (y : ℚ) (t : String) :
    Keeps NoWrite (insertTitle s y t) := by
  unfold insertTitle
  repeat (with_reducible first
    | apply noWrite_insertShapeWithText
    | exact noWrite_consoleWrite _ _
    | exact noWrite_openById _
    | exact noWrite_getSlideById _
    | exact noWrite_getPageElements _
    | exact noWrite_getShapes _
    | exact noWrite_removeElement _ _
    | exact noWrite_slideOrRaise _ _
    | exact noWrite_insertElement _ _ _ _ _ _
    | exact noWrite_modifyElement _ _ _
    | exact noWrite_getProp _ _
    | exact noWrite_forEachItems _ _
    | exact noWrite_stripBullet _ _
    | exact noWrite_getUi
    | exact noWrite_getProperty _
    | exact noWrite_getProjectTriggers
    | exact noWrite_deleteTrigger _
    | exact noWrite_fetch _ _
    | exact keeps_getWorld noWrite_frame
    | exact keeps_pure noWrite_frame _
    | exact keeps_pureS noWrite_frame _
    | exact keeps_raise noWrite_frame _
    | apply keeps_bind noWrite_frame
    | apply keeps_tryCatch noWrite_frame
    | apply keeps_forEach noWrite_frame
    | apply keeps_forEachAcc noWrite_frame
    | intro _
    | split)

theorem noWrite_preencherSlide6 (data : JsVal) : Keeps NoWrite (preencherSlide6 data) := by
  unfold preencherSlide6
  repeat (with_reducible first
    | exact noWrite_clearSlideContent _
    | exact noWrite_insertErrorBox _ _ _
    | exact noWrite_insertTitle _ _ _
    | exact noWrite_fieldText _ _ _ _
    | exact noWrite_nonEmptyList _
    | exact noWrite_addImageFromBase64 _ _ _ _ _ _
    | apply noWrite_insertShapeWithText
    | exact noWrite_consoleWrite _ _
    | exact noWrite_openById _
    | exact noWrite_getSlideById _
    | exact noWrite_getPageElements _
    | exact noWrite_getShapes _
    | exact noWrite_removeElement _ _
    | exact noWrite_slideOrRaise _ _
    | exact noWrite_insertElement _ _ _ _ _ _
    | exact noWrite_modifyElement _ _ _
    | exact noWrite_getProp _ _
    | exact noWrite_forEachItems _ _
    | exact noWrite_stripBullet _ _
    | exact noWrite_getUi
    | exact noWrite_getProperty _
    | exact noWrite_getProjectTriggers
    | exact noWrite_deleteTrigger _
    | exact noWrite_fetch _ _
    | exact keeps_getWorld noWrite_frame
    | exact keeps_pure noWrite_frame _
    | exact keeps_pureS noWrite_frame _
    | exact keeps_raise noWrite_frame _
    | apply keeps_bind noWrite_frame
    | apply keeps_tryCatch noWrite_frame
    | apply keeps_forEach noWrite_frame
    | apply keeps_forEachAcc noWrite_frame
    | intro _
    | split)

theorem noWrite_preencherSlide7 (data : JsVal) : Keeps NoWrite (preencherSlide7 data) := by
  unfold preencherSlide7
  repeat (with_reducible first
    | exact noWrite_clearSlideContent _
    | exact noWrite_insertErrorBox _ _ _
    | exact noWrite_insertTitle _ _ _
    | exact noWrite_fieldText _ _ _ _
    | exact noWrite_nonEmptyList _
    | exact noWrite_addImageFromBase64 _ _ _ _ _ _
    | apply noWrite_insertShapeWithText
    | exact noWrite_consoleWrite _ _
    | exact noWrite_openById _
    | exact noWrite_getSlideById _
    | exact noWrite_getPageElements _
    | exact noWrite_getShapes _
    | exact noWrite_removeElement _ _
    | exact noWrite_slideOrRaise _ _
    | exact noWrite_insertElement _ _ _ _ _ _
    | exact noWrite_modifyElement _ _ _
    | exact noWrite_getProp _ _
    | exact noWrite_forEachItems _ _
    | exact noWrite_stripBullet _ _
    | exact noWrite_getUi
    | exact noWrite_getProperty _
    | exact noWrite_getProjectTriggers
    | exact noWrite_deleteTrigger _
    | exact noWrite_fetch _ _
    | exact keeps_getWorld noWrite_frame
    | exact keeps_pure noWrite_frame _
    | exact keeps_pureS noWrite_frame _
    | exact keeps_raise noWrite_frame _
    | apply keeps_bind noWrite_frame
    | apply keeps_tryCatch noWrite_frame
    | apply keeps_forEach noWrite_frame
    | apply keeps_forEachAcc noWrite_frame
    | intro _
    | split)

theorem noWrite_preencherSlide8 (data : JsVal) : Keeps NoWrite (preencherSlide8 data) := by
  unfold preencherSlide8
  repeat (with_reducible first
    | exact noWrite_clearSlideContent _
    | exact noWrite_insertErrorBox _ _ _
    | exact noWrite_insertTitle _ _ _
    | exact noWrite_fieldText _ _ _ _
    | exact noWrite_nonEmptyList _
    | exact noWrite_addImageFromBase64 _ _ _ _ _ _
    | apply noWrite_insertShapeWithText
    | exact noWrite_consoleWrite _ _
    | exact noWrite_openById _
    | exact noWrite_getSlideById _
    | exact noWrite_getPageElements _
    | exact noWrite_getShapes _
    | exact noWrite_removeElement _ _
    | exact noWrite_slideOrRaise _ _
    | exact noWrite_insertElement _ _ _ _ _ _
    | exact noWrite_modifyElement _ _ _
    | exact noWrite_getProp _ _
    | exact noWrite_forEachItems _ _
    | exact noWrite_stripBullet _ _
    | exact noWrite_getUi
    | exact noWrite_getProperty _
    | exact noWrite_getProjectTriggers
    | exact noWrite_deleteTrigger _
    | exact noWrite_fetch _ _
    | exact keeps_getWorld noWrite_frame
    | exact keeps_pure noWrite_frame _
    | exact keeps_pureS noWrite_frame _
    | exact keeps_raise noWrite_frame _
    | apply keeps_bind noWrite_frame
    | apply keeps_tryCatch noWrite_frame
    | apply keeps_forEach noWrite_frame
    | apply keeps_forEachAcc noWrite_frame
    | intro _
    | split)

theorem noWrite_preencherSlide9 (data : JsVal) : Keeps NoWrite (preencherSlide9 data) := by
  unfold preencherSlide9
  repeat (with_reducible first
    | exact noWrite_clearSlideContent _
    | exact noWrite_insertErrorBox _ _ _
    | exact noWrite_insertTitle _ _ _
    | exact noWrite_fieldText _ _ _ _
    | exact noWrite_nonEmptyList _
    | exact noWrite_addImageFromBase64 _ _ _ _ _ _
    | apply noWrite_insertShapeWithText
    | exact noWrite_consoleWrite _ _
    | exact noWrite_openById _
    | exact noWrite_getSlideById _
    | exact noWrite_getPageElements _
    | exact noWrite_getShapes _
    | exact noWrite_removeElement _ _
    | exact noWrite_slideOrRaise _ _
    | exact noWrite_insertElement _ _ _ _ _ _
    | exact noWrite_modifyElement _ _ _
    | exact noWrite_getProp _ _
    | exact noWrite_forEachItems _ _
    | exact noWrite_stripBullet _ _
    | exact noWrite_getUi
    | exact noWrite_getProperty _
    | exact noWrite_getProjectTriggers
    | exact noWrite_deleteTrigger _
    | exact noWrite_fetch _ _
    | exact keeps_getWorld noWrite_frame
    | exact keeps_pure noWrite_frame _
    | exact keeps_pureS noWrite_frame _
    | exact keeps_raise noWrite_frame _
    | apply keeps_bind noWrite_frame
    | apply keeps_tryCatch noWrite_frame
    | apply keeps_forEach noWrite_frame
    | apply keeps_forEachAcc noWrite_frame
    | intro _
    | split)

theorem noWrite_preencherSlide10 (data : JsVal) : Keeps NoWrite (preencherSlide10 data) := by
  unfold preencherSlide10
  repeat (with_reducible first
    | exact noWrite_clearSlideContent _
    | exact noWrite_insertErrorBox _ _ _
    | exact noWrite_insertTitle _ _ _
    | exact noWrite_fieldText _ _ _ _
    | exact noWrite_nonEmptyList _
    | exact noWrite_addImageFromBase64 _ _ _ _ _ _
    | apply noWrite_insertShapeWithText
    | exact noWrite_consoleWrite _ _
    | exact noWrite_openById _
    | exact noWrite_getSlideById _
    | exact noWrite_getPageElements _
    | exact noWrite_getShapes _
    | exact noWrite_removeElement _ _
    | exact noWrite_slideOrRaise _ _
    | exact noWrite_insertElement _ _ _ _ _ _
    | exact noWrite_modifyElement _ _ _
    | exact noWrite_getProp _ _
    | exact noWrite_forEachItems _ _
    | exact noWrite_stripBullet _ _
    | exact noWrite_getUi
    | exact noWrite_getProperty _
    | exact noWrite_getProjectTriggers
    | exact noWrite_deleteTrigger _
    | exact noWrite_fetch _ _
    | exact keeps_getWorld noWrite_frame
    | exact keeps_pure noWrite_frame _
    | exact keeps_pureS noWrite_frame _
    | exact keeps_raise noWrite_frame _
    | apply keeps_bind noWrite_frame
    | apply keeps_tryCatch noWrite_frame
    | apply keeps_forEach noWrite_frame
    | apply keeps_forEachAcc noWrite_frame
    | intro _
    | split)

theorem noWrite_preencherSlide11 (data : JsVal) : Keeps NoWrite (preencherSlide11 data) := by
  unfold preencherSlide11
  repeat (with_reducible first
    | exact noWrite_clearSlideContent _
    | exact noWrite_insertErrorBox _ _ _
    | exact noWrite_insertTitle _ _ _
    | exact noWrite_fieldText _ _ _ _
    | exact noWrite_nonEmptyList _
    | exact noWrite_addImageFromBase64 _ _ _ _ _ _
    | apply noWrite_insertShapeWithText
    | exact noWrite_consoleWrite _ _
    | exact noWrite_openById _
    | exact noWrite_getSlideById _
    | exact noWrite_getPageElements _
    | exact noWrite_getShapes _
    | exact noWrite_removeElement _ _
    | exact noWrite_slideOrRaise _ _
    | exact noWrite_insertElement _ _ _ _ _ _
    | exact noWrite_modifyElement _ _ _
    | exact noWrite_getProp _ _
    | exact noWrite_forEachItems _ _
    | exact noWrite_stripBullet _ _
    | exact noWrite_getUi
    | exact noWrite_getProperty _
    | exact noWrite_getProjectTriggers
    | exact noWrite_deleteTrigger _
    | exact noWrite_fetch _ _
    | exact keeps_getWorld noWrite_frame
    | exact keeps_pure noWrite_frame _
    | exact keeps_pureS noWrite_frame _
    | exact keeps_raise noWrite_frame _
    | apply keeps_bind noWrite_frame
    | apply keeps_tryCatch noWrite_frame
    | apply keeps_forEach noWrite_frame
    | apply keeps_forEachAcc noWrite_frame
    | intro _
    | split)

set_option maxRecDepth 4000 in
theorem noWrite_preencherSlide12 (data : JsVal) : Keeps NoWrite (preencherSlide12 data) := by
  unfold preencherSlide12
  repeat (with_reducible first
    | exact noWrite_clearSlideContent _
    | exact noWrite_insertErrorBox _ _ _
    | exact noWrite_insertTitle _ _ _
    | exact noWrite_fieldText _ _ _ _
    | exact noWrite_nonEmptyList _
    | exact noWrite_addImageFromBase64 _ _ _ _ _ _
    | apply noWrite_insertShapeWithText
    | exact noWrite_consoleWrite _ _
    | exact noWrite_openById _
    | exact noWrite_getSlideById _
    | exact noWrite_getPageElements _
    | exact noWrite_getShapes _
    | exact noWrite_removeElement _ _
    | exact noWrite_slideOrRaise _ _
    | exact noWrite_insertElement _ _ _ _ _ _
    | exact noWrite_modifyElement _ _ _
    | exact noWrite_getProp _ _
    | exact noWrite_forEachItems _ _
    | exact noWrite_stripBullet _ _
    | exact noWrite_getUi
    | exact noWrite_getProperty _
    | exact noWrite_getProjectTriggers
    | exact noWrite_deleteTrigger _
    | exact noWrite_fetch _ _
    | exact keeps_getWorld noWrite_frame
    | exact keeps_pure noWrite_frame _
    | exact keeps_pureS noWrite_frame _
    | exact keeps_raise noWrite_frame _
    | apply keeps_bind noWrite_frame
    | apply keeps_tryCatch noWrite_frame
    | apply keeps_forEach noWrite_frame
    | apply keeps_forEachAcc noWrite_frame
    | intro _
    | split)

theorem noWrite_insertCatchErrorBox (s : Option String) (t : ℚ) (m : String) :
    Keeps NoWrite (insertCatchErrorBox s t m) := by
  unfold insertCatchErrorBox
  repeat (with_reducible first
    | apply noWrite_insertShapeWithText
    | exact noWrite_consoleWrite _ _
    | exact noWrite_openById _
    | exact noWrite_getSlideById _
    | exact noWrite_getPageElements _
    | exact noWrite_getShapes _
    | exact noWrite_removeElement _ _
    | exact noWrite_slideOrRaise _ _
    | exact noWrite_insertElement _ _ _ _ _ _
    | exact noWrite_modifyElement _ _ _
    | exact noWrite_getProp _ _
    | exact noWrite_forEachItems _ _
    | exact noWrite_stripBullet _ _
    | exact noWrite_getUi
    | exact noWrite_getProperty _
    | exact noWrite_getProjectTriggers
    | exact noWrite_deleteTrigger _
    | exact noWrite_fetch _ _
    | exact keeps_getWorld noWrite_frame
    | exact keeps_pure noWrite_frame _
    | exact keeps_pureS noWrite_frame _
    | exact keeps_raise noWrite_frame _
    | apply keeps_bind noWrite_frame
    | apply keeps_tryCatch noWrite_frame
    | apply keeps_forEach noWrite_frame
    | apply keeps_forEachAcc noWrite_frame
    | intro _
    | split)

theorem noWrite_deleteAnalysisTriggers : Keeps NoWrite deleteAnalysisTriggers := by
  unfold deleteAnalysisTriggers
  repeat (with_reducible first
    | exact noWrite_consoleWrite _ _
    | exact noWrite_openById _
    | exact noWrite_getSlideById _
    | exact noWrite_getPageElements _
    | exact noWrite_getShapes _
    | exact noWrite_removeElement _ _
    | exact noWrite_slideOrRaise _ _
    | exact noWrite_insertElement _ _ _ _ _ _
    | exact noWrite_modifyElement _ _ _
    | exact noWrite_getProp _ _
    | exact noWrite_forEachItems _ _
    | exact noWrite_stripBullet _ _
    | exact noWrite_getUi
    | exact noWrite_getProperty _
    | exact noWrite_getProjectTriggers
    | exact noWrite_deleteTrigger _
    | exact noWrite_fetch _ _
    | exact keeps_getWorld noWrite_frame
    | exact keeps_pure noWrite_frame _
    | exact keeps_pureS noWrite_frame _
    | exact keeps_raise noWrite_frame _
    | apply keeps_bind noWrite_frame
    | apply keeps_tryCatch noWrite_frame
    | apply keeps_forEach noWrite_frame
    | apply keeps_forEachAcc noWrite_frame
    | intro _
    | split)

theorem noWrite_parseData (r : String) : Keeps NoWrite (parseData r) := by
  unfold parseData
  repeat (with_reducible first
    | exact noWrite_consoleWrite _ _
    | exact noWrite_openById _
    | exact noWrite_getSlideById _
    | exact noWrite_getPageElements _
    | exact noWrite_getShapes _
    | exact noWrite_removeElement _ _
    | exact noWrite_slideOrRaise _ _
    | exact noWrite_insertElement _ _ _ _ _ _
    | exact noWrite_modifyElement _ _ _
    | exact noWrite_getProp _ _
    | exact noWrite_forEachItems _ _
    | exact noWrite_stripBullet _ _
    | exact noWrite_getUi
    | exact noWrite_getProperty _
    | exact noWrite_getProjectTriggers
    | exact noWrite_deleteTrigger _
    | exact noWrite_fetch _ _
    | exact keeps_getWorld noWrite_frame
    | exact keeps_pure noWrite_frame _
    | exact keeps_pureS noWrite_frame _
    | exact keeps_raise noWrite_frame _
    | apply keeps_bind noWrite_frame
    | apply keeps_tryCatch noWrite_frame
    | apply keeps_forEach noWrite_frame
    | apply keeps_forEachAcc noWrite_frame
    | intro _
    | split)

theorem noWrite_clearTargetSlidesOnOpen : Keeps NoWrite clearTargetSlidesOnOpen := by
  unfold clearTargetSlidesOnOpen
  repeat (with_reducible first
    | exact noWrite_clearSlideContent _
    | exact noWrite_consoleWrite _ _
    | exact noWrite_openById _
    | exact noWrite_getSlideById _
    | exact noWrite_getPageElements _
    | exact noWrite_getShapes _
    | exact noWrite_removeElement _ _
    | exact noWrite_slideOrRaise _ _
    | exact noWrite_insertElement _ _ _ _ _ _
    | exact noWrite_modifyElement _ _ _
    | exact noWrite_getProp _ _
    | exact noWrite_forEachItems _ _
    | exact noWrite_stripBullet _ _
    | exact noWrite_getUi
    | exact noWrite_getProperty _
    | exact noWrite_getProjectTriggers
    | exact noWrite_deleteTrigger _
    | exact noWrite_fetch _ _
    | exact keeps_getWorld noWrite_frame
    | exact keeps_pure noWrite_frame _
    | exact keeps_pureS noWrite_frame _
    | exact keeps_raise noWrite_frame _
    | apply keeps_bind noWrite_frame
    | apply keeps_tryCatch noWrite_frame
    | apply keeps_forEach noWrite_frame
    | apply keeps_forEachAcc noWrite_frame
    | intro _
    | split)

theorem noWrite_limparSlides (ids : List String) : Keeps NoWrite (limparSlides ids) := by
  unfold limparSlides limparSlide
  repeat (with_reducible first
    | exact noWrite_clearSlideContent _
    | exact noWrite_consoleWrite _ _
    | exact noWrite_openById _
    | exact noWrite_getSlideById _
    | exact noWrite_getPageElements _
    | exact noWrite_getShapes _
    | exact noWrite_removeElement _ _
    | exact noWrite_slideOrRaise _ _
    | exact noWrite_insertElement _ _ _ _ _ _
    | exact noWrite_modifyElement _ _ _
    | exact noWrite_getProp _ _
    | exact noWrite_forEachItems _ _
    | exact noWrite_stripBullet _ _
    | exact noWrite_getUi
    | exact noWrite_getProperty _
    | exact noWrite_getProjectTriggers
    | exact noWrite_deleteTrigger _
    | exact noWrite_fetch _ _
    | exact keeps_getWorld noWrite_frame
    | exact keeps_pure noWrite_frame _
    | exact keeps_pureS noWrite_frame _
    | exact keeps_raise noWrite_frame _
    | apply keeps_bind noWrite_frame
    | apply keeps_tryCatch noWrite_frame
    | apply keeps_forEach noWrite_frame
    | apply keeps_forEachAcc noWrite_frame
    | intro _
    | split)

theorem noWrite_contarSlidesPreenchidos (ids : List String) :
    Keeps NoWrite (contarSlidesPreenchidos ids) := by
  unfold contarSlidesPreenchidos
  repeat (with_reducible first
    | exact noWrite_consoleWrite _ _
    | exact noWrite_openById _
    | exact noWrite_getSlideById _
    | exact noWrite_getPageElements _
    | exact noWrite_getShapes _
    | exact noWrite_removeElement _ _
    | exact noWrite_slideOrRaise _ _
    | exact noWrite_insertElement _ _ _ _ _ _
    | exact noWrite_modifyElement _ _ _
    | exact noWrite_getProp _ _
    | exact noWrite_forEachItems _ _
    | exact noWrite_stripBullet _ _
    | exact noWrite_getUi
    | exact noWrite_getProperty _
    | exact noWrite_getProjectTriggers
    | exact noWrite_deleteTrigger _
    | exact noWrite_fetch _ _
    | exact keeps_getWorld noWrite_frame
    | exact keeps_pure noWrite_frame _
    | exact keeps_pureS noWrite_frame _
    | exact keeps_raise noWrite_frame _
    | apply keeps_bind noWrite_frame
    | apply keeps_tryCatch noWrite_frame
    | apply keeps_forEach noWrite_frame
    | apply keeps_forEachAcc noWrite_frame
    | intro _
    | split)

/-! ## Postconditions of normal completion -/

theorem bind_eq_ok {α β : Type} {m : Script α} {f : α → Script β} {w w2 : World} {b : β}
    (h : (m >>= f) w = Res.ok b w2) : ∃ a w1, m w = Res.ok a w1 ∧ f a w1 = Res.ok b w2 := by
  change Script.bind m f w = Res.ok b w2 at h
  unfold Script.bind at h
  cases hm : m w with
  | ok a w1 => rw [hm] at h; exact ⟨a, w1, rfl, h⟩
  | raised e w1 => rw [hm] at h; cases h

theorem bind_of_ok {α β : Type} {m : Script α} {f : α → Script β} {w w1 : World} {a : α}
    (h : m w = Res.ok a w1) : (m >>= f) w = f a w1 := by
  change Script.bind m f w = f a w1
  unfold Script.bind
  rw [h]

theorem bind_of_raised {α β : Type} {m : Script α} {f : α → Script β} {w w1 : World}
    {e : String} (h : m w = Res.raised e w1) : (m >>= f) w = Res.raised e w1 := by
  change Script.bind m f w = Res.raised e w1
  unfold Script.bind
  rw [h]

theorem post_bind_right {α β : Type} {m : Script α} {f : α → Script β} {Q : World → Prop}
    (hf : ∀ a, Post (f a) Q) : Post (m >>= f) Q := by
  constructor
  intro w b w2 h
  obtain ⟨a, w1, _, h2⟩ := bind_eq_ok h
  exact (hf a).post w1 b w2 h2

theorem post_bind_keep {α β : Type} {m : Script α} {f : α → Script β} {Q : World → Prop}
    (hm : Post m Q) (hf : ∀ a, Keeps (fun w w1 => Q w → Q w1) (f a)) : Post (m >>= f) Q := by
  constructor
  intro w b w2 h
  obtain ⟨a, w1, h1, h2⟩ := bind_eq_ok h
  have hk := (hf a).frame w1
  rw [h2] at hk
  exact hk (hm.post w a w1 h1)

theorem post_tryCatch {α : Type} {m : Script α} {h : String → Script α} {Q : World → Prop}
    (hm : Post m Q) (hh : ∀ e, Post (h e) Q) : Post (tryCatch m h) Q := by
  constructor
  intro w a w2 hr
  unfold DynamicPresentation.tryCatch at hr
  cases hmw : m w with
  | ok a1 w1 =>
    rw [hmw] at hr
    cases hr
    exact hm.post w a w2 hmw
  | raised e w1 =>
    rw [hmw] at hr
    exact (hh e).post w1 a w2 hr

theorem post_tryFinally {α : Type} {m : Script α} {fin : Script Unit} {Q : World → Prop}
    (hm : Post m Q) (hfin : Keeps (fun w w1 => Q w → Q w1) fin) : Post (tryFinally m fin) Q := by
  constructor
  intro w a w2 hr
  unfold DynamicPresentation.tryFinally at hr
  cases hmw : m w with
  | ok a1 w1 =>
    rw [hmw] at hr
    dsimp only at hr
    have hk := hfin.frame w1
    cases hf : fin w1 with
    | ok u w3 =>
      rw [hf] at hr hk
      cases hr
      exact hk (hm.post w _ w1 hmw)
    | raised e w3 => rw [hf] at hr; cases hr
  | raised e w1 =>
    rw [hmw] at hr
    dsimp only at hr
    cases hf : fin w1 with
    | ok u w3 => rw [hf] at hr; cases hr
    | raised e w3 => rw [hf] at hr; cases hr

theorem lookupKey_storeKey (key value : String) (l : List (String × String)) :
    lookupKey key (storeKey key value l) = some value := by
  induction l with
  | nil => simp [storeKey, lookupKey]
  | cons kv rest ih =>
    obtain ⟨k, v⟩ := kv
    by_cases hk : (k == key) = true
    · simp [storeKey, lookupKey, hk]
    · simp [storeKey, lookupKey, hk, ih]

theorem status_setProperty (value : String) (w : World) :
    (setProperty ANALYSIS_STATUS_KEY value w).world.status = some value := by
  show lookupKey ANALYSIS_STATUS_KEY (storeKey ANALYSIS_STATUS_KEY value w.properties) = some value
  exact lookupKey_storeKey _ _ _

theorem post_setStatus (value : String) :
    Post (setProperty ANALYSIS_STATUS_KEY value) (fun w => w.status = some value) := by
  constructor
  intro w a w1 h
  have := status_setProperty value w
  rw [h] at this
  exact this

theorem keeps_statusPred {α : Type} {m : Script α} (Q : Option String → Prop)
    (hm : Keeps NoWrite m) : Keeps (fun w w1 => Q w.status → Q w1.status) m :=
  keeps_mono (fun _ _ h hq => by rw [noWrite_status_eq h]; exact hq) hm

theorem post_mono {α : Type} {m : Script α} {Q Q2 : World → Prop} (h : ∀ w, Q w → Q2 w)
    (hm : Post m Q) : Post m Q2 :=
  ⟨fun w a w1 hr => h _ (hm.post w a w1 hr)⟩

theorem post_executarAnaliseCompletaCatch (message : String) :
    Post (executarAnaliseCompletaCatch message) World.finished := by
  unfold executarAnaliseCompletaCatch
  repeat (first
    | exact post_mono (fun _ h => Or.inr h) (post_setStatus STATUS_ERROR)
    | with_reducible apply post_bind_right
    | intro _)

theorem post_executarAnaliseCompletaBody (answer : FetchOutcome) :
    Post (executarAnaliseCompletaBody answer) World.finished := by
  unfold executarAnaliseCompletaBody executarAnaliseCompletaResto
  repeat (first
    | exact post_mono (fun _ h => Or.inr h) (post_setStatus STATUS_ERROR)
    | exact post_bind_keep (post_mono (fun _ h => Or.inl h) (post_setStatus STATUS_COMPLETED))
        (fun _ => keeps_statusPred
          (fun s => s = some STATUS_COMPLETED ∨ s = some STATUS_ERROR) noWrite_exibirModalConclusao)
    | with_reducible apply post_bind_right
    | intro _
    | split)

theorem post_executarAnaliseCompleta (answer : FetchOutcome) :
    Post (executarAnaliseCompleta answer) World.finished := by
  unfold executarAnaliseCompleta
  exact post_tryFinally
    (post_tryCatch (post_executarAnaliseCompletaBody answer) post_executarAnaliseCompletaCatch)
    (keeps_statusPred (fun s => s = some STATUS_COMPLETED ∨ s = some STATUS_ERROR)
      noWrite_deleteAnalysisTriggers)

theorem res_eq_ok_of_isOk {r : Res Unit} (h : r.isOk = true) : r = Res.ok () r.world := by
  cases r with
  | ok a w => rfl
  | raised e w => cases h

/-! ## The HTTP call and the final status (C2, C1) -/

/-- C2: `callCloudFunction` never raises; it returns the response body
exactly when the response code `c` satisfies `200 ≤ c < 300`, and `null`
(here `none`) for every other code and when the fetch raises. -/
theorem callCloudFunction_result (answer : FetchOutcome) (w : World) :
    ∃ w1, callCloudFunction answer w = Res.ok
      (match answer with
        | FetchOutcome.response code body => if 200 ≤ code ∧ code < 300 then some body else none
        | FetchOutcome.raises _ => none) w1 := by
  cases answer with
  | raises msg => exact ⟨_, rfl⟩
  | response code body =>
    by_cases h : 200 ≤ code ∧ code < 300
    · refine ⟨(callCloudFunction (FetchOutcome.response code body) w).world, ?_⟩
      simp only [callCloudFunction, tryCatch, fetch, consoleWrite, modifyWorld, bind,
        Script.bind, pure, Script.pure, h, ge_iff_le, Bool.and_eq_true, decide_eq_true_eq,
        and_self, if_true]
      rfl
    · refine ⟨(callCloudFunction (FetchOutcome.response code body) w).world, ?_⟩
      simp only [callCloudFunction, tryCatch, fetch, consoleWrite, modifyWorld, bind,
        Script.bind, pure, Script.pure, h, ge_iff_le, Bool.and_eq_true, decide_eq_true_eq,
        if_false]
      rfl

/-- C1: whenever `executarAnaliseCompleta` returns normally, the status flag
is COMPLETED or ERROR, for every prior world (so every prior value of the
flag) and every answer of the analytics service. -/
theorem executarAnaliseCompleta_final_status (answer : FetchOutcome) (w w1 : World)
    (h : executarAnaliseCompleta answer w = Res.ok () w1) :
    w1.status = some STATUS_COMPLETED ∨ w1.status = some STATUS_ERROR :=
  (post_executarAnaliseCompleta answer).post w () w1 h

theorem executarAnaliseCompleta_final_status_witness :
    (executarAnaliseCompleta (FetchOutcome.response 200 "payload") sampleWorld).world.status
        = some STATUS_COMPLETED ∨
      (executarAnaliseCompleta (FetchOutcome.response 200 "payload") sampleWorld).world.status
        = some STATUS_ERROR :=
  executarAnaliseCompleta_final_status (FetchOutcome.response 200 "payload") sampleWorld _
    (res_eq_ok_of_isOk (by decide!))

/-! ## Slides and their page elements -/

theorem findSlide_map (slideId s : String) (f : List PageElement → List PageElement)
    (slides : List Slide) :
    findSlide slideId (slides.map (fun x =>
        if x.objectId == s then { x with pageElements := f x.pageElements } else x)) =
      (findSlide slideId slides).map (fun x =>
        if x.objectId == s then { x with pageElements := f x.pageElements } else x) := by
  induction slides with
  | nil => rfl
  | cons x rest ih =>
    by_cases hx : x.objectId = s <;> by_cases hi : x.objectId = slideId <;>
      simp_all [findSlide]

theorem hasSlide_updateSlide (w : World) (s : String) (f : List PageElement → List PageElement)
    (slideId : String) : (w.updateSlide s f).hasSlide slideId = w.hasSlide slideId := by
  unfold World.hasSlide World.updateSlide
  cases hp : w.presentation with
  | none => rfl
  | some slides =>
    simp only [Option.map_some']
    rw [findSlide_map]
    cases findSlide slideId slides <;> rfl

theorem isSome_updateSlide (w : World) (s : String) (f : List PageElement → List PageElement) :
    (w.updateSlide s f).presentation.isSome = w.presentation.isSome := by
  unfold World.updateSlide
  cases w.presentation <;> rfl

theorem findSlide_objectId {slideId : String} {slides : List Slide} {x : Slide}
    (h : findSlide slideId slides = some x) : x.objectId = slideId := by
  induction slides with
  | nil => cases h
  | cons y rest ih =>
    unfold findSlide at h
    by_cases hy : (y.objectId == slideId) = true
    · rw [if_pos hy] at h
      cases h
      exact eq_of_beq hy
    · rw [if_neg hy] at h
      exact ih h

theorem elementsOf_updateSlide_ne (w : World) (s : String)
    (f : List PageElement → List PageElement) (slideId : String) (h : slideId ≠ s) :
    (w.updateSlide s f).elementsOf slideId = w.elementsOf slideId := by
  unfold World.elementsOf World.updateSlide
  cases hp : w.presentation with
  | none => rfl
  | some slides =>
    simp only [Option.map_some']
    rw [findSlide_map]
    cases hf : findSlide slideId slides with
    | none => rfl
    | some x =>
      have hx : x.objectId = slideId := findSlide_objectId hf
      have hne : ¬ x.objectId = s := by
        rw [hx]
        exact h
      simp [hne]

theorem elementsOf_updateSlide_self (w : World) (s : String)
    (f : List PageElement → List PageElement) (h : w.hasSlide s = true) :
    (w.updateSlide s f).elementsOf s = f (w.elementsOf s) := by
  unfold World.hasSlide at h
  unfold World.elementsOf World.updateSlide
  cases hp : w.presentation with
  | none => rw [hp] at h; cases h
  | some slides =>
    rw [hp] at h
    dsimp only at h
    simp only [Option.map_some']
    rw [findSlide_map]
    cases hf : findSlide s slides with
    | none => rw [hf] at h; cases h
    | some x =>
      have hx : x.objectId = s := findSlide_objectId hf
      simp [hx]

theorem elementsOf_of_not_hasSlide (w : World) (s : String) (h : w.hasSlide s = false) :
    w.elementsOf s = [] := by
  unfold World.hasSlide at h
  unfold World.elementsOf
  cases hp : w.presentation with
  | none => rfl
  | some slides =>
    rw [hp] at h
    dsimp only at h ⊢
    cases hf : findSlide s slides with
    | none => rfl
    | some x => rw [hf] at h; cases h

theorem elementsOf_congr {w w1 : World} (h : NoSlide w w1) (slideId : String) :
    w1.elementsOf slideId = w.elementsOf slideId := by
  unfold NoSlide at h
  unfold World.elementsOf
  rw [h]

/-! ## Code that touches no slide, or one slide only -/

theorem noSlide_frame : IsFrame NoSlide :=
  ⟨fun _ => rfl, fun _ _ _ h1 h2 => h2.trans h1⟩

theorem otherSlides_frame (s : String) : IsFrame (OtherSlides s) :=
  ⟨fun _ => ⟨rfl, fun _ => rfl, fun _ _ => rfl⟩,
   fun _ _ _ h1 h2 => ⟨h2.1.trans h1.1, fun i => (h2.2.1 i).trans (h1.2.1 i),
     fun i hi => (h2.2.2 i hi).trans (h1.2.2 i hi)⟩⟩

theorem otherSlides_of_noSlide (s : String) (w w1 : World) (h : NoSlide w w1) :
    OtherSlides s w w1 := by
  unfold NoSlide at h
  unfold OtherSlides World.hasSlide World.elementsOf
  rw [h]
  exact ⟨rfl, fun _ => rfl, fun _ _ => rfl⟩

theorem otherSlides_updateSlide (s : String) (f : List PageElement → List PageElement)
    (w : World) : OtherSlides s w (w.updateSlide s f) :=
  ⟨isSome_updateSlide w s f, hasSlide_updateSlide w s f,
    fun i hi => elementsOf_updateSlide_ne w s f i hi⟩

theorem noSlide_consoleWrite (l m : String) : Keeps NoSlide (consoleWrite l m) :=
  ⟨fun _ => rfl⟩

theorem noSlide_setProperty (k v : String) : Keeps NoSlide (setProperty k v) :=
  ⟨fun _ => rfl⟩

theorem noSlide_openById (i : String) : Keeps NoSlide (openById i) := by
  constructor; intro w; unfold openById; cases w.presentation <;> rfl

theorem noSlide_getSlideById (i : String) : Keeps NoSlide (getSlideById i) := by
  constructor; intro w; unfold getSlideById
  cases w.presentation with
  | none => rfl
  | some sl => dsimp only; cases findSlide i sl <;> rfl

theorem noSlide_getPageElements (i : String) : Keeps NoSlide (getPageElements i) :=
  ⟨fun _ => rfl⟩

theorem noSlide_getShapes (i : String) : Keeps NoSlide (getShapes i) := ⟨fun _ => rfl⟩

theorem noSlide_slideOrRaise (s : Option String) (m : String) :
    Keeps NoSlide (slideOrRaise s m) := by
  constructor; intro w; unfold slideOrRaise; cases s <;> rfl

theorem noSlide_getUi : Keeps NoSlide getUi := by
  constructor; intro w; unfold getUi; split <;> rfl

theorem noSlide_getProperty (k : String) : Keeps NoSlide (getProperty k) := ⟨fun _ => rfl⟩

theorem noSlide_getProjectTriggers : Keeps NoSlide getProjectTriggers := ⟨fun _ => rfl⟩

theorem noSlide_deleteTrigger (t : Trigger) : Keeps NoSlide (deleteTrigger t) := ⟨fun _ => rfl⟩

theorem noSlide_fetch (a : FetchOutcome) (r : Request) : Keeps NoSlide (fetch a r) := by
  constructor; intro w; unfold fetch; cases a <;> rfl

theorem noSlide_showModalDialog (h : String) (a b : Nat) (t : String) :
    Keeps NoSlide (showModalDialog h a b t) := by
  unfold showModalDialog
  exact keeps_bind noSlide_frame noSlide_getUi (fun _ => ⟨fun _ => rfl⟩)

theorem noSlide_alert (m : String) : Keeps NoSlide (alert m) := by
  unfold alert
  exact keeps_bind noSlide_frame noSlide_getUi (fun _ => ⟨fun _ => rfl⟩)

theorem noSlide_callCloudFunction (a : FetchOutcome) : Keeps NoSlide (callCloudFunction a) := by
  unfold callCloudFunction
  repeat (with_reducible first
    | exact noSlide_consoleWrite _ _
    | exact noSlide_fetch _ _
    | exact keeps_pure noSlide_frame _
    | apply keeps_bind noSlide_frame
    | apply keeps_tryCatch noSlide_frame
    | intro _
    | split)

theorem noSlide_deleteAnalysisTriggers : Keeps NoSlide deleteAnalysisTriggers := by
  unfold deleteAnalysisTriggers
  repeat (with_reducible first
    | exact noSlide_consoleWrite _ _
    | exact noSlide_getProjectTriggers
    | exact noSlide_deleteTrigger _
    | exact keeps_pure noSlide_frame _
    | apply keeps_bind noSlide_frame
    | apply keeps_forEach noSlide_frame
    | intro _
    | split)

theorem noSlide_exibirModalCustomizado (t m c : String) :
    Keeps NoSlide (exibirModalCustomizado t m c) := by
  unfold exibirModalCustomizado
  repeat (with_reducible first
    | exact noSlide_consoleWrite _ _
    | exact noSlide_showModalDialog _ _ _ _
    | exact noSlide_alert _
    | apply keeps_bind noSlide_frame
    | apply keeps_tryCatch noSlide_frame
    | intro _
    | split)

theorem noSlide_exibirModalConclusao : Keeps NoSlide exibirModalConclusao := by
  unfold exibirModalConclusao
  repeat (with_reducible first
    | exact noSlide_consoleWrite _ _
    | exact noSlide_showModalDialog _ _ _ _
    | exact keeps_getWorld noSlide_frame
    | apply keeps_bind noSlide_frame
    | apply keeps_tryCatch noSlide_frame
    | intro _
    | split)

theorem otherSlides_removeElement (s : String) (e : PageElement) :
    Keeps (OtherSlides s) (removeElement s e) := by
  constructor; intro w; unfold removeElement
  split
  · exact (otherSlides_frame s).refl w
  · exact otherSlides_updateSlide s _ w

theorem otherSlides_insertElement (s : String) (k : ElementKind) (a b c d : ℚ) :
    Keeps (OtherSlides s) (insertElement s k a b c d) := by
  constructor
  intro w
  exact otherSlides_updateSlide s (fun es => es ++
    [⟨freshObjectId (w.presentation.getD []), k, "", a, b, c, d, TextStyle.plain, false⟩]) w

theorem otherSlides_modifyElement (s : String) (i : Nat) (f : PageElement → PageElement) :
    Keeps (OtherSlides s) (modifyElement s i f) :=
  ⟨fun w => otherSlides_updateSlide s _ w⟩

theorem otherSlides_removeMessageShapes (s : String) (l : List PageElement) (m : String) :
    Keeps (OtherSlides s) (removeMessageShapes s l m) := by
  unfold removeMessageShapes
  repeat (with_reducible first
    | exact keeps_mono (otherSlides_of_noSlide s) (noSlide_consoleWrite _ _)
    | exact otherSlides_removeElement _ _
    | exact keeps_pure (otherSlides_frame s) _
    | apply keeps_bind (otherSlides_frame s)
    | apply keeps_forEach (otherSlides_frame s)
    | intro _
    | split)

theorem getSlideById_value {slideId : String} {w w1 : World} {a : Option String}
    (h : getSlideById slideId w = Res.ok a w1) : a = none ∨ a = some slideId := by
  unfold getSlideById at h
  cases hp : w.presentation with
  | none => rw [hp] at h; cases h; exact Or.inl rfl
  | some slides =>
    rw [hp] at h
    dsimp only at h
    cases hf : findSlide slideId slides with
    | none => rw [hf] at h; cases h; exact Or.inl rfl
    | some x => rw [hf] at h; cases h; exact Or.inr rfl

theorem slideOrRaise_value {slide : Option String} {m : String} {w w1 : World} {x : String}
    (h : slideOrRaise slide m w = Res.ok x w1) : slide = some x := by
  unfold slideOrRaise at h
  cases slide with
  | none => cases h
  | some s => cases h; rfl

theorem otherSlides_insertShapeWithText (s : String) (slide : Option String)
    (hs : slide = none ∨ slide = some s) (a b c d : ℚ) (t : Script String) (st : TextStyle)
    (ht : Keeps (OtherSlides s) t) :
    Keeps (OtherSlides s) (insertShapeWithText slide a b c d t st) := by
  unfold insertShapeWithText
  apply keeps_bindOf (otherSlides_frame s) (fun x => x = s)
    (keeps_mono (otherSlides_of_noSlide s) (noSlide_slideOrRaise _ _))
  · intro w x w1 hx
    have h1 := slideOrRaise_value hx
    rcases hs with h2 | h2
    · rw [h2] at h1; cases h1
    · rw [h2] at h1; cases h1; rfl
  · intro x hx
    subst hx
    repeat (with_reducible first
      | exact otherSlides_insertElement _ _ _ _ _ _
      | exact otherSlides_modifyElement _ _ _
      | exact ht
      | exact keeps_pure (otherSlides_frame _) _
      | apply keeps_bind (otherSlides_frame _)
      | intro _)

theorem otherSlides_removerMensagemCarregamento :
    Keeps (OtherSlides LOADING_MESSAGE_SLIDE_ID) removerMensagemCarregamento := by
  unfold removerMensagemCarregamento
  apply keeps_tryCatch (otherSlides_frame _)
  · apply keeps_bind (otherSlides_frame _)
      (keeps_mono (otherSlides_of_noSlide _) (noSlide_openById _))
    intro _
    apply keeps_bindOf (otherSlides_frame _)
      (fun a => a = none ∨ a = some LOADING_MESSAGE_SLIDE_ID)
      (keeps_mono (otherSlides_of_noSlide _) (noSlide_getSlideById _))
    · intro w a w1 h
      exact getSlideById_value h
    · intro a ha
      rcases ha with rfl | rfl
      · exact keeps_mono (otherSlides_of_noSlide _) (noSlide_consoleWrite _ _)
      · exact keeps_bind (otherSlides_frame _)
          (keeps_mono (otherSlides_of_noSlide _) (noSlide_getShapes _))
          (fun _ => otherSlides_removeMessageShapes _ _ _)
  · intro e
    exact keeps_mono (otherSlides_of_noSlide _) (noSlide_consoleWrite _ _)

theorem otherSlides_exibirMensagemCarregamento :
    Keeps (OtherSlides LOADING_MESSAGE_SLIDE_ID) exibirMensagemCarregamento := by
  unfold exibirMensagemCarregamento
  apply keeps_bind (otherSlides_frame _)
    (keeps_mono (otherSlides_of_noSlide _) (noSlide_openById _))
  intro _
  apply keeps_bindOf (otherSlides_frame _)
    (fun a => a = none ∨ a = some LOADING_MESSAGE_SLIDE_ID)
    (keeps_mono (otherSlides_of_noSlide _) (noSlide_getSlideById _))
  · intro w a w1 h
    exact getSlideById_value h
  · intro slide hslide
    apply keeps_bindOf (otherSlides_frame _) (fun x => x = LOADING_MESSAGE_SLIDE_ID)
      (keeps_mono (otherSlides_of_noSlide _) (noSlide_slideOrRaise _ _))
    · intro w x w1 hx
      have h1 := slideOrRaise_value hx
      rcases hslide with h2 | h2
      · rw [h2] at h1; cases h1
      · rw [h2] at h1; cases h1; rfl
    · intro s hs
      subst hs
      apply keeps_bind (otherSlides_frame _)
        (keeps_mono (otherSlides_of_noSlide _) (noSlide_getShapes _))
      intro shapes
      apply keeps_bind (otherSlides_frame _) (otherSlides_removeMessageShapes _ _ _)
      intro _
      apply keeps_bind (otherSlides_frame _)
        (otherSlides_insertShapeWithText _ _ hslide _ _ _ _ _ _
          (keeps_pure (otherSlides_frame _) _))
      intro _
      exact keeps_mono (otherSlides_of_noSlide _) (noSlide_consoleWrite _ _)

theorem otherSlides_executarAnaliseCompletaInicio :
    Keeps (OtherSlides LOADING_MESSAGE_SLIDE_ID) executarAnaliseCompletaInicio := by
  unfold executarAnaliseCompletaInicio
  repeat (with_reducible first
    | exact keeps_mono (otherSlides_of_noSlide _) (noSlide_consoleWrite _ _)
    | exact keeps_mono (otherSlides_of_noSlide _) (noSlide_setProperty _ _)
    | exact otherSlides_removerMensagemCarregamento
    | exact otherSlides_exibirMensagemCarregamento
    | apply keeps_bind (otherSlides_frame _)
    | intro _)

/-! ## A failed call of the analytics service (C3) -/

theorem tryCatch_of_ok {α : Type} {m : Script α} {h : String → Script α} {w w1 : World} {a : α}
    (hm : m w = Res.ok a w1) : tryCatch m h w = Res.ok a w1 := by
  unfold DynamicPresentation.tryCatch
  rw [hm]

theorem tryCatch_of_raised {α : Type} {m : Script α} {h : String → Script α} {w w1 : World}
    {e : String} (hm : m w = Res.raised e w1) : tryCatch m h w = h e w1 := by
  unfold DynamicPresentation.tryCatch
  rw [hm]

theorem tryFinally_world {α : Type} {m : Script α} {fin : Script Unit} {w : World} :
    (tryFinally m fin w).world = (fin (m w).world).world := by
  unfold DynamicPresentation.tryFinally
  cases hm : m w with
  | ok a w1 => dsimp only [Res.world]; cases fin w1 <;> rfl
  | raised e w1 => dsimp only [Res.world]; cases fin w1 <;> rfl

theorem loading_not_result (slideId : String) (h : slideId ∈ SLIDES_TO_CLEAR_ON_OPEN) :
    slideId ≠ LOADING_MESSAGE_SLIDE_ID := by
  intro heq
  subst heq
  revert h
  decide

/-- C3: if `callCloudFunction`, called in a run of `executarAnaliseCompleta`,
yields `null`, the run sets the status flag to ERROR and leaves the page
elements of the seven result slides (slides 6 to 12) as they were. -/
theorem executarAnaliseCompleta_null_response (answer : FetchOutcome) (w w1 w2 : World)
    (hstart : executarAnaliseCompletaInicio w = Res.ok () w1)
    (hnull : callCloudFunction answer w1 = Res.ok none w2) :
    (executarAnaliseCompleta answer w).world.status = some STATUS_ERROR ∧
      ∀ slideId ∈ SLIDES_TO_CLEAR_ON_OPEN,
        (executarAnaliseCompleta answer w).world.elementsOf slideId = w.elementsOf slideId := by
  have hbody : executarAnaliseCompletaBody answer w = Res.ok ()
      (setProperty ANALYSIS_STATUS_KEY STATUS_ERROR (consoleWrite "error"
        "Falha ao obter resposta da Cloud Function. Abortando preenchimento." w2).world).world := by
    unfold executarAnaliseCompletaBody executarAnaliseCompletaResto
    rw [bind_of_ok hstart, bind_of_ok hnull]
    rfl
  have hworld : (executarAnaliseCompleta answer w).world = (deleteAnalysisTriggers
      (setProperty ANALYSIS_STATUS_KEY STATUS_ERROR (consoleWrite "error"
        "Falha ao obter resposta da Cloud Function. Abortando preenchimento." w2).world).world).world := by
    unfold executarAnaliseCompleta
    rw [tryFinally_world, tryCatch_of_ok hbody]
    rfl
  rw [hworld]
  constructor
  · rw [noWrite_status_eq (noWrite_deleteAnalysisTriggers.frame _)]
    exact status_setProperty _ _
  · intro slideId hmem
    have hne := loading_not_result slideId hmem
    have h1 := (otherSlides_executarAnaliseCompletaInicio.frame w).2.2 slideId hne
    rw [hstart] at h1
    have h2 := (noSlide_callCloudFunction answer).frame w1
    rw [hnull] at h2
    have h3 := noSlide_deleteAnalysisTriggers.frame
      (setProperty ANALYSIS_STATUS_KEY STATUS_ERROR (consoleWrite "error"
        "Falha ao obter resposta da Cloud Function. Abortando preenchimento." w2).world).world
    rw [elementsOf_congr h3]
    exact (elementsOf_congr h2 slideId).trans h1

theorem executarAnaliseCompleta_null_response_witness :
    (executarAnaliseCompleta (FetchOutcome.response 503 "unavailable") sampleWorld).world.status
        = some STATUS_ERROR ∧
      ∀ slideId ∈ SLIDES_TO_CLEAR_ON_OPEN,
        (executarAnaliseCompleta (FetchOutcome.response 503 "unavailable")
          sampleWorld).world.elementsOf slideId = sampleWorld.elementsOf slideId :=
  executarAnaliseCompleta_null_response (FetchOutcome.response 503 "unavailable") sampleWorld
    (executarAnaliseCompletaInicio sampleWorld).world
    (callCloudFunction (FetchOutcome.response 503 "unavailable")
      (executarAnaliseCompletaInicio sampleWorld).world).world
    (res_eq_ok_of_isOk (by decide!)) rfl

/-! ## The status flag is four-valued (C5) -/

theorem disciplined_frame : IsFrame Disciplined :=
  ⟨fun _ => ⟨⟨[], (List.append_nil _).symm⟩, id⟩,
   fun _ _ _ h1 h2 => by
    obtain ⟨⟨l1, e1⟩, p1⟩ := h1
    obtain ⟨⟨l2, e2⟩, p2⟩ := h2
    exact ⟨⟨l1 ++ l2, by rw [e2, e1, List.append_assoc]⟩, fun h => p2 (p1 h)⟩⟩

theorem disciplined_of_noWrite (w w1 : World) (h : NoWrite w w1) : Disciplined w w1 := by
  refine ⟨⟨[], by rw [h.2, List.append_nil]⟩, ?_⟩
  unfold World.statusValid
  rw [noWrite_status_eq h]
  exact id

theorem disciplined_setStatus (value : String)
    (hv : value = STATUS_NOT_STARTED ∨ value = STATUS_RUNNING ∨ value = STATUS_COMPLETED ∨
      value = STATUS_ERROR) :
    Keeps Disciplined (setProperty ANALYSIS_STATUS_KEY value) := by
  constructor
  intro w
  refine ⟨⟨[(ANALYSIS_STATUS_KEY, value)], rfl⟩, fun _ => ?_⟩
  unfold World.statusValid
  rw [status_setProperty]
  rcases hv with h | h | h | h <;> simp [h]

theorem disciplined_executarAnaliseCompletaInicio :
    Keeps Disciplined executarAnaliseCompletaInicio := by
  unfold executarAnaliseCompletaInicio
  repeat (first
    | exact disciplined_setStatus _ (by simp)
    | with_reducible exact keeps_mono disciplined_of_noWrite (noWrite_consoleWrite _ _)
    | with_reducible exact keeps_mono disciplined_of_noWrite noWrite_removerMensagemCarregamento
    | with_reducible exact keeps_mono disciplined_of_noWrite noWrite_exibirMensagemCarregamento
    | with_reducible apply keeps_bind disciplined_frame
    | intro _)

theorem disciplined_executarAnaliseMenuInicio :
    Keeps Disciplined executarAnaliseMenuInicio := by
  unfold executarAnaliseMenuInicio
  repeat (first
    | exact disciplined_setStatus _ (by simp)
    | with_reducible exact keeps_mono disciplined_of_noWrite (noWrite_consoleWrite _ _)
    | with_reducible exact keeps_mono disciplined_of_noWrite noWrite_removerMensagemCarregamento
    | with_reducible exact keeps_mono disciplined_of_noWrite noWrite_exibirMensagemCarregamento
    | with_reducible apply keeps_bind disciplined_frame
    | intro _)

theorem disciplined_executarAnaliseCompletaResto (answer : FetchOutcome) :
    Keeps Disciplined (executarAnaliseCompletaResto answer) := by
  unfold executarAnaliseCompletaResto
  repeat (first
    | exact disciplined_setStatus _ (by simp)
    | with_reducible exact keeps_mono disciplined_of_noWrite (noWrite_consoleWrite _ _)
    | with_reducible exact keeps_mono disciplined_of_noWrite (noWrite_callCloudFunction _)
    | with_reducible exact keeps_mono disciplined_of_noWrite (noWrite_parseData _)
    | with_reducible exact keeps_mono disciplined_of_noWrite (noWrite_getProp _ _)
    | with_reducible exact keeps_mono disciplined_of_noWrite (noWrite_preencherSlide6 _)
    | with_reducible exact keeps_mono disciplined_of_noWrite (noWrite_preencherSlide7 _)
    | with_reducible exact keeps_mono disciplined_of_noWrite (noWrite_preencherSlide8 _)
    | with_reducible exact keeps_mono disciplined_of_noWrite (noWrite_preencherSlide9 _)
    | with_reducible exact keeps_mono disciplined_of_noWrite (noWrite_preencherSlide10 _)
    | with_reducible exact keeps_mono disciplined_of_noWrite (noWrite_preencherSlide11 _)
    | with_reducible exact keeps_mono disciplined_of_noWrite (noWrite_preencherSlide12 _)
    | with_reducible exact keeps_mono disciplined_of_noWrite noWrite_removerMensagemCarregamento
    | with_reducible exact keeps_mono disciplined_of_noWrite noWrite_exibirModalConclusao
    | with_reducible apply keeps_bind disciplined_frame
    | intro _
    | split)

theorem disciplined_executarAnaliseCompletaCatch (message : String) :
    Keeps Disciplined (executarAnaliseCompletaCatch message) := by
  unfold executarAnaliseCompletaCatch
  repeat (first
    | exact disciplined_setStatus _ (by simp)
    | with_reducible exact keeps_mono disciplined_of_noWrite (noWrite_consoleWrite _ _)
    | with_reducible exact keeps_mono disciplined_of_noWrite (noWrite_openById _)
    | with_reducible exact keeps_mono disciplined_of_noWrite (noWrite_getSlideById _)
    | with_reducible exact keeps_mono disciplined_of_noWrite (noWrite_insertCatchErrorBox _ _ _)
    | with_reducible exact keeps_mono disciplined_of_noWrite noWrite_removerMensagemCarregamento
    | with_reducible apply keeps_bind disciplined_frame
    | intro _)

theorem disciplined_executarAnaliseCompleta (answer : FetchOutcome) :
    Keeps Disciplined (executarAnaliseCompleta answer) := by
  unfold executarAnaliseCompleta executarAnaliseCompletaBody
  exact keeps_tryFinally disciplined_frame
    (keeps_tryCatch disciplined_frame
      (keeps_bind disciplined_frame disciplined_executarAnaliseCompletaInicio
        (fun _ => disciplined_executarAnaliseCompletaResto answer))
      disciplined_executarAnaliseCompletaCatch)
    (keeps_mono disciplined_of_noWrite noWrite_deleteAnalysisTriggers)

theorem disciplined_executarAnaliseMenuCatch (message : String) :
    Keeps Disciplined (executarAnaliseMenuCatch message) := by
  unfold executarAnaliseMenuCatch
  repeat (first
    | exact disciplined_setStatus _ (by simp)
    | with_reducible exact keeps_mono disciplined_of_noWrite (noWrite_consoleWrite _ _)
    | with_reducible exact keeps_mono disciplined_of_noWrite (noWrite_openById _)
    | with_reducible exact keeps_mono disciplined_of_noWrite (noWrite_getSlideById _)
    | with_reducible exact keeps_mono disciplined_of_noWrite (noWrite_insertCatchErrorBox _ _ _)
    | with_reducible exact keeps_mono disciplined_of_noWrite noWrite_removerMensagemCarregamento
    | with_reducible exact keeps_pure disciplined_frame _
    | with_reducible apply keeps_bind disciplined_frame
    | intro _
    | split)

theorem disciplined_executarAnaliseMenu (answer : FetchOutcome) :
    Keeps Disciplined (executarAnaliseMenu answer) := by
  unfold executarAnaliseMenu
  exact keeps_tryCatch disciplined_frame
    (keeps_bind disciplined_frame disciplined_executarAnaliseMenuInicio
      (fun _ => disciplined_executarAnaliseCompleta answer))
    disciplined_executarAnaliseMenuCatch

theorem disciplined_onOpen : Keeps Disciplined onOpen := by
  unfold onOpen
  repeat (first
    | exact disciplined_setStatus _ (by simp)
    | with_reducible exact keeps_mono disciplined_of_noWrite (noWrite_consoleWrite _ _)
    | with_reducible exact keeps_mono disciplined_of_noWrite (noWrite_addMenu _ _)
    | with_reducible exact keeps_mono disciplined_of_noWrite (noWrite_newTimeTrigger _ _)
    | with_reducible exact keeps_mono disciplined_of_noWrite noWrite_clearTargetSlidesOnOpen
    | with_reducible exact keeps_mono disciplined_of_noWrite noWrite_exibirMensagemCarregamento
    | with_reducible apply keeps_bind disciplined_frame
    | intro _)

theorem disciplined_limparDadosMenu : Keeps Disciplined limparDadosMenu := by
  unfold limparDadosMenu
  repeat (first
    | exact disciplined_setStatus _ (by simp)
    | with_reducible exact keeps_mono disciplined_of_noWrite (noWrite_consoleWrite _ _)
    | with_reducible exact keeps_mono disciplined_of_noWrite (noWrite_openById _)
    | with_reducible exact keeps_mono disciplined_of_noWrite (noWrite_limparSlides _)
    | with_reducible exact keeps_mono disciplined_of_noWrite (noWrite_exibirModalCustomizado _ _ _)
    | with_reducible exact keeps_mono disciplined_of_noWrite noWrite_removerMensagemCarregamento
    | with_reducible apply keeps_bind disciplined_frame
    | with_reducible apply keeps_tryCatch disciplined_frame
    | intro _)

theorem noWrite_verificarStatusAnalise : Keeps NoWrite verificarStatusAnalise := by
  unfold verificarStatusAnalise
  repeat (with_reducible first
    | exact noWrite_consoleWrite _ _
    | exact noWrite_openById _
    | exact noWrite_getProperty _
    | exact noWrite_contarSlidesPreenchidos _
    | exact noWrite_exibirModalCustomizado _ _ _
    | exact noWrite_removerMensagemCarregamento
    | apply keeps_bind noWrite_frame
    | apply keeps_tryCatch noWrite_frame
    | intro _
    | split)

theorem disciplined_run (c : Command) : Keeps Disciplined c.run := by
  cases c with
  | onOpen => exact disciplined_onOpen
  | executarAnaliseMenu answer => exact disciplined_executarAnaliseMenu answer
  | limparDadosMenu => exact disciplined_limparDadosMenu
  | verificarStatusAnalise => exact keeps_mono disciplined_of_noWrite noWrite_verificarStatusAnalise
  | executarAnaliseCompleta answer => exact disciplined_executarAnaliseCompleta answer

/-- C5: the status flag is four-valued: from a property store where the flag
is unset or one of NOT_STARTED, RUNNING, COMPLETED, ERROR, after any sequence
of `onOpen`, `executarAnaliseMenu`, `limparDadosMenu`,
`verificarStatusAnalise` and `executarAnaliseCompleta`, whatever the service
answers and however each of them completes, the flag is still unset or one
of these four strings. -/
theorem status_four_valued (commands : List Command) (w : World) (h : w.statusValid) :
    (runAll commands w).statusValid := by
  induction commands generalizing w with
  | nil => exact h
  | cons c cs ih => exact ih _ (((disciplined_run c).frame w).2 h)

theorem status_four_valued_witness :
    (runAll [Command.onOpen, Command.executarAnaliseCompleta (FetchOutcome.response 200 "payload"),
      Command.verificarStatusAnalise, Command.limparDadosMenu,
      Command.executarAnaliseMenu (FetchOutcome.raises "timeout")] sampleWorld).statusValid :=
  status_four_valued _ sampleWorld (Or.inl rfl)

/-! ## The order of the status writes (C4) -/

theorem terminalAfterRunning_true (l : List (String × String)) :
    terminalAfterRunning true l = true := by
  induction l with
  | nil => rfl
  | cons kv rest ih =>
    obtain ⟨k, v⟩ := kv
    unfold terminalAfterRunning
    split
    · exact ih
    · split
      · simp [ih]
      · exact ih

theorem terminalAfterRunning_of_running (w w1 wf : World)
    (h1 : w1.propertyWrites = w.propertyWrites ++ [(ANALYSIS_STATUS_KEY, STATUS_RUNNING)])
    (hf : Disciplined w1 wf) :
    terminalAfterRunning false (writesSince w wf) = true := by
  obtain ⟨⟨l, hl⟩, _⟩ := hf
  unfold writesSince
  rw [hl, h1, List.append_assoc, List.drop_left]
  show terminalAfterRunning false ((ANALYSIS_STATUS_KEY, STATUS_RUNNING) :: l) = true
  unfold terminalAfterRunning
  simp [terminalAfterRunning_true]

theorem canShowLoading_congr {w w1 : World} (h : NoSlide w w1) :
    w1.canShowLoading = w.canShowLoading := by
  unfold NoSlide at h
  unfold World.canShowLoading World.hasSlide World.elementsOf
  rw [h]

theorem keepsLoading_frame : IsFrame KeepsLoading :=
  ⟨fun _ h => h, fun _ _ _ h1 h2 h => h2 (h1 h)⟩

theorem keepsLoading_of_noSlide (w w1 : World) (h : NoSlide w w1) : KeepsLoading w w1 := by
  intro hc
  rw [canShowLoading_congr h]
  exact hc

theorem keepsLoading_removeElement (s : String) (e : PageElement) :
    Keeps KeepsLoading (removeElement s e) := by
  constructor
  intro w hc
  unfold removeElement
  split
  · exact hc
  · show (w.updateSlide s _).canShowLoading = true
    unfold World.canShowLoading at hc ⊢
    rw [Bool.and_eq_true] at hc ⊢
    rw [hasSlide_updateSlide]
    refine ⟨hc.1, ?_⟩
    by_cases hs : LOADING_MESSAGE_SLIDE_ID = s
    · subst hs
      rw [elementsOf_updateSlide_self _ _ _ hc.1]
      rw [List.all_eq_true] at *
      intro x hx
      exact hc.2 x (List.mem_of_mem_filter hx)
    · rw [elementsOf_updateSlide_ne _ _ _ _ hs]
      exact hc.2

theorem keepsLoading_removeMessageShapes (s : String) (l : List PageElement) (m : String) :
    Keeps KeepsLoading (removeMessageShapes s l m) := by
  unfold removeMessageShapes
  repeat (with_reducible first
    | exact keeps_mono keepsLoading_of_noSlide (noSlide_consoleWrite _ _)
    | exact keepsLoading_removeElement _ _
    | exact keeps_pure keepsLoading_frame _
    | apply keeps_bind keepsLoading_frame
    | apply keeps_forEach keepsLoading_frame
    | intro _
    | split)

theorem keepsLoading_removerMensagemCarregamento :
    Keeps KeepsLoading removerMensagemCarregamento := by
  unfold removerMensagemCarregamento
  repeat (with_reducible first
    | exact keeps_mono keepsLoading_of_noSlide (noSlide_consoleWrite _ _)
    | exact keeps_mono keepsLoading_of_noSlide (noSlide_openById _)
    | exact keeps_mono keepsLoading_of_noSlide (noSlide_getSlideById _)
    | exact keeps_mono keepsLoading_of_noSlide (noSlide_getShapes _)
    | exact keepsLoading_removeMessageShapes _ _ _
    | apply keeps_bind keepsLoading_frame
    | apply keeps_tryCatch keepsLoading_frame
    | intro _
    | split)

theorem isOk_bind {α β : Type} {m : Script α} {f : α → Script β} {w : World}
    (hm : (m w).isOk = true) (hf : ∀ a w1, m w = Res.ok a w1 → (f a w1).isOk = true) :
    ((m >>= f) w).isOk = true := by
  cases h : m w with
  | ok a w1 => rw [bind_of_ok h]; exact hf a w1 h
  | raised e w1 => rw [h] at hm; cases hm

theorem isOk_tryCatch {α : Type} {m : Script α} {h : String → Script α} {w : World}
    (hh : ∀ e w1, (h e w1).isOk = true) : (tryCatch m h w).isOk = true := by
  unfold DynamicPresentation.tryCatch
  cases hm : m w with
  | ok a w1 => rfl
  | raised e w1 => exact hh e w1

theorem isOk_removerMensagemCarregamento (w : World) :
    (removerMensagemCarregamento w).isOk = true := by
  unfold removerMensagemCarregamento
  exact isOk_tryCatch (fun _ _ => rfl)

theorem isOk_removeMessageShapes (s : String) (shapes : List PageElement) (m : String)
    (h : ∀ e ∈ shapes, isLoadingOrErrorText e.text = true → e.removeFails = false) (w : World) :
    (removeMessageShapes s shapes m w).isOk = true := by
  unfold removeMessageShapes
  induction shapes generalizing w with
  | nil => rfl
  | cons x rest ih =>
    show ((_ >>= fun _ => forEach rest _) w).isOk = true
    apply isOk_bind
    · dsimp only
      by_cases hx : isLoadingOrErrorText x.text = true
      · have hr := h x (List.mem_cons_self _ _) hx
        rw [if_pos hx]
        apply isOk_bind
        · unfold removeElement
          rw [hr]
          rfl
        · intro _ _ _
          rfl
      · rw [if_neg hx]
        rfl
    · intro _ w1 _
      exact ih (fun e he => h e (List.mem_cons_of_mem _ he)) w1

theorem openById_of_hasSlide {w : World} {s : String} (h : w.hasSlide s = true) (i : String) :
    openById i w = Res.ok () w := by
  unfold World.hasSlide at h
  unfold openById
  cases hp : w.presentation with
  | none => rw [hp] at h; cases h
  | some slides => rfl

theorem getSlideById_of_hasSlide {w : World} {s : String} (h : w.hasSlide s = true) :
    getSlideById s w = Res.ok (some s) w := by
  unfold World.hasSlide at h
  unfold getSlideById
  cases hp : w.presentation with
  | none => rw [hp] at h; cases h
  | some slides =>
    rw [hp] at h
    dsimp only at h ⊢
    cases hf : findSlide s slides with
    | none => rw [hf] at h; cases h
    | some x => rfl

theorem isOk_insertShapeWithText_pure (s : String) (a b c d : ℚ) (t : String) (st : TextStyle)
    (w : World) : (insertShapeWithText (some s) a b c d (pure t) st w).isOk = true := rfl

theorem isOk_exibirMensagemCarregamento (w : World) (h : w.canShowLoading = true) :
    (exibirMensagemCarregamento w).isOk = true := by
  unfold World.canShowLoading at h
  rw [Bool.and_eq_true] at h
  unfold exibirMensagemCarregamento
  rw [bind_of_ok (openById_of_hasSlide h.1 _), bind_of_ok (getSlideById_of_hasSlide h.1),
    bind_of_ok (rfl : slideOrRaise (some LOADING_MESSAGE_SLIDE_ID) "getShapes" w =
      Res.ok LOADING_MESSAGE_SLIDE_ID w)]
  show ((getShapes LOADING_MESSAGE_SLIDE_ID >>= _) w).isOk = true
  apply isOk_bind
  · rfl
  intro shapes w1 hshapes
  cases hshapes
  apply isOk_bind
  · apply isOk_removeMessageShapes
    intro e he htext
    rw [List.mem_filter] at he
    have hp := (List.all_eq_true.mp h.2) e he.1
    unfold passesMessageLoop at hp
    rw [he.2, htext] at hp
    simpa using hp
  · intro _ w2 _
    apply isOk_bind (isOk_insertShapeWithText_pure _ _ _ _ _ _ _ _)
    intro _ _ _
    rfl

/-- The four statements both `try` blocks start with complete normally
where the loading message can be shown, and write RUNNING and nothing else. -/
theorem inicio_spec (line : String) (w : World) (h : w.canShowLoading = true) :
    ∃ w1, (do
        consoleWrite "log" line
        removerMensagemCarregamento
        exibirMensagemCarregamento
        setProperty ANALYSIS_STATUS_KEY STATUS_RUNNING : Script Unit) w = Res.ok () w1 ∧
      w1.propertyWrites = w.propertyWrites ++ [(ANALYSIS_STATUS_KEY, STATUS_RUNNING)] := by
  have hc : consoleWrite "log" line w = Res.ok () (consoleWrite "log" line w).world := rfl
  have hcw : (consoleWrite "log" line w).world.propertyWrites = w.propertyWrites := rfl
  have h0 : (consoleWrite "log" line w).world.canShowLoading = true := h
  generalize (consoleWrite "log" line w).world = wa at hc hcw h0
  have ha := res_eq_ok_of_isOk (isOk_removerMensagemCarregamento wa)
  have hka := keepsLoading_removerMensagemCarregamento.frame wa h0
  have hna := noWrite_removerMensagemCarregamento.frame wa
  generalize (removerMensagemCarregamento wa).world = wb at ha hka hna
  have hb := res_eq_ok_of_isOk (isOk_exibirMensagemCarregamento wb hka)
  have hnb := noWrite_exibirMensagemCarregamento.frame wb
  generalize (exibirMensagemCarregamento wb).world = wc at hb hnb
  refine ⟨(setProperty ANALYSIS_STATUS_KEY STATUS_RUNNING wc).world, ?_, ?_⟩
  · rw [bind_of_ok hc, bind_of_ok ha, bind_of_ok hb]
    rfl
  · show wc.propertyWrites ++ _ = _
    rw [hnb.2, hna.2, hcw]

/-- C4 as stated fails: without the loading slide a run of
`executarAnaliseCompleta` writes ERROR and never RUNNING. -/
theorem status_order_counterexample :
    terminalAfterRunning false (writesSince worldWithoutLoadingSlide
      (executarAnaliseCompleta (FetchOutcome.response 200 "payload")
        worldWithoutLoadingSlide).world) = false := by
  decide!

/-- C4, amended: in every run of `executarAnaliseCompleta` and of
`executarAnaliseMenu` that starts where the loading message can be shown
(the presentation opens, it has the loading slide, no old message box
refuses removal), the flag is written COMPLETED or ERROR only after it has
been written RUNNING earlier in that same run. -/
theorem status_order (answer : FetchOutcome) (w : World) (h : w.canShowLoading = true) :
    terminalAfterRunning false (writesSince w (executarAnaliseCompleta answer w).world) = true ∧
      terminalAfterRunning false (writesSince w (executarAnaliseMenu answer w).world) = true := by
  constructor
  · obtain ⟨w1, hstart, hw⟩ := inicio_spec "Iniciando execução da análise completa..." w h
    have hstart2 : executarAnaliseCompletaInicio w = Res.ok () w1 := hstart
    refine terminalAfterRunning_of_running w w1 _ hw ?_
    have hrun : executarAnaliseCompleta answer w =
        tryFinally (tryCatch (executarAnaliseCompletaResto answer) executarAnaliseCompletaCatch)
          deleteAnalysisTriggers w1 := by
      unfold executarAnaliseCompleta executarAnaliseCompletaBody tryFinally
        DynamicPresentation.tryCatch
      rw [bind_of_ok hstart2]
    rw [hrun]
    exact (keeps_tryFinally disciplined_frame
      (keeps_tryCatch disciplined_frame (disciplined_executarAnaliseCompletaResto answer)
        disciplined_executarAnaliseCompletaCatch)
      (keeps_mono disciplined_of_noWrite noWrite_deleteAnalysisTriggers)).frame w1
  · obtain ⟨w1, hstart, hw⟩ := inicio_spec "Análise iniciada pelo menu..." w h
    have hstart2 : executarAnaliseMenuInicio w = Res.ok () w1 := hstart
    refine terminalAfterRunning_of_running w w1 _ hw ?_
    have hrun : executarAnaliseMenu answer w =
        tryCatch (executarAnaliseCompleta answer) executarAnaliseMenuCatch w1 := by
      unfold executarAnaliseMenu DynamicPresentation.tryCatch
      rw [bind_of_ok hstart2]
    rw [hrun]
    exact (keeps_tryCatch disciplined_frame (disciplined_executarAnaliseCompleta answer)
      disciplined_executarAnaliseMenuCatch).frame w1

theorem status_order_witness :
    terminalAfterRunning false (writesSince sampleWorld
        (executarAnaliseCompleta (FetchOutcome.raises "timeout") sampleWorld).world) = true ∧
      terminalAfterRunning false (writesSince sampleWorld
        (executarAnaliseMenu (FetchOutcome.raises "timeout") sampleWorld).world) = true :=
  status_order (FetchOutcome.raises "timeout") sampleWorld (by decide)

/-! ## The status report (C8) -/

theorem uiKept_frame : IsFrame UiKept :=
  ⟨fun _ => ⟨rfl, rfl⟩, fun _ _ _ h1 h2 => ⟨h2.1.trans h1.1, h2.2.trans h1.2⟩⟩

theorem uiKept_consoleWrite (l m : String) : Keeps UiKept (consoleWrite l m) :=
  ⟨fun _ => ⟨rfl, rfl⟩⟩

theorem uiKept_openById (i : String) : Keeps UiKept (openById i) := by
  constructor; intro w; unfold openById; cases w.presentation <;> exact ⟨rfl, rfl⟩

theorem uiKept_getSlideById (i : String) : Keeps UiKept (getSlideById i) := by
  constructor; intro w; unfold getSlideById
  cases w.presentation with
  | none => exact ⟨rfl, rfl⟩
  | some sl => dsimp only; cases findSlide i sl <;> exact ⟨rfl, rfl⟩

theorem uiKept_getShapes (i : String) : Keeps UiKept (getShapes i) := ⟨fun _ => ⟨rfl, rfl⟩⟩

theorem uiKept_removeElement (i : String) (e : PageElement) :
    Keeps UiKept (removeElement i e) := by
  constructor; intro w; unfold removeElement; split <;> exact ⟨rfl, rfl⟩

theorem uiKept_removerMensagemCarregamento : Keeps UiKept removerMensagemCarregamento := by
  unfold removerMensagemCarregamento removeMessageShapes
  repeat (with_reducible first
    | exact uiKept_consoleWrite _ _
    | exact uiKept_openById _
    | exact uiKept_getSlideById _
    | exact uiKept_getShapes _
    | exact uiKept_removeElement _ _
    | exact keeps_pure uiKept_frame _
    | apply keeps_bind uiKept_frame
    | apply keeps_tryCatch uiKept_frame
    | apply keeps_forEach uiKept_frame
    | intro _
    | split)

theorem openById_of_isSome {w : World} (h : w.presentation.isSome = true) (i : String) :
    openById i w = Res.ok () w := by
  unfold openById
  cases hp : w.presentation with
  | none => rw [hp] at h; cases h
  | some slides => rfl

/-- On result slides without page elements the counting loop of
`verificarStatusAnalise` leaves the counter as it is and shows nothing. -/
theorem contarSlidesPreenchidos_empty (ids : List String) (i acc : Nat) (w : World)
    (h : ∀ slideId ∈ ids, w.elementsOf slideId = []) :
    ∃ w1, forEachAcc ids i acc (fun slideId _ slidesPreenchidos =>
        tryCatch (do
            let slide ← getSlideById slideId
            let s ← slideOrRaise slide "getPageElements"
            let elements ← getPageElements s
            if elements.length > 0 then pure (slidesPreenchidos + 1) else pure slidesPreenchidos)
          (fun _ => do
            consoleWrite "warn" ("Não foi possível verificar o slide " ++ slideId)
            pure slidesPreenchidos)) w = Res.ok acc w1 ∧
      NoSlide w w1 ∧ UiKept w w1 := by
  induction ids generalizing i w with
  | nil => exact ⟨w, rfl, rfl, rfl, rfl⟩
  | cons x rest ih =>
    have hx := h x (List.mem_cons_self _ _)
    have hstep : ∃ w0, tryCatch (do
            let slide ← getSlideById x
            let s ← slideOrRaise slide "getPageElements"
            let elements ← getPageElements s
            if elements.length > 0 then pure (acc + 1) else pure acc)
          (fun _ => do
            consoleWrite "warn" ("Não foi possível verificar o slide " ++ x)
            pure acc) w = Res.ok acc w0 ∧ NoSlide w w0 ∧ UiKept w w0 := by
      by_cases hs : w.hasSlide x = true
      · refine ⟨w, ?_, rfl, rfl, rfl⟩
        apply tryCatch_of_ok
        rw [bind_of_ok (getSlideById_of_hasSlide hs),
          bind_of_ok (rfl : slideOrRaise (some x) "getPageElements" w = Res.ok x w),
          bind_of_ok (rfl : getPageElements x w = Res.ok (w.elementsOf x) w), hx]
        rfl
      · refine ⟨(consoleWrite "warn" ("Não foi possível verificar o slide " ++ x) w).world,
          ?_, rfl, rfl, rfl⟩
        have hnone : getSlideById x w = Res.ok none w := by
          unfold World.hasSlide at hs
          unfold getSlideById
          cases hp : w.presentation with
          | none => rfl
          | some slides =>
            rw [hp] at hs
            dsimp only at hs ⊢
            cases hf : findSlide x slides with
            | none => rfl
            | some y => rw [hf] at hs; exact absurd rfl hs
        have hraised : (do
            let slide ← getSlideById x
            let s ← slideOrRaise slide "getPageElements"
            let elements ← getPageElements s
            if elements.length > 0 then pure (acc + 1) else pure acc : Script Nat) w =
            Res.raised "Cannot read properties of null (reading 'getPageElements')" w := by
          rw [bind_of_ok hnone]
          rfl
        rw [tryCatch_of_raised hraised]
        rfl
    obtain ⟨w0, h0, hn0, hu0⟩ := hstep
    have hrest : ∀ slideId ∈ rest, w0.elementsOf slideId = [] := by
      intro slideId hmem
      rw [elementsOf_congr hn0]
      exact h slideId (List.mem_cons_of_mem _ hmem)
    obtain ⟨w1, h1, hn1, hu1⟩ := ih (i + 1) w0 hrest
    refine ⟨w1, ?_, noSlide_frame.trans _ _ _ hn0 hn1, uiKept_frame.trans _ _ _ hu0 hu1⟩
    show (_ >>= fun acc2 => forEachAcc rest (i + 1) acc2 _) w = _
    rw [bind_of_ok h0]
    exact h1

theorem exibirModalCustomizado_of_ui (title message textColor : String) (w : World)
    (h : w.uiAvailable = true) :
    exibirModalCustomizado title message textColor w = Res.ok ()
      { w with dialogs := w.dialogs ++
        [Dialog.modal (customModalHtml title message textColor) 400 250 "Informação da Análise"] } := by
  unfold exibirModalCustomizado
  apply tryCatch_of_ok
  unfold showModalDialog
  have hui : getUi w = Res.ok () w := by
    unfold getUi
    rw [if_pos h]
  rw [bind_of_ok hui]
  rfl

/-- C8 as stated fails: with the flag at ERROR and a box left on slide 6,
`verificarStatusAnalise` reports the analysis as concluded. -/
theorem verificarStatusAnalise_error_counterexample :
    worldAfterFailedRun.status = some STATUS_ERROR ∧
      (verificarStatusAnalise worldAfterFailedRun).world.dialogs =
        [Dialog.modal (customModalHtml "Status da Análise: CONCLUÍDA"
          "✅ Análise concluída com sucesso!\n1 de 7 slides preenchidos." "#008000")
          400 250 "Informação da Análise"] := by
  decide!

/-- C8, amended: whenever the status flag is ERROR, the presentation opens,
a dialog can be shown and no result slide holds a page element,
`verificarStatusAnalise` reports the error status (title 'Status da Análise:
ERRO', text '❌ Houve um erro na última execução da análise.'). -/
theorem verificarStatusAnalise_error (w : World) (hp : w.presentation.isSome = true)
    (hui : w.uiAvailable = true) (hs : w.status = some STATUS_ERROR)
    (hempty : ∀ slideId ∈ SLIDES_TO_CLEAR_ON_OPEN, w.elementsOf slideId = []) :
    ∃ w1, verificarStatusAnalise w = Res.ok () w1 ∧
      w1.dialogs = w.dialogs ++ [errorStatusDialog] := by
  have hc : consoleWrite "log" "Verificando status da análise..." w =
    Res.ok () (consoleWrite "log" "Verificando status da análise..." w).world := rfl
  have hp0 : (consoleWrite "log" "Verificando status da análise..." w).world.presentation.isSome
    = true := hp
  have hui0 : (consoleWrite "log" "Verificando status da análise..." w).world.uiAvailable
    = true := hui
  have hd0 : (consoleWrite "log" "Verificando status da análise..." w).world.dialogs
    = w.dialogs := rfl
  have hs0 : (consoleWrite "log" "Verificando status da análise..." w).world.status
    = some STATUS_ERROR := hs
  have he0 : ∀ slideId ∈ SLIDES_TO_CLEAR_ON_OPEN,
    (consoleWrite "log" "Verificando status da análise..." w).world.elementsOf slideId = [] :=
    hempty
  generalize (consoleWrite "log" "Verificando status da análise..." w).world = wa
    at hc hp0 hui0 hd0 hs0 he0
  have ho := openById_of_isSome hp0 PRESENTATION_ID
  have hr := res_eq_ok_of_isOk (isOk_removerMensagemCarregamento wa)
  have hrn := noWrite_removerMensagemCarregamento.frame wa
  have hro := otherSlides_removerMensagemCarregamento.frame wa
  have hru := uiKept_removerMensagemCarregamento.frame wa
  generalize (removerMensagemCarregamento wa).world = wb at hr hrn hro hru
  have hsb : wb.status = some STATUS_ERROR := by rw [noWrite_status_eq hrn]; exact hs0
  have hg : getProperty ANALYSIS_STATUS_KEY wb = Res.ok (some STATUS_ERROR) wb := by
    unfold getProperty
    rw [← hsb]
    rfl
  have heb : ∀ slideId ∈ SLIDES_TO_CLEAR_ON_OPEN, wb.elementsOf slideId = [] := by
    intro slideId hmem
    rw [hro.2.2 slideId (loading_not_result slideId hmem)]
    exact he0 slideId hmem
  obtain ⟨wc, hcount, _, huc⟩ := contarSlidesPreenchidos_empty SLIDES_TO_CLEAR_ON_OPEN 0 0 wb heb
  have hcount2 : contarSlidesPreenchidos SLIDES_TO_CLEAR_ON_OPEN wb = Res.ok 0 wc := hcount
  have huic : wc.uiAvailable = true := by rw [huc.2, hru.2]; exact hui0
  have hm := exibirModalCustomizado_of_ui "Status da Análise: ERRO"
    "❌ Houve um erro na última execução da análise." "#FF0000" wc huic
  refine ⟨(consoleWrite "log" ("Status verificado: " ++ String.mk (replaceFirstNewline
      "❌ Houve um erro na última execução da análise.".toList))
    { wc with dialogs := wc.dialogs ++ [errorStatusDialog] }).world, ?_, ?_⟩
  · unfold verificarStatusAnalise
    apply tryCatch_of_ok
    rw [bind_of_ok hc, bind_of_ok ho, bind_of_ok hr, bind_of_ok hg, bind_of_ok hcount2]
    show (exibirModalCustomizado "Status da Análise: ERRO"
      "❌ Houve um erro na última execução da análise." "#FF0000" >>= _) wc = _
    rw [bind_of_ok hm]
    rfl
  · show wc.dialogs ++ _ = _
    rw [huc.1, hru.1, hd0]

theorem verificarStatusAnalise_error_witness :
    ∃ w1, verificarStatusAnalise worldWithError = Res.ok () w1 ∧
      w1.dialogs = worldWithError.dialogs ++ [errorStatusDialog] :=
  verificarStatusAnalise_error worldWithError (by decide) (by decide) (by decide) (by decide)

/-! ## Clearing the result slides (C9, C10) -/

theorem emptyStays_frame (slideId : String) : IsFrame (EmptyStays slideId) :=
  ⟨fun _ h => h, fun _ _ _ h1 h2 h => h2 (h1 h)⟩

theorem emptyStays_of_noSlide (slideId : String) (w w1 : World) (h : NoSlide w w1) :
    EmptyStays slideId w w1 := by
  intro he
  rw [elementsOf_congr h]
  exact he

theorem emptyStays_removeElement (slideId s : String) (e : PageElement) :
    Keeps (EmptyStays slideId) (removeElement s e) := by
  constructor
  intro w he
  unfold removeElement
  split
  · exact he
  · show (w.updateSlide s _).elementsOf slideId = []
    by_cases hs : slideId = s
    · subst hs
      by_cases hh : w.hasSlide slideId = true
      · rw [elementsOf_updateSlide_self _ _ _ hh, he]
        rfl
      · apply elementsOf_of_not_hasSlide
        rw [hasSlide_updateSlide]
        exact Bool.eq_false_iff.mpr hh
    · rw [elementsOf_updateSlide_ne _ _ _ _ hs]
      exact he

theorem emptyStays_clearSlideContent (slideId : String) (slide : Option String) :
    Keeps (EmptyStays slideId) (clearSlideContent slide) := by
  unfold clearSlideContent
  repeat (with_reducible first
    | exact keeps_mono (emptyStays_of_noSlide _) (noSlide_consoleWrite _ _)
    | exact keeps_mono (emptyStays_of_noSlide _) (noSlide_getPageElements _)
    | exact emptyStays_removeElement _ _ _
    | apply keeps_bind (emptyStays_frame _)
    | apply keeps_forEach (emptyStays_frame _)
    | intro _
    | split)

theorem emptyStays_limparSlide (slideId x : String) (n : Nat) :
    Keeps (EmptyStays slideId) (limparSlide x n) := by
  unfold limparSlide
  repeat (with_reducible first
    | exact keeps_mono (emptyStays_of_noSlide _) (noSlide_consoleWrite _ _)
    | exact keeps_mono (emptyStays_of_noSlide _) (noSlide_getSlideById _)
    | exact emptyStays_clearSlideContent _ _
    | exact keeps_pure (emptyStays_frame _) _
    | apply keeps_bind (emptyStays_frame _)
    | apply keeps_tryCatch (emptyStays_frame _)
    | intro _
    | split)

theorem emptyStays_removerMensagemCarregamento (slideId : String) :
    Keeps (EmptyStays slideId) removerMensagemCarregamento := by
  unfold removerMensagemCarregamento removeMessageShapes
  repeat (with_reducible first
    | exact keeps_mono (emptyStays_of_noSlide _) (noSlide_consoleWrite _ _)
    | exact keeps_mono (emptyStays_of_noSlide _) (noSlide_openById _)
    | exact keeps_mono (emptyStays_of_noSlide _) (noSlide_getSlideById _)
    | exact keeps_mono (emptyStays_of_noSlide _) (noSlide_getShapes _)
    | exact emptyStays_removeElement _ _ _
    | exact keeps_pure (emptyStays_frame _) _
    | apply keeps_bind (emptyStays_frame _)
    | apply keeps_tryCatch (emptyStays_frame _)
    | apply keeps_forEach (emptyStays_frame _)
    | intro _
    | split)

theorem otherSlides_clearSlideContent (s : String) (slide : Option String)
    (hs : slide = none ∨ slide = some s) : Keeps (OtherSlides s) (clearSlideContent slide) := by
  unfold clearSlideContent
  rcases hs with rfl | rfl
  · exact keeps_mono (otherSlides_of_noSlide _) (noSlide_consoleWrite _ _)
  · exact keeps_bind (otherSlides_frame _)
      (keeps_mono (otherSlides_of_noSlide _) (noSlide_getPageElements _))
      (fun _ => keeps_forEach (otherSlides_frame _) _ (fun _ => otherSlides_removeElement _ _))

theorem otherSlides_limparSlide (x : String) (n : Nat) :
    Keeps (OtherSlides x) (limparSlide x n) := by
  unfold limparSlide
  apply keeps_tryCatch (otherSlides_frame _)
  · apply keeps_bindOf (otherSlides_frame _) (fun a => a = none ∨ a = some x)
      (keeps_mono (otherSlides_of_noSlide _) (noSlide_getSlideById _))
    · intro w a w1 h
      exact getSlideById_value h
    · intro a ha
      apply keeps_bind (otherSlides_frame _) (otherSlides_clearSlideContent _ _ ha)
      intro _
      apply keeps_bind (otherSlides_frame _)
        (keeps_mono (otherSlides_of_noSlide _) (noSlide_consoleWrite _ _))
      intro _
      exact keeps_pure (otherSlides_frame _) _
  · intro e
    apply keeps_bind (otherSlides_frame _)
      (keeps_mono (otherSlides_of_noSlide _) (noSlide_consoleWrite _ _))
    intro _
    exact keeps_pure (otherSlides_frame _) _

theorem isOk_limparSlide (x : String) (n : Nat) (w : World) :
    (limparSlide x n w).isOk = true := by
  unfold limparSlide
  exact isOk_tryCatch (fun _ _ => rfl)

/-- Removing, one after the other, the elements of a list none of which
refuses removal leaves on the slide the elements that are not in the list. -/
theorem forEach_removeElement (s : String) (es : List PageElement)
    (hes : ∀ e ∈ es, e.removeFails = false) (w : World) (hs : w.hasSlide s = true) :
    ∃ w1, forEach es (fun e => removeElement s e) w = Res.ok () w1 ∧
      NoWrite w w1 ∧ w1.hasSlide s = true ∧
      w1.elementsOf s =
        (w.elementsOf s).filter (fun x => es.all (fun e => x.objectId != e.objectId)) := by
  induction es generalizing w with
  | nil => exact ⟨w, rfl, ⟨rfl, rfl⟩, hs, by simp⟩
  | cons e rest ih =>
    have hstep : removeElement s e w = Res.ok ()
        (w.updateSlide s (fun es => es.filter (fun x => x.objectId != e.objectId))) := by
      unfold removeElement
      rw [hes e (List.mem_cons_self _ _)]
      rfl
    have hs1 : (w.updateSlide s (fun es => es.filter (fun x => x.objectId != e.objectId))).hasSlide s
        = true := by
      rw [hasSlide_updateSlide]
      exact hs
    obtain ⟨w1, h1, hn1, hh1, he1⟩ := ih (fun x hx => hes x (List.mem_cons_of_mem _ hx)) _ hs1
    refine ⟨w1, ?_, ⟨hn1.1, hn1.2⟩, hh1, ?_⟩
    · show (removeElement s e >>= fun _ => forEach rest _) w = _
      rw [bind_of_ok hstep]
      exact h1
    · rw [he1, elementsOf_updateSlide_self _ _ _ hs, List.filter_filter]
      congr 1
      funext x
      simp [Bool.and_comm]

theorem clearSlideContent_clears (s : String) (w : World) (hs : w.hasSlide s = true)
    (hall : ∀ e ∈ w.elementsOf s, e.removeFails = false) :
    ∃ w1, clearSlideContent (some s) w = Res.ok () w1 ∧ NoWrite w w1 ∧
      w1.elementsOf s = [] := by
  obtain ⟨w1, h1, hn, _, he⟩ := forEach_removeElement s (w.elementsOf s) hall w hs
  refine ⟨w1, ?_, hn, ?_⟩
  · unfold clearSlideContent
    dsimp only
    rw [bind_of_ok (rfl : getPageElements s w = Res.ok (w.elementsOf s) w)]
    exact h1
  · rw [he, List.filter_eq_nil_iff]
    intro x hx
    simp only [List.all_eq_true, bne_iff_ne, ne_eq, not_forall, Classical.not_imp, not_not]
    exact ⟨x, hx, rfl⟩

theorem limparSlide_clears (s : String) (n : Nat) (w : World)
    (hall : ∀ e ∈ w.elementsOf s, e.removeFails = false) :
    (limparSlide s n w).world.elementsOf s = [] := by
  by_cases hs : w.hasSlide s = true
  · obtain ⟨w1, h1, _, he⟩ := clearSlideContent_clears s w hs hall
    have hrun : limparSlide s n w = Res.ok (n + 1)
        (consoleWrite "log" ("Slide " ++ s ++ " limpo com sucesso.") w1).world := by
      unfold limparSlide
      apply tryCatch_of_ok
      rw [bind_of_ok (getSlideById_of_hasSlide hs), bind_of_ok h1]
      rfl
    rw [hrun]
    exact he
  · exact (emptyStays_limparSlide s s n).frame w
      (elementsOf_of_not_hasSlide w s (Bool.eq_false_iff.mpr hs))

theorem limparSlides_clears (ids : List String) (i acc : Nat) (w : World) (slideId : String)
    (hmem : slideId ∈ ids) (hall : ∀ e ∈ w.elementsOf slideId, e.removeFails = false) :
    (forEachAcc ids i acc (fun x _ n => limparSlide x n) w).world.elementsOf slideId = [] := by
  induction ids generalizing i acc w with
  | nil => cases hmem
  | cons x rest ih =>
    obtain ⟨acc2, w1, hstep⟩ : ∃ acc2 w1, limparSlide x acc w = Res.ok acc2 w1 := by
      have hok := isOk_limparSlide x acc w
      cases h : limparSlide x acc w with
      | ok a w1 => exact ⟨a, w1, rfl⟩
      | raised e w1 => rw [h] at hok; cases hok
    have hrun : forEachAcc (x :: rest) i acc (fun x _ n => limparSlide x n) w =
        forEachAcc rest (i + 1) acc2 (fun x _ n => limparSlide x n) w1 := by
      show (limparSlide x acc >>= fun a => forEachAcc rest (i + 1) a _) w = _
      rw [bind_of_ok hstep]
    rw [hrun]
    by_cases hx : slideId = x
    · subst hx
      have h1 := limparSlide_clears slideId acc w hall
      rw [hstep] at h1
      exact (keeps_forEachAcc (emptyStays_frame slideId) rest (i + 1) acc2
        (fun a _ n => emptyStays_limparSlide slideId a n)).frame w1 h1
    · have hkeep := ((otherSlides_limparSlide x acc).frame w).2.2 slideId hx
      rw [hstep] at hkeep
      apply ih
      · cases hmem with
        | head => exact absurd rfl hx
        | tail _ h => exact h
      · intro e he
        apply hall
        rw [← hkeep]
        exact he

theorem isOk_limparSlides (ids : List String) (i acc : Nat) (w : World) :
    (forEachAcc ids i acc (fun x _ n => limparSlide x n) w).isOk = true := by
  induction ids generalizing i acc w with
  | nil => rfl
  | cons x rest ih =>
    show ((limparSlide x acc >>= fun a => forEachAcc rest (i + 1) a _) w).isOk = true
    exact isOk_bind (isOk_limparSlide x acc w) (fun _ _ _ => ih _ _ _)

/-- C9 as stated fails: where the host refuses to remove a box of slide 6,
`limparDadosMenu` leaves that slide with the box on it. -/
theorem limparDadosMenu_counterexample :
    worldWithStuckElement.presentation.isSome = true ∧
      worldWithStuckElement.hasSlide SLIDE_6_ID = true ∧
      ((limparDadosMenu worldWithStuckElement).world.elementsOf SLIDE_6_ID).length = 1 := by
  decide!

/-- C9, amended: when the presentation can be opened, `limparDadosMenu`
leaves the status flag at NOT_STARTED, for every prior status and slide
content and also when clearing one of the slides fails, and it leaves with
no page elements every result slide of `SLIDES_TO_CLEAR_ON_OPEN` none of
whose elements refuses removal. -/
theorem limparDadosMenu_clears (w : World) (hp : w.presentation.isSome = true) :
    (limparDadosMenu w).world.status = some STATUS_NOT_STARTED ∧
      ∀ slideId ∈ SLIDES_TO_CLEAR_ON_OPEN,
        (∀ e ∈ w.elementsOf slideId, e.removeFails = false) →
          (limparDadosMenu w).world.elementsOf slideId = [] := by
  have hc : consoleWrite "log" "Limpando dados dos slides 6-12..." w =
    Res.ok () (consoleWrite "log" "Limpando dados dos slides 6-12..." w).world := rfl
  have hp0 : (consoleWrite "log" "Limpando dados dos slides 6-12..." w).world.presentation.isSome
    = true := hp
  have he0 : ∀ slideId, (consoleWrite "log" "Limpando dados dos slides 6-12..."
    w).world.elementsOf slideId = w.elementsOf slideId := fun _ => rfl
  generalize (consoleWrite "log" "Limpando dados dos slides 6-12..." w).world = wa
    at hc hp0 he0
  have ho := openById_of_isSome hp0 PRESENTATION_ID
  obtain ⟨n, wb, hl⟩ : ∃ n wb, limparSlides SLIDES_TO_CLEAR_ON_OPEN wa = Res.ok n wb := by
    have hok := isOk_limparSlides SLIDES_TO_CLEAR_ON_OPEN 0 0 wa
    cases h : forEachAcc SLIDES_TO_CLEAR_ON_OPEN 0 0 (fun x _ n => limparSlide x n) wa with
    | ok a w1 => exact ⟨a, w1, h⟩
    | raised e w1 => rw [h] at hok; cases hok
  have hr := res_eq_ok_of_isOk (isOk_removerMensagemCarregamento wb)
  have hrun : limparDadosMenu w = tryCatch (do
        exibirModalCustomizado "Limpeza Concluída"
          ("✓ Dados limpos com sucesso!\n" ++ toString n ++ " slides processados.") "#008000"
        consoleWrite "log" ("Limpeza concluída. " ++ toString n ++ " slides processados."))
      (fun e => do
        consoleWrite "error" ("Erro ao limpar dados: " ++ e)
        exibirModalCustomizado "Erro na Limpeza" ("❌ Erro ao limpar dados: " ++ e) "#FF0000")
      (setProperty ANALYSIS_STATUS_KEY STATUS_NOT_STARTED
        (removerMensagemCarregamento wb).world).world := by
    unfold limparDadosMenu DynamicPresentation.tryCatch
    rw [bind_of_ok hc, bind_of_ok ho, bind_of_ok hl, bind_of_ok hr,
      bind_of_ok (rfl : setProperty ANALYSIS_STATUS_KEY STATUS_NOT_STARTED
        (removerMensagemCarregamento wb).world = Res.ok () _)]
    rfl
  rw [hrun]
  constructor
  · have hk : Keeps NoWrite (tryCatch (do
        exibirModalCustomizado "Limpeza Concluída"
          ("✓ Dados limpos com sucesso!\n" ++ toString n ++ " slides processados.") "#008000"
        consoleWrite "log" ("Limpeza concluída. " ++ toString n ++ " slides processados."))
      (fun e => do
        consoleWrite "error" ("Erro ao limpar dados: " ++ e)
        exibirModalCustomizado "Erro na Limpeza" ("❌ Erro ao limpar dados: " ++ e)
          "#FF0000")) := by
      repeat (with_reducible first
        | exact noWrite_consoleWrite _ _
        | exact noWrite_exibirModalCustomizado _ _ _
        | apply keeps_bind noWrite_frame
        | apply keeps_tryCatch noWrite_frame
        | intro _)
    rw [noWrite_status_eq (hk.frame _)]
    exact status_setProperty _ _
  · intro slideId hmem hall
    have hk : Keeps (EmptyStays slideId) (tryCatch (do
        exibirModalCustomizado "Limpeza Concluída"
          ("✓ Dados limpos com sucesso!\n" ++ toString n ++ " slides processados.") "#008000"
        consoleWrite "log" ("Limpeza concluída. " ++ toString n ++ " slides processados."))
      (fun e => do
        consoleWrite "error" ("Erro ao limpar dados: " ++ e)
        exibirModalCustomizado "Erro na Limpeza" ("❌ Erro ao limpar dados: " ++ e)
          "#FF0000")) := by
      repeat (with_reducible first
        | exact keeps_mono (emptyStays_of_noSlide _) (noSlide_consoleWrite _ _)
        | exact keeps_mono (emptyStays_of_noSlide _) (noSlide_exibirModalCustomizado _ _ _)
        | apply keeps_bind (emptyStays_frame _)
        | apply keeps_tryCatch (emptyStays_frame _)
        | intro _)
    apply hk.frame
    show (removerMensagemCarregamento wb).world.elementsOf slideId = []
    apply (emptyStays_removerMensagemCarregamento slideId).frame
    have hcl := limparSlides_clears SLIDES_TO_CLEAR_ON_OPEN 0 0 wa slideId hmem
      (by rw [he0]; exact hall)
    have hl2 : forEachAcc SLIDES_TO_CLEAR_ON_OPEN 0 0 (fun x _ n => limparSlide x n) wa
      = Res.ok n wb := hl
    rw [hl2] at hcl
    exact hcl

theorem limparDadosMenu_clears_witness :
    (limparDadosMenu worldWithStuckElement).world.status = some STATUS_NOT_STARTED ∧
      ∀ slideId ∈ SLIDES_TO_CLEAR_ON_OPEN,
        (∀ e ∈ worldWithStuckElement.elementsOf slideId, e.removeFails = false) →
          (limparDadosMenu worldWithStuckElement).world.elementsOf slideId = [] :=
  limparDadosMenu_clears worldWithStuckElement (by decide)

/-- C10, the code at the failing input: in a presentation with none of the
result slides, where no slide is cleared, `limparDadosMenu` reports seven
slides. -/
theorem limparDadosMenu_counts_missing_slides :
    (∀ slideId ∈ SLIDES_TO_CLEAR_ON_OPEN, worldWithoutResultSlides.hasSlide slideId = false) ∧
      (limparDadosMenu worldWithoutResultSlides).world.dialogs =
        [Dialog.modal (customModalHtml "Limpeza Concluída"
          "✓ Dados limpos com sucesso!\n7 slides processados." "#008000")
          400 250 "Informação da Análise"] := by
  decide!

/-! ## Title case (C6, C7) -/

/-- C6, the code at the failing input: a word that begins with a letter
outside ASCII keeps its first letter in lower case and gets its second
letter in upper case; the empty string, `null` and `undefined` give ''. -/
theorem toTitleCase_accented_word :
    toTitleCase (JsVal.str "água_fria") = "áGua Fria" ∧
      toTitleCase (JsVal.str "") = "" ∧ toTitleCase JsVal.null = "" ∧
      toTitleCase JsVal.undefined = "" := by
  decide

/-- C7, the code at the failing input: the term put in by the substitution
is changed again by the capitalisation, so the result does not contain
"Duração Contrato ". -/
theorem toTitleCase_duracao_contrato :
    toTitleCase (JsVal.str "duracao_contrato_mensal") = "DuraçãO Contrato Mensal" ∧
      includes (toTitleCase (JsVal.str "duracao_contrato_mensal")) "Duração Contrato " = false := by
  decide

theorem lower_cases (c : Char) (h : isLowerAscii c = true) :
    c ∈ "abcdefghijklmnopqrstuvwxyz".toList := by
  unfold isLowerAscii at h
  rw [Bool.and_eq_true, decide_eq_true_eq, decide_eq_true_eq] at h
  have e : c = Char.ofNat c.toNat := (Char.ofNat_toNat c).symm
  have l1 : 97 ≤ c.toNat := h.1
  have l2 : c.toNat ≤ 122 := h.2
  rw [e]
  generalize c.toNat = n at l1 l2
  interval_cases n <;> decide

theorem isWordChar_of_lower (c : Char) (h : isLowerAscii c = true) : isWordChar c = true :=
  (by decide : ∀ x ∈ "abcdefghijklmnopqrstuvwxyz".toList, isWordChar x = true) c (lower_cases c h)

theorem upperWordChar_not_lower (c : Char) : isLowerAscii (upperWordChar c) = false := by
  by_cases h : isLowerAscii c = true
  · exact (by decide : ∀ x ∈ "abcdefghijklmnopqrstuvwxyz".toList,
      isLowerAscii (upperWordChar x) = false) c (lower_cases c h)
  · have h2 : upperWordChar c = c := by
      unfold upperWordChar
      unfold isLowerAscii at h
      rw [if_neg h]
    rw [h2]
    exact Bool.eq_false_iff.mpr h

theorem isWordChar_upperWordChar (c : Char) (hc : isWordChar c = true) :
    isWordChar (upperWordChar c) = true := by
  by_cases h : isLowerAscii c = true
  · exact (by decide : ∀ x ∈ "abcdefghijklmnopqrstuvwxyz".toList,
      isWordChar (upperWordChar x) = true) c (lower_cases c h)
  · have h2 : upperWordChar c = c := by
      unfold upperWordChar
      unfold isLowerAscii at h
      rw [if_neg h]
    rw [h2]
    exact hc

/-- In the output of the capitalisation an ASCII lower-case letter always
follows a `\w` character (`prevWord` stands for the character before the
input). -/
theorem capitalizeAux_lower (s : List Char) (prevWord : Bool) (pre post : List Char) (c : Char)
    (h : capitalizeAux prevWord s = pre ++ c :: post) (hc : isLowerAscii c = true) :
    (pre = [] ∧ prevWord = true) ∨ ∃ pre2 p, pre = pre2 ++ [p] ∧ isWordChar p = true := by
  induction s generalizing prevWord pre with
  | nil =>
    unfold capitalizeAux at h
    cases pre <;> cases h
  | cons x xs ih =>
    unfold capitalizeAux at h
    by_cases hx : isWordChar x = true
    · rw [if_pos hx] at h
      cases pre with
      | nil =>
        rw [List.nil_append] at h
        injection h with h1 h2
        cases prevWord with
        | true => exact Or.inl ⟨rfl, rfl⟩
        | false =>
          simp only [Bool.false_eq_true, if_false] at h1
          rw [← h1, upperWordChar_not_lower] at hc
          cases hc
      | cons y pre2 =>
        rw [List.cons_append] at h
        injection h with h1 h2
        have hy : isWordChar y = true := by
          rw [← h1]
          cases prevWord with
          | true => simpa using hx
          | false => simpa using isWordChar_upperWordChar x hx
        rcases ih true pre2 h2 with ⟨hnil, _⟩ | ⟨pre3, p, hp, hw⟩
        · exact Or.inr ⟨[], y, by rw [hnil]; rfl, hy⟩
        · exact Or.inr ⟨y :: pre3, p, by rw [hp]; rfl, hw⟩
    · rw [if_neg hx] at h
      cases pre with
      | nil =>
        rw [List.nil_append] at h
        injection h with h1 h2
        exact absurd (isWordChar_of_lower x (by rw [h1]; exact hc)) hx
      | cons y pre2 =>
        rw [List.cons_append] at h
        injection h with h1 h2
        rcases ih false pre2 h2 with ⟨_, hfalse⟩ | ⟨pre3, p, hp, hw⟩
        · cases hfalse
        · exact Or.inr ⟨y :: pre3, p, by rw [hp]; rfl, hw⟩

/-- What holds of `toTitleCase` for ASCII letters: in its result an ASCII
lower-case letter never begins a word; it always comes right after a `\w`
character (a letter, a digit or `_`). -/
theorem toTitleCase_lower_follows_word (str : JsVal) (pre post : List Char) (c : Char)
    (h : (toTitleCase str).toList = pre ++ c :: post) (hc : isLowerAscii c = true) :
    ∃ pre2 p, pre = pre2 ++ [p] ∧ isWordChar p = true := by
  unfold toTitleCase at h
  by_cases ht : (!str.truthy) = true
  · rw [if_pos ht] at h
    cases pre <;> cases h
  · rw [if_neg ht] at h
    rcases capitalizeAux_lower _ false pre post c h hc with ⟨_, hfalse⟩ | hres
    · cases hfalse
    · exact hres

theorem listIncludes_split (sub l : List Char) (h : listIncludes sub l = true) :
    ∃ pre post, l = pre ++ sub ++ post := by
  induction l with
  | nil =>
    unfold listIncludes at h
    have : sub = [] := by simpa using h
    exact ⟨[], [], by rw [this]; rfl⟩
  | cons c cs ih =>
    unfold listIncludes at h
    rw [Bool.or_eq_true] at h
    rcases h with h | h
    · obtain ⟨t, ht⟩ := List.isPrefixOf_iff_prefix.mp h
      exact ⟨[], t, by rw [← ht]; rfl⟩
    · obtain ⟨pre, post, hp⟩ := ih h
      exact ⟨c :: pre, post, by rw [hp]; rfl⟩

/-- What the defect behind C7 means for every input: the result of
`toTitleCase` never contains "Duração Contrato ". -/
theorem toTitleCase_never_duracao (str : JsVal) :
    includes (toTitleCase str) "Duração Contrato " = false := by
  rw [Bool.eq_false_iff]
  intro h
  obtain ⟨pre, post, hp⟩ := listIncludes_split _ _ h
  have hsplit : (toTitleCase str).toList =
      (pre ++ "Duraçã".toList) ++ 'o' :: (" Contrato ".toList ++ post) := by
    rw [hp]
    simp
  obtain ⟨pre2, p, hpre, hw⟩ := toTitleCase_lower_follows_word str _ _ 'o' hsplit (by decide)
  have hlast : (pre ++ "Duraçã".toList).getLast? = some 'ã' := by simp
  rw [hpre] at hlast
  simp at hlast
  rw [hlast] at hw
  revert hw
  decide

/-! ## The two-column layout (C15) -/

/-- The right edge of the text column for the three proportions the fill
functions use: 0.35 (slides 7 and 8), 0.40 (slides 9, 10 and 12) and 0.45
(slide 11); the chart starts at 420. -/
theorem text_column_right_edges :
    MARGIN_LEFT + CONTENT_WIDTH * 0.35 = 351 ∧ MARGIN_LEFT + CONTENT_WIDTH * 0.40 = 394 ∧
      MARGIN_LEFT + CONTENT_WIDTH * 0.45 = 437 := by
  unfold MARGIN_LEFT CONTENT_WIDTH SLIDE_WIDTH MARGIN_LEFT MARGIN_RIGHT
  norm_num

/-- C15, the code at the failing input: on slide 11 the text box of the
first insight spans 50 to 437 horizontally and 92 to 152 vertically, the
chart 420 to 720 and 100 to 380: they overlap.  (Listed per element: kind,
left, right, top, bottom.) -/
theorem preencherSlide11_overlap :
    ((preencherSlide11 sampleCallCenterData sampleWorld).world.elementsOf SLIDE_11_ID).map
        (fun e => (e.kind, e.left, e.left + e.width, e.top, e.top + e.height)) =
      [(ElementKind.shape, 50, 910, 50, 82), (ElementKind.shape, 50, 437, 92, 152),
        (ElementKind.image, 420, 720, 100, 380)] := by
  decide!

/-! ## Clearing one slide (C14) -/

theorem forEach_removeElement_removable (s : String) (es : List PageElement) (w w1 : World)
    (h : forEach es (fun e => removeElement s e) w = Res.ok () w1) :
    ∀ e ∈ es, e.removeFails = false := by
  induction es generalizing w with
  | nil => intro e he; cases he
  | cons x rest ih =>
    have h2 : (removeElement s x >>= fun _ => forEach rest (fun e => removeElement s e)) w =
      Res.ok () w1 := h
    obtain ⟨_, wa, hx, hrest⟩ := bind_eq_ok h2
    intro e he
    cases he with
    | head =>
      unfold removeElement at hx
      by_cases hr : x.removeFails = true
      · rw [if_pos hr] at hx
        cases hx
      · exact Bool.eq_false_iff.mpr hr
    | tail _ hmem => exact ih wa hrest e hmem

theorem isOk_forEach_removeElement (s : String) (es : List PageElement)
    (hes : ∀ e ∈ es, e.removeFails = false) (w : World) :
    (forEach es (fun e => removeElement s e) w).isOk = true := by
  induction es generalizing w with
  | nil => rfl
  | cons x rest ih =>
    show ((removeElement s x >>= fun _ => forEach rest (fun e => removeElement s e)) w).isOk = true
    apply isOk_bind
    · unfold removeElement
      rw [hes x (List.mem_cons_self _ _)]
      rfl
    · intro _ w1 _
      exact ih (fun e he => hes e (List.mem_cons_of_mem _ he)) w1

/-- C14: `clearSlideContent` clears the whole content of a slide: for every
slide and every list of page elements on it, when `clearSlideContent`
returns the slide has no page elements, and it does return when no element
refuses removal; for a null or undefined slide it returns without raising
and changes nothing but the console, where it logs the error line. -/
theorem clearSlideContent_spec (w : World) :
    (∀ s w1, clearSlideContent (some s) w = Res.ok () w1 → w1.elementsOf s = []) ∧
      (∀ s, (∀ e ∈ w.elementsOf s, e.removeFails = false) →
        (clearSlideContent (some s) w).isOk = true) ∧
      clearSlideContent none w = Res.ok ()
        { w with console := w.console ++
          [("error", "Erro: Slide é indefinido ou nulo em clearSlideContent.")] } := by
  refine ⟨?_, ?_, rfl⟩
  · intro s w1 h
    by_cases hs : w.hasSlide s = true
    · have hrun : forEach (w.elementsOf s) (fun e => removeElement s e) w = Res.ok () w1 := h
      have hall := forEach_removeElement_removable s _ w w1 hrun
      obtain ⟨w2, h2, _, he⟩ := clearSlideContent_clears s w hs hall
      rw [h] at h2
      cases h2
      exact he
    · apply elementsOf_of_not_hasSlide
      have hk := ((otherSlides_clearSlideContent s (some s) (Or.inr rfl)).frame w).2.1 s
      rw [h] at hk
      rw [show w1.hasSlide s = w.hasSlide s from hk]
      exact Bool.eq_false_iff.mpr hs
  · intro s hall
    exact isOk_forEach_removeElement s _ hall w

theorem clearSlideContent_spec_witness :
    (clearSlideContent (some SLIDE_6_ID) sampleWorld).world.elementsOf SLIDE_6_ID = [] :=
  (clearSlideContent_spec sampleWorld).1 SLIDE_6_ID _ (res_eq_ok_of_isOk (by decide!))

/-! ## The triggers after a run (C12) -/

theorem triggersKept_frame : IsFrame TriggersKept :=
  ⟨fun _ => rfl, fun _ _ _ h1 h2 => h2.trans h1⟩

theorem triggersKept_setProperty (k v : String) : Keeps TriggersKept (setProperty k v) :=
  ⟨fun _ => rfl⟩

theorem triggersKept_consoleWrite (l m : String) : Keeps TriggersKept (consoleWrite l m) :=
  ⟨fun _ => rfl⟩

theorem triggersKept_openById (i : String) : Keeps TriggersKept (openById i) := by
  constructor; intro w; unfold openById; cases w.presentation <;> exact rfl

theorem triggersKept_getSlideById (i : String) : Keeps TriggersKept (getSlideById i) := by
  constructor; intro w; unfold getSlideById
  cases w.presentation with
  | none => exact rfl
  | some sl => dsimp only; cases findSlide i sl <;> exact rfl

theorem triggersKept_getPageElements (i : String) : Keeps TriggersKept (getPageElements i) :=
  ⟨fun _ => rfl⟩

theorem triggersKept_getShapes (i : String) : Keeps TriggersKept (getShapes i) :=
  ⟨fun _ => rfl⟩

theorem triggersKept_removeElement (i : String) (e : PageElement) :
    Keeps TriggersKept (removeElement i e) := by
  constructor; intro w; unfold removeElement; split <;> exact rfl

theorem triggersKept_slideOrRaise (s : Option String) (m : String) :
    Keeps TriggersKept (slideOrRaise s m) := by
  constructor; intro w; unfold slideOrRaise; cases s <;> exact rfl

theorem triggersKept_insertElement (s : String) (k : ElementKind) (a b c d : ℚ) :
    Keeps TriggersKept (insertElement s k a b c d) := ⟨fun _ => rfl⟩

theorem triggersKept_modifyElement (s : String) (i : Nat) (f : PageElement → PageElement) :
    Keeps TriggersKept (modifyElement s i f) := ⟨fun _ => rfl⟩

theorem triggersKept_getProp (v : JsVal) (n : String) : Keeps TriggersKept (getProp v n) := by
  constructor; intro w; unfold getProp; cases v <;> exact rfl

theorem triggersKept_forEachItems (v : JsVal) (n : String) : Keeps TriggersKept (forEachItems v n) := by
  constructor; intro w; unfold forEachItems; cases v <;> exact rfl

theorem triggersKept_stripBullet (v : JsVal) (n : String) : Keeps TriggersKept (stripBullet v n) := by
  constructor; intro w; unfold stripBullet; cases v <;> exact rfl

theorem triggersKept_getUi : Keeps TriggersKept getUi := by
  constructor; intro w; unfold getUi; split <;> exact rfl

theorem triggersKept_fetch (a : FetchOutcome) (r : Request) : Keeps TriggersKept (fetch a r) := by
  constructor; intro w; unfold fetch; cases a <;> exact rfl

theorem triggersKept_showModalDialog (h : String) (a b : Nat) (t : String) :
    Keeps TriggersKept (showModalDialog h a b t) := by
  unfold showModalDialog
  exact keeps_bind triggersKept_frame triggersKept_getUi (fun _ => ⟨fun _ => rfl⟩)

theorem triggersKept_clearSlideContent (s : Option String) : Keeps TriggersKept (clearSlideContent s) := by
  unfold clearSlideContent
  repeat (with_reducible first
    | exact triggersKept_consoleWrite _ _
    | exact triggersKept_openById _
    | exact triggersKept_getSlideById _
    | exact triggersKept_getPageElements _
    | exact triggersKept_getShapes _
    | exact triggersKept_removeElement _ _
    | exact triggersKept_slideOrRaise _ _
    | exact triggersKept_insertElement _ _ _ _ _ _
    | exact triggersKept_modifyElement _ _ _
    | exact triggersKept_getProp _ _
    | exact triggersKept_forEachItems _ _
    | exact triggersKept_stripBullet _ _
    | exact triggersKept_getUi
    | exact triggersKept_fetch _ _
    | exact keeps_getWorld triggersKept_frame
    | exact keeps_pure triggersKept_frame _
    | exact keeps_pureS triggersKept_frame _
    | exact keeps_raise triggersKept_frame _
    | apply keeps_bind triggersKept_frame
    | apply keeps_tryCatch triggersKept_frame
    | apply keeps_forEach triggersKept_frame
    | apply keeps_forEachAcc triggersKept_frame
    | intro _
    | split)

theorem triggersKept_insertShapeWithText (s : Option String) (a b c d : ℚ) (t : Script String)
    (st : TextStyle) (ht : Keeps TriggersKept t) :
    Keeps TriggersKept (insertShapeWithText s a b c d t st) := by
  unfold insertShapeWithText
  repeat (with_reducible first
    | exact ht
    | exact triggersKept_consoleWrite _ _
    | exact triggersKept_openById _
    | exact triggersKept_getSlideById _
    | exact triggersKept_getPageElements _
    | exact triggersKept_getShapes _
    | exact triggersKept_removeElement _ _
    | exact triggersKept_slideOrRaise _ _
    | exact triggersKept_insertElement _ _ _ _ _ _
    | exact triggersKept_modifyElement _ _ _
    | exact triggersKept_getProp _ _
    | exact triggersKept_forEachItems _ _
    | exact triggersKept_stripBullet _ _
    | exact triggersKept_getUi
    | exact triggersKept_fetch _ _
    | exact keeps_getWorld triggersKept_frame
    | exact keeps_pure triggersKept_frame _
    | exact keeps_pureS triggersKept_frame _
    | exact keeps_raise triggersKept_frame _
    | apply keeps_bind triggersKept_frame
    | apply keeps_tryCatch triggersKept_frame
    | apply keeps_forEach triggersKept_frame
    | apply keeps_forEachAcc triggersKept_frame
    | intro _
    | split)

theorem triggersKept_removeMessageShapes (s : String) (l : List PageElement) (m : String) :
    Keeps TriggersKept (removeMessageShapes s l m) := by
  unfold removeMessageShapes
  repeat (with_reducible first
    | exact triggersKept_consoleWrite _ _
    | exact triggersKept_openById _
    | exact triggersKept_getSlideById _
    | exact triggersKept_getPageElements _
    | exact triggersKept_getShapes _
    | exact triggersKept_removeElement _ _
    | exact triggersKept_slideOrRaise _ _
    | exact triggersKept_insertElement _ _ _ _ _ _
    | exact triggersKept_modifyElement _ _ _
    | exact triggersKept_getProp _ _
    | exact triggersKept_forEachItems _ _
    | exact triggersKept_stripBullet _ _
    | exact triggersKept_getUi
    | exact triggersKept_fetch _ _
    | exact keeps_getWorld triggersKept_frame
    | exact keeps_pure triggersKept_frame _
    | exact keeps_pureS triggersKept_frame _
    | exact keeps_raise triggersKept_frame _
    | apply keeps_bind triggersKept_frame
    | apply keeps_tryCatch triggersKept_frame
    | apply keeps_forEach triggersKept_frame
    | apply keeps_forEachAcc triggersKept_frame
    | intro _
    | split)

theorem triggersKept_exibirMensagemCarregamento : Keeps TriggersKept exibirMensagemCarregamento := by
  unfold exibirMensagemCarregamento
  repeat (with_reducible first
    | exact triggersKept_removeMessageShapes _ _ _
    | apply triggersKept_insertShapeWithText
    | exact triggersKept_consoleWrite _ _
    | exact triggersKept_openById _
    | exact triggersKept_getSlideById _
    | exact triggersKept_getPageElements _
    | exact triggersKept_getShapes _
    | exact triggersKept_removeElement _ _
    | exact triggersKept_slideOrRaise _ _
    | exact triggersKept_insertElement _ _ _ _ _ _
    | exact triggersKept_modifyElement _ _ _
    | exact triggersKept_getProp _ _
    | exact triggersKept_forEachItems _ _
    | exact triggersKept_stripBullet _ _
    | exact triggersKept_getUi
    | exact triggersKept_fetch _ _
    | exact keeps_getWorld triggersKept_frame
    | exact keeps_pure triggersKept_frame _
    | exact keeps_pureS triggersKept_frame _
    | exact keeps_raise triggersKept_frame _
    | apply keeps_bind triggersKept_frame
    | apply keeps_tryCatch triggersKept_frame
    | apply keeps_forEach triggersKept_frame
    | apply keeps_forEachAcc triggersKept_frame
    | intro _
    | split)

theorem triggersKept_removerMensagemCarregamento : Keeps TriggersKept removerMensagemCarregamento := by
  unfold removerMensagemCarregamento
  repeat (with_reducible first
    | exact triggersKept_removeMessageShapes _ _ _
    | exact triggersKept_consoleWrite _ _
    | exact triggersKept_openById _
    | exact triggersKept_getSlideById _
    | exact triggersKept_getPageElements _
    | exact triggersKept_getShapes _
    | exact triggersKept_removeElement _ _
    | exact triggersKept_slideOrRaise _ _
    | exact triggersKept_insertElement _ _ _ _ _ _
    | exact triggersKept_modifyElement _ _ _
    | exact triggersKept_getProp _ _
    | exact triggersKept_forEachItems _ _
    | exact triggersKept_stripBullet _ _
    | exact triggersKept_getUi
    | exact triggersKept_fetch _ _
    | exact keeps_getWorld triggersKept_frame
    | exact keeps_pure triggersKept_frame _
    | exact keeps_pureS triggersKept_frame _
    | exact keeps_raise triggersKept_frame _
    | apply keeps_bind triggersKept_frame
    | apply keeps_tryCatch triggersKept_frame
    | apply keeps_forEach triggersKept_frame
    | apply keeps_forEachAcc triggersKept_frame
    | intro _
    | split)

theorem triggersKept_callCloudFunction (a : FetchOutcome) : Keeps TriggersKept (callCloudFunction a) := by
  unfold callCloudFunction
  repeat (with_reducible first
    | exact triggersKept_consoleWrite _ _
    | exact triggersKept_openById _
    | exact triggersKept_getSlideById _
    | exact triggersKept_getPageElements _
    | exact triggersKept_getShapes _
    | exact triggersKept_removeElement _ _
    | exact triggersKept_slideOrRaise _ _
    | exact triggersKept_insertElement _ _ _ _ _ _
    | exact triggersKept_modifyElement _ _ _
    | exact triggersKept_getProp _ _
    | exact triggersKept_forEachItems _ _
    | exact triggersKept_stripBullet _ _
    | exact triggersKept_getUi
    | exact triggersKept_fetch _ _
    | exact keeps_getWorld triggersKept_frame
    | exact keeps_pure triggersKept_frame _
    | exact keeps_pureS triggersKept_frame _
    | exact keeps_raise triggersKept_frame _
    | apply keeps_bind triggersKept_frame
    | apply keeps_tryCatch triggersKept_frame
    | apply keeps_forEach triggersKept_frame
    | apply keeps_forEachAcc triggersKept_frame
    | intro _
    | split)

theorem triggersKept_exibirModalConclusao : Keeps TriggersKept exibirModalConclusao := by
  unfold exibirModalConclusao
  repeat (with_reducible first
    | exact triggersKept_showModalDialog _ _ _ _
    | exact triggersKept_consoleWrite _ _
    | exact triggersKept_openById _
    | exact triggersKept_getSlideById _
    | exact triggersKept_getPageElements _
    | exact triggersKept_getShapes _
    | exact triggersKept_removeElement _ _
    | exact triggersKept_slideOrRaise _ _
    | exact triggersKept_insertElement _ _ _ _ _ _
    | exact triggersKept_modifyElement _ _ _
    | exact triggersKept_getProp _ _
    | exact triggersKept_forEachItems _ _
    | exact triggersKept_stripBullet _ _
    | exact triggersKept_getUi
    | exact triggersKept_fetch _ _
    | exact keeps_getWorld triggersKept_frame
    | exact keeps_pure triggersKept_frame _
    | exact keeps_pureS triggersKept_frame _
    | exact keeps_raise triggersKept_frame _
    | apply keeps_bind triggersKept_frame
    | apply keeps_tryCatch triggersKept_frame
    | apply keeps_forEach triggersKept_frame
    | apply keeps_forEachAcc triggersKept_frame
    | intro _
    | split)

theorem triggersKept_addImageFromBase64 (s : Option String) (v : JsVal) (a b c d : ℚ) :
    Keeps TriggersKept (addImageFromBase64 s v a b c d) := by
  unfold addImageFromBase64
  repeat (with_reducible first
    | exact triggersKept_consoleWrite _ _
    | exact triggersKept_openById _
    | exact triggersKept_getSlideById _
    | exact triggersKept_getPageElements _
    | exact triggersKept_getShapes _
    | exact triggersKept_removeElement _ _
    | exact triggersKept_slideOrRaise _ _
    | exact triggersKept_insertElement _ _ _ _ _ _
    | exact triggersKept_modifyElement _ _ _
    | exact triggersKept_getProp _ _
    | exact triggersKept_forEachItems _ _
    | exact triggersKept_stripBullet _ _
    | exact triggersKept_getUi
    | exact triggersKept_fetch _ _
    | exact keeps_getWorld triggersKept_frame
    | exact keeps_pure triggersKept_frame _
    | exact keeps_pureS triggersKept_frame _
    | exact keeps_raise triggersKept_frame _
    | apply keeps_bind triggersKept_frame
    | apply keeps_tryCatch triggersKept_frame
    | apply keeps_forEach triggersKept_frame
    | apply keeps_forEachAcc triggersKept_frame
    | intro _
    | split)

theorem triggersKept_fieldText (a : String) (v : JsVal) (n b : String) :
    Keeps TriggersKept (fieldText a v n b) := by
  unfold fieldText
  repeat (with_reducible first
    | exact triggersKept_consoleWrite _ _
    | exact triggersKept_openById _
    | exact triggersKept_getSlideById _
    | exact triggersKept_getPageElements _
    | exact triggersKept_getShapes _
    | exact triggersKept_removeElement _ _
    | exact triggersKept_slideOrRaise _ _
    | exact triggersKept_insertElement _ _ _ _ _ _
    | exact triggersKept_modifyElement _ _ _
    | exact triggersKept_getProp _ _
    | exact triggersKept_forEachItems _ _
    | exact triggersKept_stripBullet _ _
    | exact triggersKept_getUi
    | exact triggersKept_fetch _ _
    | exact keeps_getWorld triggersKept_frame
    | exact keeps_pure triggersKept_frame _
    | exact keeps_pureS triggersKept_frame _
    | exact keeps_raise triggersKept_frame _
    | apply keeps_bind triggersKept_frame
    | apply keeps_tryCatch triggersKept_frame
    | apply keeps_forEach triggersKept_frame
    | apply keeps_forEachAcc triggersKept_frame
    | intro _
    | split)

theorem triggersKept_nonEmptyList (v : JsVal) : Keeps TriggersKept (nonEmptyList v) := by
  unfold nonEmptyList
  repeat (with_reducible first
    | exact triggersKept_consoleWrite _ _
    | exact triggersKept_openById _
    | exact triggersKept_getSlideById _
    | exact triggersKept_getPageElements _
    | exact triggersKept_getShapes _
    | exact triggersKept_removeElement _ _
    | exact triggersKept_slideOrRaise _ _
    | exact triggersKept_insertElement _ _ _ _ _ _
    | exact triggersKept_modifyElement _ _ _
    | exact triggersKept_getProp _ _
    | exact triggersKept_forEachItems _ _
    | exact triggersKept_stripBullet _ _
    | exact triggersKept_getUi
    | exact triggersKept_fetch _ _
    | exact keeps_getWorld triggersKept_frame
    | exact keeps_pure triggersKept_frame _
    | exact keeps_pureS triggersKept_frame _
    | exact keeps_raise triggersKept_frame _
    | apply keeps_bind triggersKept_frame
    | apply keeps_tryCatch triggersKept_frame
    | apply keeps_forEach triggersKept_frame
    | apply keeps_forEachAcc triggersKept_frame
    | intro _
    | split)

theorem triggersKept_insertErrorBox (s : Option String) (l : String) (v : JsVal) :
    Keeps TriggersKept (insertErrorBox s l v) := by
  unfold insertErrorBox
  repeat (with_reducible first
    | exact triggersKept_fieldText _ _ _ _
    | apply triggersKept_insertShapeWithText
    | exact triggersKept_consoleWrite _ _
    | exact triggersKept_openById _
    | exact triggersKept_getSlideById _
    | exact triggersKept_getPageElements _
    | exact triggersKept_getShapes _
    | exact triggersKept_removeElement _ _
    | exact triggersKept_slideOrRaise _ _
    | exact triggersKept_insertElement _ _ _ _ _ _
    | exact triggersKept_modifyElement _ _ _
    | exact triggersKept_getProp _ _
    | exact triggersKept_forEachItems _ _
    | exact triggersKept_stripBullet _ _
    | exact triggersKept_getUi
    | exact triggersKept_fetch _ _
    | exact keeps_getWorld triggersKept_frame
    | exact keeps_pure triggersKept_frame _
    | exact keeps_pureS triggersKept_frame _
    | exact keeps_raise triggersKept_frame _
    | apply keeps_bind triggersKept_frame
    | apply keeps_tryCatch triggersKept_frame
    | apply keeps_forEach triggersKept_frame
    | apply keeps_forEachAcc triggersKept_frame
    | intro _
    | split)

theorem triggersKept_insertTitle (s : Option String) (y : ℚ) (t : String) :
    Keeps TriggersKept (insertTitle s y t) := by
  unfold insertTitle
  repeat (with_reducible first
    | apply triggersKept_insertShapeWithText
    | exact triggersKept_consoleWrite _ _
    | exact triggersKept_openById _
    | exact triggersKept_getSlideById _
    | exact triggersKept_getPageElements _
    | exact triggersKept_getShapes _
    | exact triggersKept_removeElement _ _
    | exact triggersKept_slideOrRaise _ _
    | exact triggersKept_insertElement _ _ _ _ _ _
    | exact triggersKept_modifyElement _ _ _
    | exact triggersKept_getProp _ _
    | exact triggersKept_forEachItems _ _
    | exact triggersKept_stripBullet _ _
    | exact triggersKept_getUi
    | exact triggersKept_fetch _ _
    | exact keeps_getWorld triggersKept_frame
    | exact keeps_pure triggersKept_frame _
    | exact keeps_pureS triggersKept_frame _
    | exact keeps_raise triggersKept_frame _
    | apply keeps_bind triggersKept_frame
    | apply keeps_tryCatch triggersKept_frame
    | apply keeps_forEach triggersKept_frame
    | apply keeps_forEachAcc triggersKept_frame
    | intro _
    | split)

theorem triggersKept_preencherSlide6 (data : JsVal) : Keeps TriggersKept (preencherSlide6 data) := by
  unfold preencherSlide6
  repeat (with_reducible first
    | exact triggersKept_clearSlideContent _
    | exact triggersKept_insertErrorBox _ _ _
    | exact triggersKept_insertTitle _ _ _
    | exact triggersKept_fieldText _ _ _ _
    | exact triggersKept_nonEmptyList _
    | exact triggersKept_addImageFromBase64 _ _ _ _ _ _
    | apply triggersKept_insertShapeWithText
    | exact triggersKept_consoleWrite _ _
    | exact triggersKept_openById _
    | exact triggersKept_getSlideById _
    | exact triggersKept_getPageElements _
    | exact triggersKept_getShapes _
    | exact triggersKept_removeElement _ _
    | exact triggersKept_slideOrRaise _ _
    | exact triggersKept_insertElement _ _ _ _ _ _
    | exact triggersKept_modifyElement _ _ _
    | exact triggersKept_getProp _ _
    | exact triggersKept_forEachItems _ _
    | exact triggersKept_stripBullet _ _
    | exact triggersKept_getUi
    | exact triggersKept_fetch _ _
    | exact keeps_getWorld triggersKept_frame
    | exact keeps_pure triggersKept_frame _
    | exact keeps_pureS triggersKept_frame _
    | exact keeps_raise triggersKept_frame _
    | apply keeps_bind triggersKept_frame
    | apply keeps_tryCatch triggersKept_frame
    | apply keeps_forEach triggersKept_frame
    | apply keeps_forEachAcc triggersKept_frame
    | intro _
    | split)

theorem triggersKept_preencherSlide7 (data : JsVal) : Keeps TriggersKept (preencherSlide7 data) := by
  unfold preencherSlide7
  repeat (with_reducible first
    | exact triggersKept_clearSlideContent _
    | exact triggersKept_insertErrorBox _ _ _
    | exact triggersKept_insertTitle _ _ _
    | exact triggersKept_fieldText _ _ _ _
    | exact triggersKept_nonEmptyList _
    | exact triggersKept_addImageFromBase64 _ _ _ _ _ _
    | apply triggersKept_insertShapeWithText
    | exact triggersKept_consoleWrite _ _
    | exact triggersKept_openById _
    | exact triggersKept_getSlideById _
    | exact triggersKept_getPageElements _
    | exact triggersKept_getShapes _
    | exact triggersKept_removeElement _ _
    | exact triggersKept_slideOrRaise _ _
    | exact triggersKept_insertElement _ _ _ _ _ _
    | exact triggersKept_modifyElement _ _ _
    | exact triggersKept_getProp _ _
    | exact triggersKept_forEachItems _ _
    | exact triggersKept_stripBullet _ _
    | exact triggersKept_getUi
    | exact triggersKept_fetch _ _
    | exact keeps_getWorld triggersKept_frame
    | exact keeps_pure triggersKept_frame _
    | exact keeps_pureS triggersKept_frame _
    | exact keeps_raise triggersKept_frame _
    | apply keeps_bind triggersKept_frame
    | apply keeps_tryCatch triggersKept_frame
    | apply keeps_forEach triggersKept_frame
    | apply keeps_forEachAcc triggersKept_frame
    | intro _
    | split)

theorem triggersKept_preencherSlide8 (data : JsVal) : Keeps TriggersKept (preencherSlide8 data) := by
  unfold preencherSlide8
  repeat (with_reducible first
    | exact triggersKept_clearSlideContent _
    | exact triggersKept_insertErrorBox _ _ _
    | exact triggersKept_insertTitle _ _ _
    | exact triggersKept_fieldText _ _ _ _
    | exact triggersKept_nonEmptyList _
    | exact triggersKept_addImageFromBase64 _ _ _ _ _ _
    | apply triggersKept_insertShapeWithText
    | exact triggersKept_consoleWrite _ _
    | exact triggersKept_openById _
    | exact triggersKept_getSlideById _
    | exact triggersKept_getPageElements _
    | exact triggersKept_getShapes _
    | exact triggersKept_removeElement _ _
    | exact triggersKept_slideOrRaise _ _
    | exact triggersKept_insertElement _ _ _ _ _ _
    | exact triggersKept_modifyElement _ _ _
    | exact triggersKept_getProp _ _
    | exact triggersKept_forEachItems _ _
    | exact triggersKept_stripBullet _ _
    | exact triggersKept_getUi
    | exact triggersKept_fetch _ _
    | exact keeps_getWorld triggersKept_frame
    | exact keeps_pure triggersKept_frame _
    | exact keeps_pureS triggersKept_frame _
    | exact keeps_raise triggersKept_frame _
    | apply keeps_bind triggersKept_frame
    | apply keeps_tryCatch triggersKept_frame
    | apply keeps_forEach triggersKept_frame
    | apply keeps_forEachAcc triggersKept_frame
    | intro _
    | split)

theorem triggersKept_preencherSlide9 (data : JsVal) : Keeps TriggersKept (preencherSlide9 data) := by
  unfold preencherSlide9
  repeat (with_reducible first
    | exact triggersKept_clearSlideContent _
    | exact triggersKept_insertErrorBox _ _ _
    | exact triggersKept_insertTitle _ _ _
    | exact triggersKept_fieldText _ _ _ _
    | exact triggersKept_nonEmptyList _
    | exact triggersKept_addImageFromBase64 _ _ _ _ _ _
    | apply triggersKept_insertShapeWithText
    | exact triggersKept_consoleWrite _ _
    | exact triggersKept_openById _
    | exact triggersKept_getSlideById _
    | exact triggersKept_getPageElements _
    | exact triggersKept_getShapes _
    | exact triggersKept_removeElement _ _
    | exact triggersKept_slideOrRaise _ _
    | exact triggersKept_insertElement _ _ _ _ _ _
    | exact triggersKept_modifyElement _ _ _
    | exact triggersKept_getProp _ _
    | exact triggersKept_forEachItems _ _
    | exact triggersKept_stripBullet _ _
    | exact triggersKept_getUi
    | exact triggersKept_fetch _ _
    | exact keeps_getWorld triggersKept_frame
    | exact keeps_pure triggersKept_frame _
    | exact keeps_pureS triggersKept_frame _
    | exact keeps_raise triggersKept_frame _
    | apply keeps_bind triggersKept_frame
    | apply keeps_tryCatch triggersKept_frame
    | apply keeps_forEach triggersKept_frame
    | apply keeps_forEachAcc triggersKept_frame
    | intro _
    | split)

theorem triggersKept_preencherSlide10 (data : JsVal) : Keeps TriggersKept (preencherSlide10 data) := by
  unfold preencherSlide10
  repeat (with_reducible first
    | exact triggersKept_clearSlideContent _
    | exact triggersKept_insertErrorBox _ _ _
    | exact triggersKept_insertTitle _ _ _
    | exact triggersKept_fieldText _ _ _ _
    | exact triggersKept_nonEmptyList _
    | exact triggersKept_addImageFromBase64 _ _ _ _ _ _
    | apply triggersKept_insertShapeWithText
    | exact triggersKept_consoleWrite _ _
    | exact triggersKept_openById _
    | exact triggersKept_getSlideById _
    | exact triggersKept_getPageElements _
    | exact triggersKept_getShapes _
    | exact triggersKept_removeElement _ _
    | exact triggersKept_slideOrRaise _ _
    | exact triggersKept_insertElement _ _ _ _ _ _
    | exact triggersKept_modifyElement _ _ _
    | exact triggersKept_getProp _ _
    | exact triggersKept_forEachItems _ _
    | exact triggersKept_stripBullet _ _
    | exact triggersKept_getUi
    | exact triggersKept_fetch _ _
    | exact keeps_getWorld triggersKept_frame
    | exact keeps_pure triggersKept_frame _
    | exact keeps_pureS triggersKept_frame _
    | exact keeps_raise triggersKept_frame _
    | apply keeps_bind triggersKept_frame
    | apply keeps_tryCatch triggersKept_frame
    | apply keeps_forEach triggersKept_frame
    | apply keeps_forEachAcc triggersKept_frame
    | intro _
    | split)

theorem triggersKept_preencherSlide11 (data : JsVal) : Keeps TriggersKept (preencherSlide11 data) := by
  unfold preencherSlide11
  repeat (with_reducible first
    | exact triggersKept_clearSlideContent _
    | exact triggersKept_insertErrorBox _ _ _
    | exact triggersKept_insertTitle _ _ _
    | exact triggersKept_fieldText _ _ _ _
    | exact triggersKept_nonEmptyList _
    | exact triggersKept_addImageFromBase64 _ _ _ _ _ _
    | apply triggersKept_insertShapeWithText
    | exact triggersKept_consoleWrite _ _
    | exact triggersKept_openById _
    | exact triggersKept_getSlideById _
    | exact triggersKept_getPageElements _
    | exact triggersKept_getShapes _
    | exact triggersKept_removeElement _ _
    | exact triggersKept_slideOrRaise _ _
    | exact triggersKept_insertElement _ _ _ _ _ _
    | exact triggersKept_modifyElement _ _ _
    | exact triggersKept_getProp _ _
    | exact triggersKept_forEachItems _ _
    | exact triggersKept_stripBullet _ _
    | exact triggersKept_getUi
    | exact triggersKept_fetch _ _
    | exact keeps_getWorld triggersKept_frame
    | exact keeps_pure triggersKept_frame _
    | exact keeps_pureS triggersKept_frame _
    | exact keeps_raise triggersKept_frame _
    | apply keeps_bind triggersKept_frame
    | apply keeps_tryCatch triggersKept_frame
    | apply keeps_forEach triggersKept_frame
    | apply keeps_forEachAcc triggersKept_frame
    | intro _
    | split)

set_option maxRecDepth 4000 in
theorem triggersKept_preencherSlide12 (data : JsVal) : Keeps TriggersKept (preencherSlide12 data) := by
  unfold preencherSlide12
  repeat (with_reducible first
    | exact triggersKept_clearSlideContent _
    | exact triggersKept_insertErrorBox _ _ _
    | exact triggersKept_insertTitle _ _ _
    | exact triggersKept_fieldText _ _ _ _
    | exact triggersKept_nonEmptyList _
    | exact triggersKept_addImageFromBase64 _ _ _ _ _ _
    | apply triggersKept_insertShapeWithText
    | exact triggersKept_consoleWrite _ _
    | exact triggersKept_openById _
    | exact triggersKept_getSlideById _
    | exact triggersKept_getPageElements _
    | exact triggersKept_getShapes _
    | exact triggersKept_removeElement _ _
    | exact triggersKept_slideOrRaise _ _
    | exact triggersKept_insertElement _ _ _ _ _ _
    | exact triggersKept_modifyElement _ _ _
    | exact triggersKept_getProp _ _
    | exact triggersKept_forEachItems _ _
    | exact triggersKept_stripBullet _ _
    | exact triggersKept_getUi
    | exact triggersKept_fetch _ _
    | exact keeps_getWorld triggersKept_frame
    | exact keeps_pure triggersKept_frame _
    | exact keeps_pureS triggersKept_frame _
    | exact keeps_raise triggersKept_frame _
    | apply keeps_bind triggersKept_frame
    | apply keeps_tryCatch triggersKept_frame
    | apply keeps_forEach triggersKept_frame
    | apply keeps_forEachAcc triggersKept_frame
    | intro _
    | split)

theorem triggersKept_insertCatchErrorBox (s : Option String) (t : ℚ) (m : String) :
    Keeps TriggersKept (insertCatchErrorBox s t m) := by
  unfold insertCatchErrorBox
  repeat (with_reducible first
    | apply triggersKept_insertShapeWithText
    | exact triggersKept_consoleWrite _ _
    | exact triggersKept_openById _
    | exact triggersKept_getSlideById _
    | exact triggersKept_getPageElements _
    | exact triggersKept_getShapes _
    | exact triggersKept_removeElement _ _
    | exact triggersKept_slideOrRaise _ _
    | exact triggersKept_insertElement _ _ _ _ _ _
    | exact triggersKept_modifyElement _ _ _
    | exact triggersKept_getProp _ _
    | exact triggersKept_forEachItems _ _
    | exact triggersKept_stripBullet _ _
    | exact triggersKept_getUi
    | exact triggersKept_fetch _ _
    | exact keeps_getWorld triggersKept_frame
    | exact keeps_pure triggersKept_frame _
    | exact keeps_pureS triggersKept_frame _
    | exact keeps_raise triggersKept_frame _
    | apply keeps_bind triggersKept_frame
    | apply keeps_tryCatch triggersKept_frame
    | apply keeps_forEach triggersKept_frame
    | apply keeps_forEachAcc triggersKept_frame
    | intro _
    | split)

theorem triggersKept_parseData (r : String) : Keeps TriggersKept (parseData r) := by
  unfold parseData
  repeat (with_reducible first
    | exact triggersKept_consoleWrite _ _
    | exact triggersKept_openById _
    | exact triggersKept_getSlideById _
    | exact triggersKept_getPageElements _
    | exact triggersKept_getShapes _
    | exact triggersKept_removeElement _ _
    | exact triggersKept_slideOrRaise _ _
    | exact triggersKept_insertElement _ _ _ _ _ _
    | exact triggersKept_modifyElement _ _ _
    | exact triggersKept_getProp _ _
    | exact triggersKept_forEachItems _ _
    | exact triggersKept_stripBullet _ _
    | exact triggersKept_getUi
    | exact triggersKept_fetch _ _
    | exact keeps_getWorld triggersKept_frame
    | exact keeps_pure triggersKept_frame _
    | exact keeps_pureS triggersKept_frame _
    | exact keeps_raise triggersKept_frame _
    | apply keeps_bind triggersKept_frame
    | apply keeps_tryCatch triggersKept_frame
    | apply keeps_forEach triggersKept_frame
    | apply keeps_forEachAcc triggersKept_frame
    | intro _
    | split)
theorem triggersKept_executarAnaliseCompletaBody (answer : FetchOutcome) :
    Keeps TriggersKept (executarAnaliseCompletaBody answer) := by
  unfold executarAnaliseCompletaBody executarAnaliseCompletaInicio executarAnaliseCompletaResto
  repeat (with_reducible first
    | exact triggersKept_consoleWrite _ _
    | exact triggersKept_setProperty _ _
    | exact triggersKept_callCloudFunction _
    | exact triggersKept_parseData _
    | exact triggersKept_getProp _ _
    | exact triggersKept_preencherSlide6 _
    | exact triggersKept_preencherSlide7 _
    | exact triggersKept_preencherSlide8 _
    | exact triggersKept_preencherSlide9 _
    | exact triggersKept_preencherSlide10 _
    | exact triggersKept_preencherSlide11 _
    | exact triggersKept_preencherSlide12 _
    | exact triggersKept_removerMensagemCarregamento
    | exact triggersKept_exibirMensagemCarregamento
    | exact triggersKept_exibirModalConclusao
    | apply keeps_bind triggersKept_frame
    | intro _
    | split)

theorem triggersKept_executarAnaliseCompletaCatch (message : String) :
    Keeps TriggersKept (executarAnaliseCompletaCatch message) := by
  unfold executarAnaliseCompletaCatch
  repeat (with_reducible first
    | exact triggersKept_consoleWrite _ _
    | exact triggersKept_setProperty _ _
    | exact triggersKept_openById _
    | exact triggersKept_getSlideById _
    | exact triggersKept_insertCatchErrorBox _ _ _
    | exact triggersKept_removerMensagemCarregamento
    | apply keeps_bind triggersKept_frame
    | intro _)

/-- The loop of the `finally` block leaves the triggers that share no id
with a trigger of the analysis handler in the list it runs over. -/
theorem deleteLoop_triggers (ts : List Trigger) (w : World) :
    ∃ w1, forEach ts (fun t =>
        if t.handlerFunction == "executarAnaliseCompleta" then deleteTrigger t else pure ()) w =
        Res.ok () w1 ∧
      w1.triggers = w.triggers.filter (fun x =>
        (ts.filter (fun t => t.handlerFunction == "executarAnaliseCompleta")).all
          (fun t => x.uniqueId != t.uniqueId)) := by
  induction ts generalizing w with
  | nil => exact ⟨w, rfl, by simp⟩
  | cons t rest ih =>
    by_cases ht : (t.handlerFunction == "executarAnaliseCompleta") = true
    · obtain ⟨w1, h1, e1⟩ := ih
        { w with triggers := w.triggers.filter (fun x => x.uniqueId != t.uniqueId) }
      refine ⟨w1, ?_, ?_⟩
      · show (_ >>= fun _ => forEach rest _) w = _
        have hstep : (if (t.handlerFunction == "executarAnaliseCompleta") = true
            then deleteTrigger t else pure ()) w = Res.ok ()
            { w with triggers := w.triggers.filter (fun x => x.uniqueId != t.uniqueId) } := by
          rw [if_pos ht]
          rfl
        rw [bind_of_ok hstep]
        exact h1
      · rw [e1, List.filter_filter]
        apply List.filter_congr
        intro x _
        simp [List.filter_cons, ht, Bool.and_comm]
    · obtain ⟨w1, h1, e1⟩ := ih w
      refine ⟨w1, ?_, ?_⟩
      · show (_ >>= fun _ => forEach rest _) w = _
        have hstep : (if (t.handlerFunction == "executarAnaliseCompleta") = true
            then deleteTrigger t else pure ()) w = Res.ok () w := by
          rw [if_neg ht]
          rfl
        rw [bind_of_ok hstep]
        exact h1
      · rw [e1]
        apply List.filter_congr
        intro x _
        simp [List.filter_cons, ht]

theorem deleteAnalysisTriggers_triggers (w : World) :
    (deleteAnalysisTriggers w).world.triggers = w.triggers.filter (fun x =>
      (w.triggers.filter (fun t => t.handlerFunction == "executarAnaliseCompleta")).all
        (fun t => x.uniqueId != t.uniqueId)) := by
  obtain ⟨w1, h1, e1⟩ := deleteLoop_triggers w.triggers w
  have hrun : deleteAnalysisTriggers w =
      consoleWrite "log" "Gatilhos de análise limpos." w1 := by
    unfold deleteAnalysisTriggers
    rw [bind_of_ok (rfl : getProjectTriggers w = Res.ok w.triggers w), bind_of_ok h1]
  rw [hrun]
  exact e1

/-- C12: however `executarAnaliseCompleta` ends (success, failed call, or an
exception in the body or in the catch block), afterwards the project has no
trigger whose handler function is 'executarAnaliseCompleta', and every
trigger with another handler is left in place: the triggers are those of
before with another handler.  (Trigger ids are unique, as the host makes
them.) -/
theorem executarAnaliseCompleta_triggers (answer : FetchOutcome) (w : World)
    (hu : (w.triggers.map (fun t => t.uniqueId)).Nodup) :
    (executarAnaliseCompleta answer w).world.triggers =
      w.triggers.filter (fun t => t.handlerFunction != "executarAnaliseCompleta") := by
  unfold executarAnaliseCompleta
  rw [tryFinally_world, deleteAnalysisTriggers_triggers]
  have hk : (tryCatch (executarAnaliseCompletaBody answer) executarAnaliseCompletaCatch
      w).world.triggers = w.triggers :=
    (keeps_tryCatch triggersKept_frame (triggersKept_executarAnaliseCompletaBody answer)
      triggersKept_executarAnaliseCompletaCatch).frame w
  rw [hk]
  apply List.filter_congr
  intro x hx
  by_cases hh : (x.handlerFunction == "executarAnaliseCompleta") = true
  · have h1 : (x.handlerFunction != "executarAnaliseCompleta") = false := by
      simp [bne, hh]
    rw [h1, Bool.eq_false_iff]
    intro hall
    rw [List.all_eq_true] at hall
    have := hall x (List.mem_filter.mpr ⟨hx, hh⟩)
    simp at this
  · have h1 : (x.handlerFunction != "executarAnaliseCompleta") = true := by
      simp [bne, hh]
    rw [h1, List.all_eq_true]
    intro t ht
    rw [List.mem_filter] at ht
    rw [bne_iff_ne]
    intro heq
    have hxt : x = t := List.inj_on_of_nodup_map hu hx ht.1 heq
    rw [hxt] at hh
    exact hh ht.2

theorem executarAnaliseCompleta_triggers_witness :
    (executarAnaliseCompleta (FetchOutcome.raises "timeout") worldWithTwoTriggers).world.triggers =
      worldWithTwoTriggers.triggers.filter
        (fun t => t.handlerFunction != "executarAnaliseCompleta") :=
  executarAnaliseCompleta_triggers (FetchOutcome.raises "timeout") worldWithTwoTriggers
    (by decide)

/-! ## Object ids and the insertion of a text box -/

theorem foldl_max_objectId (es : List PageElement) (m : Nat) :
    m ≤ es.foldl (fun m2 e => max m2 e.objectId) m ∧
      ∀ e ∈ es, e.objectId ≤ es.foldl (fun m2 e => max m2 e.objectId) m := by
  induction es generalizing m with
  | nil => exact ⟨le_refl _, fun e he => by cases he⟩
  | cons x rest ih =>
    obtain ⟨h1, h2⟩ := ih (max m x.objectId)
    refine ⟨le_trans (le_max_left _ _) h1, ?_⟩
    intro e he
    cases he with
    | head => exact le_trans (le_max_right _ _) h1
    | tail _ hm => exact h2 e hm

theorem foldl_slides_objectId (slides : List Slide) (m : Nat) :
    m ≤ slides.foldl (fun m s => s.pageElements.foldl (fun m2 e => max m2 e.objectId) m) m ∧
      ∀ x ∈ slides, ∀ e ∈ x.pageElements, e.objectId ≤
        slides.foldl (fun m s => s.pageElements.foldl (fun m2 e => max m2 e.objectId) m) m := by
  induction slides generalizing m with
  | nil => exact ⟨le_refl _, fun x hx => by cases hx⟩
  | cons y rest ih =>
    obtain ⟨h1, h2⟩ := ih (y.pageElements.foldl (fun m2 e => max m2 e.objectId) m)
    obtain ⟨g1, g2⟩ := foldl_max_objectId y.pageElements m
    refine ⟨le_trans g1 h1, ?_⟩
    intro x hx e he
    cases hx with
    | head => exact le_trans (g2 e he) h1
    | tail _ hm => exact h2 x hm e he

theorem findSlide_mem {slideId : String} {slides : List Slide} {x : Slide}
    (h : findSlide slideId slides = some x) : x ∈ slides := by
  induction slides with
  | nil => cases h
  | cons y rest ih =>
    unfold findSlide at h
    by_cases hy : (y.objectId == slideId) = true
    · rw [if_pos hy] at h
      cases h
      exact List.mem_cons_self _ _
    · rw [if_neg hy] at h
      exact List.mem_cons_of_mem _ (ih h)

/-- The object id of a new element is larger than the id of every element of
every slide. -/
theorem objectId_lt_fresh (w : World) (s : String) (e : PageElement)
    (he : e ∈ w.elementsOf s) : e.objectId < freshObjectId (w.presentation.getD []) := by
  unfold World.elementsOf at he
  cases hp : w.presentation with
  | none => rw [hp] at he; cases he
  | some slides =>
    rw [hp] at he
    dsimp only at he
    cases hf : findSlide s slides with
    | none => rw [hf] at he; cases he
    | some x =>
      rw [hf] at he
      unfold freshObjectId
      exact Nat.lt_succ_of_le ((foldl_slides_objectId slides 0).2 x (findSlide_mem hf) e he)

theorem elementsOf_updateSlide_nil (w : World) (s : String)
    (f : List PageElement → List PageElement) (hf : f [] = []) :
    (w.updateSlide s f).elementsOf s = f (w.elementsOf s) := by
  by_cases hs : w.hasSlide s = true
  · exact elementsOf_updateSlide_self w s f hs
  · have h0 := Bool.eq_false_iff.mpr hs
    rw [elementsOf_of_not_hasSlide w s h0, hf]
    apply elementsOf_of_not_hasSlide
    rw [hasSlide_updateSlide]
    exact h0

/-- A text box inserted on a slide the presentation has is the last element
of the slide afterwards, with the text and the style of the call; the
elements of before stay as they are. -/
theorem insertShapeWithText_elements (s : String) (a b c d : ℚ) (text : Script String)
    (st : TextStyle) (w w1 : World) (box : Nat)
    (htext : ∀ w0 t w2, text w0 = Res.ok t w2 → w2 = w0)
    (hs : w.hasSlide s = true)
    (h : insertShapeWithText (some s) a b c d text st w = Res.ok box w1) :
    w1.hasSlide s = true ∧ ∃ t w0, text w0 = Res.ok t w0 ∧
      w1.elementsOf s = w.elementsOf s ++
        [⟨freshObjectId (w.presentation.getD []), ElementKind.shape, t, a, b, c, d, st, false⟩] := by
  unfold insertShapeWithText at h
  obtain ⟨s0, wa, h1, h⟩ := bind_eq_ok h
  cases h1
  obtain ⟨box0, wb, h2, h⟩ := bind_eq_ok h
  have h2b : insertElement s ElementKind.shape a b c d w =
      Res.ok (freshObjectId (w.presentation.getD [])) (w.updateSlide s (fun es => es ++
        [⟨freshObjectId (w.presentation.getD []), ElementKind.shape, "", a, b, c, d,
          TextStyle.plain, false⟩])) := rfl
  rw [h2b] at h2
  cases h2
  obtain ⟨t, wc, h3, h⟩ := bind_eq_ok h
  have hwc := htext _ _ _ h3
  subst hwc
  obtain ⟨u, wd, h4, h⟩ := bind_eq_ok h
  cases h4
  cases h
  refine ⟨?_, t, _, h3, ?_⟩
  · rw [hasSlide_updateSlide, hasSlide_updateSlide]
    exact hs
  · rw [elementsOf_updateSlide_nil _ _ _ rfl, elementsOf_updateSlide_self _ _ _ hs,
      List.map_append]
    congr 1
    · conv_rhs => rw [← List.map_id (w.elementsOf s)]
      apply List.map_congr_left
      intro e he
      have hlt := objectId_lt_fresh w s e he
      have hne : (e.objectId == freshObjectId (w.presentation.getD [])) = false := by
        rw [beq_eq_false_iff_ne]
        exact Nat.ne_of_lt hlt
      simp [hne]
    · simp

theorem pure_keeps_world (t : String) (w0 : World) (t2 : String) (w2 : World)
    (h : (pure t : Script String) w0 = Res.ok t2 w2) : w2 = w0 := by
  cases h
  rfl

/-! ## The loading message is shown once (C11) -/

theorem listIncludes_of_append (a b l : List Char) (h : listIncludes (a ++ b) l = true) :
    listIncludes a l = true := by
  induction l with
  | nil =>
    unfold listIncludes at h ⊢
    cases a with
    | nil => rfl
    | cons x xs => cases h
  | cons c cs ih =>
    unfold listIncludes at h ⊢
    rw [Bool.or_eq_true] at h ⊢
    rcases h with h | h
    · left
      rw [List.isPrefixOf_iff_prefix] at h ⊢
      exact (List.prefix_append a b).trans h
    · exact Or.inr (ih h)

/-- A text that holds the loading message holds its first ten characters,
which the removal loops look for. -/
theorem isLoadingOrErrorText_of_includes (text : String)
    (h : includes text LOADING_MESSAGE_TEXT = true ∨ includes text ERROR_MESSAGE_PREFIX = true) :
    isLoadingOrErrorText text = true := by
  unfold isLoadingOrErrorText
  rw [Bool.or_eq_true]
  rcases h with h | h
  · left
    unfold includes at h ⊢
    apply listIncludes_of_append _ (LOADING_MESSAGE_TEXT.toList.drop 10)
    show listIncludes (LOADING_MESSAGE_TEXT.toList.take 10 ++ LOADING_MESSAGE_TEXT.toList.drop 10)
      text.toList = true
    rw [List.take_append_drop]
    exact h
  · exact Or.inr h

/-- After the removal loop has run to its end over a list of shapes that
holds every old message box of the slide, no shape of the slide is a loading
or error box. -/
theorem removeMessageShapes_clean (s : String) (shapes : List PageElement) (m : String)
    (w w1 : World) (h : removeMessageShapes s shapes m w = Res.ok () w1)
    (hcov : ∀ e ∈ w.elementsOf s, e.kind = ElementKind.shape →
      isLoadingOrErrorText e.text = true → e ∈ shapes) :
    ∀ e ∈ w1.elementsOf s, e.kind = ElementKind.shape → isLoadingOrErrorText e.text = false := by
  unfold removeMessageShapes at h
  induction shapes generalizing w with
  | nil =>
    cases h
    intro e he hk
    cases ht : isLoadingOrErrorText e.text with
    | false => rfl
    | true => cases hcov e he hk ht
  | cons x rest ih =>
    obtain ⟨_, wa, hx, hrest⟩ := bind_eq_ok (show (_ >>= fun _ => forEach rest _) w = _ from h)
    apply ih wa hrest
    intro e he hk ht
    by_cases hm : isLoadingOrErrorText x.text = true
    · dsimp only at hx
      rw [if_pos hm] at hx
      obtain ⟨_, wb, hr, hc⟩ := bind_eq_ok hx
      cases hc
      unfold removeElement at hr
      by_cases hf : x.removeFails = true
      · rw [if_pos hf] at hr; cases hr
      · rw [if_neg hf] at hr
        cases hr
        have he2 : e ∈ (w.updateSlide s (fun es =>
            es.filter (fun y => y.objectId != x.objectId))).elementsOf s := he
        rw [elementsOf_updateSlide_nil _ _ _ rfl, List.mem_filter] at he2
        have hmem := hcov e he2.1 hk ht
        cases hmem with
        | head => simp at he2
        | tail _ hin => exact hin
    · dsimp only at hx
      rw [if_neg hm] at hx
      cases hx
      have hmem := hcov e he hk ht
      cases hmem with
      | head => exact absurd ht hm
      | tail _ hin => exact hin

theorem getSlideById_some {slideId s : String} {w w1 : World}
    (h : getSlideById slideId w = Res.ok (some s) w1) :
    w1 = w ∧ s = slideId ∧ w.hasSlide slideId = true := by
  unfold getSlideById at h
  unfold World.hasSlide
  cases hp : w.presentation with
  | none => rw [hp] at h; cases h
  | some slides =>
    rw [hp] at h
    dsimp only at h ⊢
    cases hf : findSlide slideId slides with
    | none => rw [hf] at h; cases h
    | some x => rw [hf] at h; cases h; exact ⟨rfl, rfl, rfl⟩

theorem openById_world {i : String} {w w1 : World} (h : openById i w = Res.ok () w1) :
    w1 = w := by
  unfold openById at h
  cases hp : w.presentation with
  | none => rw [hp] at h; cases h
  | some slides => rw [hp] at h; cases h; rfl

/-- C11: `exibirMensagemCarregamento` avoids duplicates.  It returns whenever
the loading slide exists and no old message box refuses removal; and for
every prior content of the loading slide, after it has returned the slide
holds exactly one shape whose text contains the loading message
'Executando análises...' and no shape whose text contains the error prefix
'Erro na análise:'. -/
theorem exibirMensagemCarregamento_single_message (w : World) :
    (w.canShowLoading = true → (exibirMensagemCarregamento w).isOk = true) ∧
      ∀ w1, exibirMensagemCarregamento w = Res.ok () w1 →
        ((w1.elementsOf LOADING_MESSAGE_SLIDE_ID).filter (fun e =>
          e.kind == ElementKind.shape && includes e.text LOADING_MESSAGE_TEXT)).length = 1 ∧
        ∀ e ∈ w1.elementsOf LOADING_MESSAGE_SLIDE_ID, e.kind = ElementKind.shape →
          includes e.text ERROR_MESSAGE_PREFIX = false := by
  refine ⟨isOk_exibirMensagemCarregamento w, ?_⟩
  intro w1 h
  unfold exibirMensagemCarregamento at h
  obtain ⟨_, wa, h1, hA⟩ := bind_eq_ok h
  clear h
  rw [openById_world h1] at hA
  clear h1 wa
  obtain ⟨slide, wb, h2, hB⟩ := bind_eq_ok hA
  clear hA
  obtain ⟨s, wc, h3, hC⟩ := bind_eq_ok hB
  clear hB
  rw [slideOrRaise_value h3] at h2 hC
  have e3 : wc = wb := by
    rw [slideOrRaise_value h3] at h3
    cases h3
    rfl
  rw [e3] at hC
  clear h3 e3 wc slide
  obtain ⟨e2, es, hs⟩ := getSlideById_some h2
  rw [e2, es] at hC
  clear h2 e2 es wb s
  obtain ⟨shapes, wd, h4, hD⟩ := bind_eq_ok hC
  clear hC
  cases h4
  obtain ⟨_, w2, h5, hE⟩ := bind_eq_ok hD
  clear hD
  obtain ⟨box, w3, h6, hF⟩ := bind_eq_ok hE
  clear hE
  cases hF
  have hclean := removeMessageShapes_clean _ _ _ _ _ h5 (by
    intro e he hk _
    rw [List.mem_filter]
    exact ⟨he, by rw [hk]; rfl⟩)
  have hs2 : w2.hasSlide LOADING_MESSAGE_SLIDE_ID = true := by
    have hk := ((otherSlides_removeMessageShapes LOADING_MESSAGE_SLIDE_ID
      ((w.elementsOf LOADING_MESSAGE_SLIDE_ID).filter (fun e => e.kind == ElementKind.shape))
      "Mensagem de carregamento/erro antiga removida.").frame w).2.1 LOADING_MESSAGE_SLIDE_ID
    rw [h5] at hk
    exact hk.trans hs
  obtain ⟨_, t, w0, ht, hel⟩ := insertShapeWithText_elements _ _ _ _ _ _ _ _ _ _
    (pure_keeps_world LOADING_MESSAGE_TEXT) hs2 h6
  cases ht
  have hel2 : ({ w3 with console := w3.console ++ [("log", "Mensagem de carregamento exibida.")] }
      : World).elementsOf LOADING_MESSAGE_SLIDE_ID = w3.elementsOf LOADING_MESSAGE_SLIDE_ID := rfl
  have hold : ∀ e ∈ w2.elementsOf LOADING_MESSAGE_SLIDE_ID,
      (e.kind == ElementKind.shape && includes e.text LOADING_MESSAGE_TEXT) = false := by
    intro e he
    by_cases hk : e.kind = ElementKind.shape
    · have hc := hclean e he hk
      cases hi : includes e.text LOADING_MESSAGE_TEXT with
      | false => simp
      | true => rw [isLoadingOrErrorText_of_includes e.text (Or.inl hi)] at hc; cases hc
    · simp [hk]
  constructor
  · show (List.filter _ (World.elementsOf _ LOADING_MESSAGE_SLIDE_ID)).length = 1
    rw [hel2, hel, List.filter_append, List.filter_eq_nil_iff.mpr (fun e he => by
      rw [hold e he]; exact Bool.false_ne_true)]
    have hl : includes LOADING_MESSAGE_TEXT LOADING_MESSAGE_TEXT = true := by decide
    simp [List.filter_cons, hl]
  · intro e he hk
    have he2 : e ∈ w3.elementsOf LOADING_MESSAGE_SLIDE_ID := he
    rw [hel, List.mem_append] at he2
    rcases he2 with he2 | he2
    · have hc := hclean e he2 hk
      cases hi : includes e.text ERROR_MESSAGE_PREFIX with
      | false => rfl
      | true => rw [isLoadingOrErrorText_of_includes e.text (Or.inr hi)] at hc; cases hc
    · rw [List.mem_singleton] at he2
      rw [he2]
      show includes LOADING_MESSAGE_TEXT ERROR_MESSAGE_PREFIX = false
      decide

theorem exibirMensagemCarregamento_single_message_witness :
    (((exibirMensagemCarregamento worldWithError).world.elementsOf
        LOADING_MESSAGE_SLIDE_ID).filter (fun e =>
          e.kind == ElementKind.shape && includes e.text LOADING_MESSAGE_TEXT)).length = 1 :=
  ((exibirMensagemCarregamento_single_message worldWithError).2 _
    (res_eq_ok_of_isOk (by decide!))).1

/-! ## Numbered lines -/

theorem digitChar_isDigit : ∀ m, m < 10 → isDigitChar (Nat.digitChar m) = true := by
  decide

theorem toDigitsCore_isDigit (fuel n : Nat) (ds : List Char)
    (h : ∀ c ∈ ds, isDigitChar c = true) :
    ∀ c ∈ Nat.toDigitsCore 10 fuel n ds, isDigitChar c = true := by
  induction fuel generalizing n ds with
  | zero => exact h
  | succ f ih =>
    have hd : ∀ c ∈ Nat.digitChar (n % 10) :: ds, isDigitChar c = true := by
      intro c hc
      cases hc with
      | head => exact digitChar_isDigit _ (Nat.mod_lt _ (by decide))
      | tail _ hm => exact h c hm
    simp only [Nat.toDigitsCore]
    split
    · exact hd
    · exact ih _ _ hd

theorem toDigitsCore_ne_nil (fuel n : Nat) (ds : List Char) (h : ds ≠ []) :
    Nat.toDigitsCore 10 fuel n ds ≠ [] := by
  induction fuel generalizing n ds with
  | zero => exact h
  | succ f ih =>
    simp only [Nat.toDigitsCore]
    split
    · exact List.cons_ne_nil _ _
    · exact ih _ _ (List.cons_ne_nil _ _)

theorem toDigits_ne_nil (n : Nat) : Nat.toDigits 10 n ≠ [] := by
  unfold Nat.toDigits
  simp only [Nat.toDigitsCore]
  split
  · exact List.cons_ne_nil _ _
  · exact toDigitsCore_ne_nil _ _ _ (List.cons_ne_nil _ _)

/-- A text made of a number, then ". ", then anything, is a numbered text. -/
theorem isNumberedText_toString (n : Nat) (rest : List Char) :
    isNumberedText ((toString n).toList ++ ('.' :: ' ' :: rest)) = true := by
  have hl : (toString n).toList = Nat.toDigits 10 n := rfl
  have hdig : ∀ c ∈ Nat.toDigits 10 n, isDigitChar c = true :=
    toDigitsCore_isDigit _ _ _ (fun c hc => by cases hc)
  have hdot : isDigitChar '.' = false := by decide
  rw [hl]
  unfold isNumberedText
  rw [List.takeWhile_append_of_pos hdig, List.dropWhile_append_of_pos hdig,
    List.takeWhile_cons_of_neg (by rw [hdot]; exact Bool.false_ne_true),
    List.dropWhile_cons_of_neg (by rw [hdot]; exact Bool.false_ne_true), List.append_nil]
  have hne := toDigits_ne_nil n
  cases hd : Nat.toDigits 10 n with
  | nil => exact absurd hd hne
  | cons c cs => simp [List.isPrefixOf]

theorem sameLines_frame (s : String) : IsFrame (SameLines s) :=
  ⟨fun _ => ⟨rfl, rfl⟩, fun _ _ _ h1 h2 => ⟨h2.1.trans h1.1, h2.2.trans h1.2⟩⟩

theorem sameLines_of_noSlide (s : String) (w w1 : World) (h : NoSlide w w1) :
    SameLines s w w1 := by
  unfold NoSlide at h
  unfold SameLines World.numberedLines World.hasSlide World.elementsOf
  rw [h]
  exact ⟨rfl, rfl⟩

theorem sameLines_updateSlide (s : String) (f : List PageElement → List PageElement)
    (w : World) (hf : ∀ es, (f es).filter isNumberedLine = es.filter isNumberedLine) :
    SameLines s w (w.updateSlide s f) := by
  refine ⟨hasSlide_updateSlide w s f s, ?_⟩
  unfold World.numberedLines
  by_cases hs : w.hasSlide s = true
  · rw [elementsOf_updateSlide_self w s f hs, hf]
  · have h0 := Bool.eq_false_iff.mpr hs
    rw [elementsOf_of_not_hasSlide w s h0, elementsOf_of_not_hasSlide _ s (by
      rw [hasSlide_updateSlide]; exact h0)]

/-- A new element whose text and style are set right after its insertion is
the last element of its slide; the elements of before stay as they are. -/
theorem elementsOf_insert_modify (w : World) (s : String) (k : ElementKind) (a b c d : ℚ)
    (g : PageElement → PageElement) (hs : w.hasSlide s = true) :
    ((w.updateSlide s (fun es => es ++ [⟨freshObjectId (w.presentation.getD []), k, "", a, b, c, d,
        TextStyle.plain, false⟩])).updateSlide s (fun es => es.map (fun e =>
          if e.objectId == freshObjectId (w.presentation.getD []) then g e else e))).elementsOf s =
      w.elementsOf s ++ [g ⟨freshObjectId (w.presentation.getD []), k, "", a, b, c, d,
        TextStyle.plain, false⟩] := by
  rw [elementsOf_updateSlide_nil _ _ _ rfl, elementsOf_updateSlide_self _ _ _ hs,
    List.map_append]
  congr 1
  · conv_rhs => rw [← List.map_id (w.elementsOf s)]
    apply List.map_congr_left
    intro e he
    have hlt := objectId_lt_fresh w s e he
    have hne : (e.objectId == freshObjectId (w.presentation.getD [])) = false := by
      rw [beq_eq_false_iff_ne]
      exact Nat.ne_of_lt hlt
    simp [hne]
  · simp

theorem sameLines_insertElement_image (s : String) (a b c d : ℚ) :
    Keeps (SameLines s) (insertElement s ElementKind.image a b c d) := by
  constructor
  intro w
  exact sameLines_updateSlide s (fun es => es ++ [⟨freshObjectId (w.presentation.getD []),
    ElementKind.image, "", a, b, c, d, TextStyle.plain, false⟩]) w (by
      intro es
      rw [List.filter_append]
      simp [isNumberedLine])

/-- The red box 'Erro ao carregar gráfico' is no numbered line. -/
theorem sameLines_errorBox (s : String) (a b c d : ℚ) (st : TextStyle) :
    Keeps (SameLines s) (insertElement s ElementKind.shape a b c d >>= fun errorBox =>
      modifyElement s errorBox (fun e => { e with
        text := "Erro ao carregar gráfico"
        style := st })) := by
  constructor
  intro w
  show SameLines s w ((w.updateSlide s (fun es => es ++ [⟨freshObjectId (w.presentation.getD []),
    ElementKind.shape, "", a, b, c, d, TextStyle.plain, false⟩])).updateSlide s (fun es =>
      es.map (fun e => if e.objectId == freshObjectId (w.presentation.getD []) then
        { e with text := "Erro ao carregar gráfico", style := st } else e)))
  refine ⟨by rw [hasSlide_updateSlide, hasSlide_updateSlide], ?_⟩
  unfold World.numberedLines
  by_cases hs : w.hasSlide s = true
  · rw [elementsOf_insert_modify w s _ a b c d _ hs, List.filter_append]
    have hq : isNumberedText "Erro ao carregar gráfico".toList = false := by decide
    simp [isNumberedLine]
    exact hq
  · have h0 := Bool.eq_false_iff.mpr hs
    rw [elementsOf_of_not_hasSlide w s h0, elementsOf_of_not_hasSlide _ s (by
      rw [hasSlide_updateSlide, hasSlide_updateSlide]; exact h0)]

theorem sameLines_addImageFromBase64 (s : String) (v : JsVal) (a b c d : ℚ) :
    Keeps (SameLines s) (addImageFromBase64 (some s) v a b c d) := by
  unfold addImageFromBase64
  dsimp only
  repeat (with_reducible first
    | exact keeps_mono (sameLines_of_noSlide s) (noSlide_consoleWrite _ _)
    | exact sameLines_insertElement_image _ _ _ _ _
    | exact sameLines_errorBox _ _ _ _ _ _
    | exact keeps_pure (sameLines_frame s) _
    | exact keeps_pureS (sameLines_frame s) _
    | exact keeps_raise (sameLines_frame s) _
    | exact keeps_getWorld (sameLines_frame s)
    | apply keeps_bind (sameLines_frame s)
    | apply keeps_tryCatch (sameLines_frame s)
    | intro _
    | split)

theorem noSlide_getProp (v : JsVal) (n : String) : Keeps NoSlide (getProp v n) := by
  constructor; intro w; unfold getProp; cases v <;> exact rfl

theorem noSlide_forEachItems (v : JsVal) (n : String) : Keeps NoSlide (forEachItems v n) := by
  constructor; intro w; unfold forEachItems; cases v <;> exact rfl

theorem getProp_world {v : JsVal} {n : String} {w w1 : World} {a : JsVal}
    (h : getProp v n w = Res.ok a w1) : w1 = w := by
  unfold getProp at h
  cases v <;> cases h <;> rfl

/-! ## Counting what a script adds -/

theorem adds_of_keeps {α : Type} {s : String} {m : Script α} (h : Keeps (SameLines s) m) :
    Adds s 0 m := by
  constructor
  intro w a w1 hs hr
  have hk := h.frame w
  rw [hr] at hk
  exact ⟨hk.1.trans hs, hk.2⟩

theorem adds_of_noSlide {α : Type} {s : String} {m : Script α} (h : Keeps NoSlide m) :
    Adds s 0 m :=
  adds_of_keeps (keeps_mono (sameLines_of_noSlide s) h)

theorem adds_bind {α β : Type} {s : String} {k1 k2 : Nat} {m : Script α} {f : α → Script β}
    (hm : Adds s k1 m) (hf : ∀ a, Adds s k2 (f a)) : Adds s (k1 + k2) (m >>= f) := by
  constructor
  intro w b w2 hs hr
  obtain ⟨a, w1, h1, h2⟩ := bind_eq_ok hr
  obtain ⟨hs1, c1⟩ := hm.adds w a w1 hs h1
  obtain ⟨hs2, c2⟩ := (hf a).adds w1 b w2 hs1 h2
  exact ⟨hs2, by rw [c2, c1, Nat.add_assoc]⟩

theorem adds_bind_left {α β : Type} {s : String} {k : Nat} {m : Script α} {f : α → Script β}
    (hm : Adds s 0 m) (hf : ∀ a, Adds s k (f a)) : Adds s k (m >>= f) := by
  have h := adds_bind hm hf
  rwa [Nat.zero_add] at h

theorem adds_bind_right {α β : Type} {s : String} {k : Nat} {m : Script α} {f : α → Script β}
    (hm : Adds s k m) (hf : ∀ a, Adds s 0 (f a)) : Adds s k (m >>= f) :=
  adds_bind hm hf

/-- Sequencing where what follows is known to add `k` lines only for the
values the first part can return. -/
theorem adds_bind_val {α β : Type} {s : String} {k : Nat} {m : Script α} {f : α → Script β}
    (Q : α → Prop) (hm : Adds s 0 m) (hq : ∀ w a w1, m w = Res.ok a w1 → Q a)
    (hf : ∀ a, Q a → Adds s k (f a)) : Adds s k (m >>= f) := by
  constructor
  intro w b w2 hs hr
  obtain ⟨a, w1, h1, h2⟩ := bind_eq_ok hr
  obtain ⟨hs1, c1⟩ := hm.adds w a w1 hs h1
  obtain ⟨hs2, c2⟩ := (hf a (hq w a w1 h1)).adds w1 b w2 hs1 h2
  exact ⟨hs2, by rw [c2, c1, Nat.add_zero]⟩

theorem adds_pure {α : Type} (s : String) (a : α) : Adds s 0 (pure a : Script α) :=
  ⟨fun w _ _ hs h => by cases h; exact ⟨hs, rfl⟩⟩

/-- A text box adds one numbered line when its text is a numbered text, and
none otherwise. -/
theorem adds_insertShapeWithText (s : String) (a b c d : ℚ) (text : Script String)
    (st : TextStyle) (k : Nat)
    (htext : ∀ w0 t w2, text w0 = Res.ok t w2 →
      w2 = w0 ∧ (if isNumberedText t.toList = true then 1 else 0) = k) :
    Adds s k (insertShapeWithText (some s) a b c d text st) := by
  constructor
  intro w box w1 hs hr
  obtain ⟨hs1, t, w0, ht, hel⟩ := insertShapeWithText_elements s a b c d text st w w1 box
    (fun w0 t w2 h => (htext w0 t w2 h).1) hs hr
  refine ⟨hs1, ?_⟩
  unfold World.numberedLines
  rw [hel, List.filter_append, List.length_append, ← (htext w0 t w0 ht).2]
  congr 1
  by_cases hn : isNumberedText t.toList = true
  · have hn2 : isNumberedText t.data = true := hn
    simp [isNumberedLine, hn2]
  · have hn2 : ¬ isNumberedText t.data = true := hn
    simp [isNumberedLine, hn2]

theorem adds_textBox (s : String) (a b c d : ℚ) (t : String) (st : TextStyle)
    (ht : isNumberedText t.toList = false) :
    Adds s 0 (insertShapeWithText (some s) a b c d (pure t) st) := by
  apply adds_insertShapeWithText
  intro w0 t2 w2 h
  cases h
  refine ⟨rfl, ?_⟩
  rw [ht]
  rfl

theorem adds_forEachAcc {α σ : Type} {s : String} (xs : List α) (i : Nat) (acc : σ)
    (f : α → Nat → σ → Script σ) (hf : ∀ x j a, Adds s 1 (f x j a)) :
    Adds s xs.length (forEachAcc xs i acc f) := by
  induction xs generalizing i acc with
  | nil => exact ⟨fun w _ _ hs h => by cases h; exact ⟨hs, rfl⟩⟩
  | cons x rest ih =>
    have h := adds_bind (hf x i acc) (fun acc2 => ih (i + 1) acc2)
    rw [Nat.add_comm] at h
    exact h

theorem adds_elim {α : Type} {s : String} {k : Nat} {m : Script α} {w w1 : World} {a : α}
    (hs : w.hasSlide s = true) (hr : m w = Res.ok a w1) (h0 : w.numberedLines s = 0)
    (hm : Adds s k m) : w1.numberedLines s = k := by
  rw [(hm.adds w a w1 hs hr).2, h0, Nat.zero_add]

theorem noSlide_nonEmptyList (v : JsVal) : Keeps NoSlide (nonEmptyList v) := by
  unfold nonEmptyList
  repeat (with_reducible first
    | exact noSlide_getProp _ _
    | exact keeps_pure noSlide_frame _
    | exact keeps_pureS noSlide_frame _
    | apply keeps_bind noSlide_frame
    | intro _
    | split)

theorem clearSlideContent_empties (s : String) (w w1 : World)
    (h : clearSlideContent (some s) w = Res.ok () w1) : w1.elementsOf s = [] := by
  by_cases hs : w.hasSlide s = true
  · have hrun : forEach (w.elementsOf s) (fun e => removeElement s e) w = Res.ok () w1 := h
    have hall := forEach_removeElement_removable s _ w w1 hrun
    obtain ⟨w2, h2, _, he⟩ := clearSlideContent_clears s w hs hall
    rw [h] at h2
    cases h2
    exact he
  · apply elementsOf_of_not_hasSlide
    have hk := ((otherSlides_clearSlideContent s (some s) (Or.inr rfl)).frame w).2.1 s
    rw [h] at hk
    rw [show w1.hasSlide s = w.hasSlide s from hk]
    exact Bool.eq_false_iff.mpr hs

/-- The text of a factor line is a numbered text. -/
theorem isNumberedText_factor_line (j : Nat) (name impacto : String) :
    isNumberedText (toString (j + 1) ++ ". " ++ name ++ ": " ++ impacto).toList = true := by
  have e : (toString (j + 1) ++ ". " ++ name ++ ": " ++ impacto).toList =
      (toString (j + 1)).toList ++ ('.' :: ' ' :: (name.toList ++ (": ".toList ++ impacto.toList))) := by
    simp [String.toList, String.data_append]
  rw [e]
  exact isNumberedText_toString _ _

/-- What follows the reading of `top_fatores` on slide 10 adds no numbered
line: the chart, or the box that tells it could not be loaded. -/
theorem adds_chart (s : String) (data : JsVal) (name logLine : String) (a b c d : ℚ) :
    Adds s 0 (getProp data name >>= fun grafico =>
      if grafico.truthy = true then
        addImageFromBase64 (some s) grafico a b c d >>= fun _ => consoleWrite "log" logLine
      else pure PUnit.unit >>= fun _ => consoleWrite "log" logLine) := by
  apply adds_bind_left (adds_of_noSlide (noSlide_getProp _ _))
  intro grafico
  split
  · exact adds_bind_left (adds_of_keeps (sameLines_addImageFromBase64 _ _ _ _ _ _))
      (fun _ => adds_of_noSlide (noSlide_consoleWrite _ _))
  · exact adds_bind_left (adds_pure _ _) (fun _ => adds_of_noSlide (noSlide_consoleWrite _ _))

/-- One pass of the loop over `top_fatores` adds one numbered line. -/
theorem adds_factor_line (s : String) (fator : JsVal) (j : Nat) (y width : ℚ) :
    Adds s 1 (getProp fator "coeficiente" >>= fun coeficiente =>
      insertShapeWithText (some s) MARGIN_LEFT y width TEXT_LINE_HEIGHT
        (getProp fator "variavel" >>= fun variavel =>
          pure (toString (j + 1) ++ ". " ++ toTitleCase variavel ++ ": " ++
            (if coeficiente.gtZero = true then "AUMENTA o risco" else "DIMINUI o risco")))
        (textStyle TEXT_FONT_SIZE) >>= fun _ => pure (y + TEXT_LINE_HEIGHT)) := by
  apply adds_bind_left (adds_of_noSlide (noSlide_getProp _ _))
  intro coeficiente
  refine adds_bind_right (adds_insertShapeWithText _ _ _ _ _ _ _ 1 ?_) (fun _ => adds_pure _ _)
  intro w0 t w2 h
  obtain ⟨variavel, wv, hv, hp⟩ := bind_eq_ok h
  rw [getProp_world hv] at hp
  cases hp
  refine ⟨rfl, ?_⟩
  rw [if_pos (isNumberedText_factor_line _ _ _)]

set_option maxRecDepth 4000 in
/-- For a payload without `erro` whose `top_fatores` is an array, a run of
`preencherSlide10` that returns leaves one numbered line per item of the
array on slide 10. -/
theorem numberedLines_preencherSlide10 (fields : List (String × JsVal)) (xs : List JsVal)
    (w w1 : World) (herro : (lookupField "erro" fields).truthy = false)
    (htop : lookupField "top_fatores" fields = JsVal.arr xs)
    (h : preencherSlide10 (JsVal.obj fields) w = Res.ok () w1) :
    w1.numberedLines SLIDE_10_ID = xs.length := by
  unfold preencherSlide10 at h
  obtain ⟨_, wa, h1, hA⟩ := bind_eq_ok h
  clear h
  rw [openById_world h1] at hA
  clear h1 wa
  obtain ⟨slide, wb, h2, hB⟩ := bind_eq_ok hA
  clear hA
  obtain ⟨_, w2, h3, hC⟩ := bind_eq_ok hB
  clear hB
  obtain ⟨v, w3, h4, hD⟩ := bind_eq_ok hC
  clear hC
  cases h4
  rw [if_neg (by rw [herro]; exact Bool.false_ne_true)] at hD
  dsimp only at hD
  cases slide with
  | none =>
    obtain ⟨_, w4, h5, _⟩ := bind_eq_ok hD
    unfold insertTitle at h5
    obtain ⟨_, w5, h6, _⟩ := bind_eq_ok h5
    unfold insertShapeWithText at h6
    obtain ⟨_, _, h7, _⟩ := bind_eq_ok h6
    cases h7
  | some s =>
    obtain ⟨e2, es, hs⟩ := getSlideById_some h2
    rw [es] at h3 hD
    rw [e2] at h3
    clear h2 e2 es wb s
    have hempty : w2.numberedLines SLIDE_10_ID = 0 := by
      unfold World.numberedLines
      rw [clearSlideContent_empties _ _ _ h3]
      rfl
    have hs2 : w2.hasSlide SLIDE_10_ID = true := by
      have hk := ((otherSlides_clearSlideContent SLIDE_10_ID (some SLIDE_10_ID)
        (Or.inr rfl)).frame w).2.1 SLIDE_10_ID
      rw [h3] at hk
      exact hk.trans hs
    refine adds_elim hs2 hD hempty ?_
    refine adds_bind_left (adds_bind_left (adds_textBox _ _ _ _ _ _ _ (by decide))
      (fun _ => adds_pure _ _)) ?_
    intro _
    refine adds_bind_val (fun a => a = JsVal.arr xs) (adds_of_noSlide (noSlide_getProp _ _))
      (by intro w0 a w5 h; cases h; exact htop) ?_
    intro top htopv
    subst htopv
    refine adds_bind_val (fun b => b = decide (0 < xs.length))
      (adds_of_noSlide (noSlide_nonEmptyList _)) (by intro w0 a w5 h; cases h; rfl) ?_
    intro b hb
    subst hb
    cases xs with
    | nil =>
      rw [if_neg (by decide)]
      refine adds_bind_left (adds_textBox _ _ _ _ _ _ _ (by decide)) ?_
      intro _
      exact adds_bind_left (adds_pure _ _) (fun _ => adds_chart _ _ _ _ _ _ _ _)
    | cons x rest =>
      rw [if_pos (by simp)]
      refine adds_bind_left (adds_textBox _ _ _ _ _ _ _ (by decide)) ?_
      intro _
      refine adds_bind_val (fun items => items = x :: rest)
        (adds_of_noSlide (noSlide_forEachItems _ _)) (by intro w0 a w5 h; cases h; rfl) ?_
      intro items hi
      subst hi
      refine adds_bind_right (adds_forEachAcc _ _ _ _
        (fun fator j y => adds_factor_line _ fator j y _)) ?_
      intro _
      exact adds_bind_left (adds_pure _ _) (fun _ => adds_chart _ _ _ _ _ _ _ _)

/-! ## Code that never raises -/

theorem total_bind {α β : Type} {m : Script α} {f : α → Script β} (hm : Total m)
    (hf : ∀ a, Total (f a)) : Total (m >>= f) :=
  ⟨fun w => isOk_bind (hm.total w) (fun a w1 _ => (hf a).total w1)⟩

theorem total_bind_val {α β : Type} {m : Script α} {f : α → Script β} (Q : α → Prop)
    (hm : Total m) (hq : ∀ w a w1, m w = Res.ok a w1 → Q a) (hf : ∀ a, Q a → Total (f a)) :
    Total (m >>= f) :=
  ⟨fun w => isOk_bind (hm.total w) (fun a w1 h => (hf a (hq w a w1 h)).total w1)⟩

theorem total_pure {α : Type} (a : α) : Total (pure a : Script α) := ⟨fun _ => rfl⟩

theorem total_consoleWrite (l m : String) : Total (consoleWrite l m) := ⟨fun _ => rfl⟩

theorem total_getProp_obj (fields : List (String × JsVal)) (n : String) :
    Total (getProp (JsVal.obj fields) n) := ⟨fun _ => rfl⟩

theorem total_textBox (s : String) (a b c d : ℚ) (t : String) (st : TextStyle) :
    Total (insertShapeWithText (some s) a b c d (pure t) st) := ⟨fun _ => rfl⟩

theorem total_addImageFromBase64 (s : String) (v : JsVal) (a b c d : ℚ) :
    Total (addImageFromBase64 (some s) v a b c d) := by
  constructor
  intro w
  unfold addImageFromBase64
  dsimp only
  split
  · rfl
  · exact isOk_tryCatch (fun _ _ => rfl)

theorem total_forEachAcc {α σ : Type} (xs : List α) (i : Nat) (acc : σ)
    (f : α → Nat → σ → Script σ) (hf : ∀ x ∈ xs, ∀ j a, Total (f x j a)) :
    Total (forEachAcc xs i acc f) := by
  induction xs generalizing i acc with
  | nil => exact ⟨fun _ => rfl⟩
  | cons x rest ih =>
    exact total_bind (hf x (List.mem_cons_self _ _) i acc)
      (fun acc2 => ih (i + 1) acc2 (fun y hy => hf y (List.mem_cons_of_mem _ hy)))

theorem total_chart (s : String) (fields : List (String × JsVal)) (name logLine : String)
    (a b c d : ℚ) :
    Total (getProp (JsVal.obj fields) name >>= fun grafico =>
      if grafico.truthy = true then
        addImageFromBase64 (some s) grafico a b c d >>= fun _ => consoleWrite "log" logLine
      else pure PUnit.unit >>= fun _ => consoleWrite "log" logLine) := by
  apply total_bind (total_getProp_obj _ _)
  intro grafico
  split
  · exact total_bind (total_addImageFromBase64 _ _ _ _ _ _) (fun _ => total_consoleWrite _ _)
  · exact total_bind (total_pure _) (fun _ => total_consoleWrite _ _)

theorem total_factor_line (s : String) (fator : JsVal) (j : Nat) (y width : ℚ)
    (h : isFatorRecord fator = true) :
    Total (getProp fator "coeficiente" >>= fun coeficiente =>
      insertShapeWithText (some s) MARGIN_LEFT y width TEXT_LINE_HEIGHT
        (getProp fator "variavel" >>= fun variavel =>
          pure (toString (j + 1) ++ ". " ++ toTitleCase variavel ++ ": " ++
            (if coeficiente.gtZero = true then "AUMENTA o risco" else "DIMINUI o risco")))
        (textStyle TEXT_FONT_SIZE) >>= fun _ => pure (y + TEXT_LINE_HEIGHT)) := by
  cases fator with
  | obj fields =>
    exact total_bind (total_getProp_obj _ _) (fun _ =>
      total_bind ⟨fun _ => rfl⟩ (fun _ => total_pure _))
  | undefined => cases h
  | null => cases h
  | bool b => cases h
  | num n => cases h
  | str t => cases h
  | arr l => cases h

set_option maxRecDepth 4000 in
/-- The function `preencherSlide10` returns when the presentation has slide 10,
no element of the slide refuses removal, and the payload has no `erro` and
an array `top_fatores` of factor records. -/
theorem isOk_preencherSlide10 (fields : List (String × JsVal)) (xs : List JsVal) (w : World)
    (herro : (lookupField "erro" fields).truthy = false)
    (htop : lookupField "top_fatores" fields = JsVal.arr xs)
    (hs : w.hasSlide SLIDE_10_ID = true)
    (hrem : ∀ e ∈ w.elementsOf SLIDE_10_ID, e.removeFails = false)
    (hitems : ∀ x ∈ xs, isFatorRecord x = true) :
    (preencherSlide10 (JsVal.obj fields) w).isOk = true := by
  unfold preencherSlide10
  rw [bind_of_ok (openById_of_hasSlide hs _), bind_of_ok (getSlideById_of_hasSlide hs)]
  apply isOk_bind (isOk_forEach_removeElement SLIDE_10_ID _ hrem w)
  intro _ w2 _
  refine Total.total ?_ w2
  refine total_bind_val (fun v => v = lookupField "erro" fields) (total_getProp_obj _ _)
    (by intro w0 a w5 h; cases h; rfl) ?_
  intro v hv
  subst hv
  rw [if_neg (by rw [herro]; exact Bool.false_ne_true)]
  dsimp only
  refine total_bind (total_bind (total_textBox _ _ _ _ _ _ _) (fun _ => total_pure _)) ?_
  intro _
  refine total_bind_val (fun a => a = JsVal.arr xs) (total_getProp_obj _ _)
    (by intro w0 a w5 h; cases h; exact htop) ?_
  intro top htopv
  subst htopv
  refine total_bind_val (fun b => b = decide (0 < xs.length)) ⟨fun _ => rfl⟩
    (by intro w0 a w5 h; cases h; rfl) ?_
  intro b hb
  subst hb
  cases xs with
  | nil =>
    rw [if_neg (by decide)]
    exact total_bind (total_textBox _ _ _ _ _ _ _) (fun _ =>
      total_bind (total_pure _) (fun _ => total_chart _ _ _ _ _ _ _ _))
  | cons x rest =>
    rw [if_pos (by simp)]
    refine total_bind (total_textBox _ _ _ _ _ _ _) ?_
    intro _
    refine total_bind_val (fun items => items = x :: rest) ⟨fun _ => rfl⟩
      (by intro w0 a w5 h; cases h; rfl) ?_
    intro items hi
    subst hi
    exact total_bind (total_forEachAcc _ _ _ _
        (fun fator hf j y => total_factor_line _ fator j y _ (hitems fator hf)))
      (fun _ => total_bind (total_pure _) (fun _ => total_chart _ _ _ _ _ _ _ _))

/-! ## The factor lines of slide 10 (C13) -/

/-- C13 at a payload with six factors: under the heading 'Top 5 fatores de
influência:' the function writes six numbered lines, not five. -/
theorem preencherSlide10_six_factors :
    ((preencherSlide10 sixFatoresData sampleWorld).world.elementsOf SLIDE_10_ID).map
        (fun e => e.text) =
      ["Principais Fatores de Risco", "Top 5 fatores de influência:",
        "1. Ligacoes Callcenter: AUMENTA o risco", "2. Dias Atraso: AUMENTA o risco",
        "3. Total Gasto: DIMINUI o risco", "4. Idade: AUMENTA o risco",
        "5. Tempo Como Cliente: DIMINUI o risco", "6. Frequencia Uso: DIMINUI o risco"] ∧
      (preencherSlide10 sixFatoresData sampleWorld).world.numberedLines SLIDE_10_ID = 6 ∧
      (preencherSlide10 sixFatoresData sampleWorld).world.numberedLines SLIDE_10_ID ≠ min 5 6 := by
  decide!

/-- C13, amended: `preencherSlide10` lists every factor it is given, with no
limit at five.  For a payload without `erro` whose `top_fatores` is an array:
the function returns when the presentation has slide 10, no element of the
slide refuses removal and the items are factor records; and whenever it
returns, the number of numbered factor lines on slide 10 is the length of
`top_fatores`. -/
theorem preencherSlide10_lines (fields : List (String × JsVal)) (xs : List JsVal) (w : World)
    (herro : (lookupField "erro" fields).truthy = false)
    (htop : lookupField "top_fatores" fields = JsVal.arr xs) :
    (w.hasSlide SLIDE_10_ID = true → (∀ e ∈ w.elementsOf SLIDE_10_ID, e.removeFails = false) →
        (∀ x ∈ xs, isFatorRecord x = true) →
        (preencherSlide10 (JsVal.obj fields) w).isOk = true) ∧
      ∀ w1, preencherSlide10 (JsVal.obj fields) w = Res.ok () w1 →
        w1.numberedLines SLIDE_10_ID = xs.length :=
  ⟨isOk_preencherSlide10 fields xs w herro htop,
    fun w1 h => numberedLines_preencherSlide10 fields xs w w1 herro htop h⟩

theorem preencherSlide10_lines_witness :
    (preencherSlide10 twoFatoresData sampleWorld).isOk = true ∧
      (preencherSlide10 twoFatoresData sampleWorld).world.numberedLines SLIDE_10_ID = 2 :=
  ⟨(preencherSlide10_lines twoFatoresFields twoFatores sampleWorld (by decide) rfl).1
      (by decide) (by decide) (by decide),
    (preencherSlide10_lines twoFatoresFields twoFatores sampleWorld (by decide) rfl).2 _
      (res_eq_ok_of_isOk (by decide!))⟩

end DynamicPresentation
